import Mathlib

/-!
# Scribe syscall record/replay protocol (`scribe/syscalls.c`)

A shallow embedding of the syscall-boundary record/replay controller of
`scribe/syscalls.c`, followed by theorems about it.

Conventions of the embedding.

* The file targets 32-bit x86 (`scribe_regs` masks the segment registers
  `gs`, `fs`, `es`, `ds` of `pt_regs`, and `__NR_socketcall` exists), so an
  `unsigned long` is a natural number below `2^32` and
  `sizeof(unsigned long)` is `4`.  C `int`/`long` values are `Int`.
* The kernel headers (`linux/scribe.h`, `asm/unistd.h`, `linux/net.h`,
  `linux/futex.h`, ...) are not part of the sources at hand.  Every constant
  they define is a field of `Consts`; theorems quantify over all constant
  tables and state the relations they rely on as hypotheses.
* Helpers defined in other files (event queue, insert points, flag
  predicates, user-memory capability) are modelled from the specification;
  each such definition says so in its doc comment.
-/

namespace Scribe

/-! ## Machine words -/

/-- Number of values of an `unsigned long` on the 32-bit target. -/
def ULONG_SIZE : Nat := 2 ^ 32

/-- Value of `sizeof(unsigned long)` on the 32-bit target. -/
def sizeof_ulong : Nat := 4

/-- Bitwise complement `~x` of an `unsigned long`. -/
def not_ulong (x : Nat) : Nat := (ULONG_SIZE - 1) ^^^ (x % ULONG_SIZE)

/-- Conversion of a C `int` to `unsigned long` (reduction modulo `2^32`). -/
def to_ulong (i : Int) : Nat := (i % (ULONG_SIZE : Int)).toNat

/-- Conversion of an `unsigned long` to a C `int` (two's complement). -/
def to_int (w : Nat) : Int :=
  if w % ULONG_SIZE < 2 ^ 31 then ((w % ULONG_SIZE : Nat) : Int)
  else ((w % ULONG_SIZE : Nat) : Int) - (ULONG_SIZE : Int)

/-! ## Constants of the absent headers -/

/-- Constants and tables that `syscalls.c` takes from headers which are not
part of the sources at hand.  Flag masks are `unsigned long`, syscall numbers,
durations and error numbers are `int`. -/
structure Consts where
  /-- Flag bit of `linux/scribe.h`: the unit is being recorded. -/
  SCRIBE_PS_RECORD : Nat
  /-- Flag bit of `linux/scribe.h`: the unit is being replayed. -/
  SCRIBE_PS_REPLAY : Nat
  /-- Flag bit of `linux/scribe.h`: mutation mode is active. -/
  SCRIBE_PS_MUTATING : Nat
  /-- Flag bit of `linux/scribe.h`: strict replay. -/
  SCRIBE_PS_STRICT_REPLAY : Nat
  /-- Enable bit: syscall scribing. -/
  SCRIBE_PS_ENABLE_SYSCALL : Nat
  /-- Enable bit: data scribing. -/
  SCRIBE_PS_ENABLE_DATA : Nat
  /-- Enable bit: signal scribing. -/
  SCRIBE_PS_ENABLE_SIGNAL : Nat
  /-- Enable bit: memory scribing. -/
  SCRIBE_PS_ENABLE_MM : Nat
  /-- Enable bit: register-consistency checking. -/
  SCRIBE_PS_ENABLE_REGS : Nat
  /-- Mask of all the enable bits. -/
  SCRIBE_PS_ENABLE_ALL : Nat
  /-- Duration code: until the next syscall exit. -/
  SCRIBE_UNTIL_NEXT_SYSCALL : Int
  /-- Duration code: permanent (spelled as in the source). -/
  SCRIBE_PERMANANT : Int
  /-- Raw syscall number of `exit`. -/
  __NR_exit : Int
  /-- Raw syscall number of `fork`. -/
  __NR_fork : Int
  /-- Raw syscall number of `open`. -/
  __NR_open : Int
  /-- Raw syscall number of `socketcall`. -/
  __NR_socketcall : Int
  /-- Raw syscall number of `clone`. -/
  __NR_clone : Int
  /-- Raw syscall number of `prctl`. -/
  __NR_prctl : Int
  /-- Raw syscall number of `vfork`. -/
  __NR_vfork : Int
  /-- Raw syscall number of `futex`. -/
  __NR_futex : Int
  /-- Raw syscall number of `exit_group`. -/
  __NR_exit_group : Int
  /-- Raw syscall number of the control-surface call `get_scribe_flags`. -/
  __NR_get_scribe_flags : Int
  /-- Raw syscall number of the control-surface call `set_scribe_flags`. -/
  __NR_set_scribe_flags : Int
  /-- Raw syscall number of the control-surface call `scribe_send_event`. -/
  __NR_scribe_send_event : Int
  /-- Raw syscall number of the control-surface call `scribe_recv_event`. -/
  __NR_scribe_recv_event : Int
  /-- Raw syscall number of the control-surface call `scribe_filter_syscall`. -/
  __NR_scribe_filter_syscall : Int
  /-- Number of raw syscall numbers (`asm/unistd.h`). -/
  NR_syscalls : Int
  /-- Size of the universe of syscall identities (bits of the enable bitmap). -/
  NR_scribe_syscalls : Int
  /-- First identity of the expanded socket sub-operations. -/
  SCRIBE_SOCKETCALL_FIRST : Int
  /-- Last identity of the expanded socket sub-operations. -/
  SCRIBE_SOCKETCALL_LAST : Int
  /-- First identity of the expanded futex commands. -/
  SCRIBE_FUTEX_FIRST : Int
  /-- Last identity of the expanded futex commands. -/
  SCRIBE_FUTEX_LAST : Int
  /-- Largest socket sub-operation selector (`linux/net.h`). -/
  SYS_RECVMMSG : Int
  /-- Mask of the command bits of a futex operation (`linux/futex.h`). -/
  FUTEX_CMD_MASK : Int
  /-- Creation bit of the `open` flags argument. -/
  O_CREAT : Nat
  /-- Error number: divergence. -/
  EDIVERGE : Int
  /-- Error number: operation not permitted. -/
  EPERM : Int
  /-- Error number: invalid argument. -/
  EINVAL : Int
  /-- Error number: no such process. -/
  ESRCH : Int
  /-- Error number: bad address. -/
  EFAULT : Int
  /-- Error number: out of memory. -/
  ENOMEM : Int
  /-- Error number returned (negated) by the queue when no event is left. -/
  ENODATA : Int
  /-- Static syscall metadata `syscall_nr_to_meta(nr)->nb_args`; `none` when
  the lookup returns `NULL`. -/
  syscall_nr_to_meta : Int → Option Nat

/-! ## Events -/

/-- Type tags of the events (the `SCRIBE_EVENT_*` enumeration). -/
inductive event_type where
  | SCRIBE_EVENT_SYSCALL
  | SCRIBE_EVENT_SYSCALL_EXTRA
  | SCRIBE_EVENT_SYSCALL_END
  | SCRIBE_EVENT_REGS
  | SCRIBE_EVENT_DIVERGE_REGS
  | SCRIBE_EVENT_DIVERGE_SYSCALL
  | SCRIBE_EVENT_DIVERGE_SYSCALL_RET
  | SCRIBE_EVENT_SET_FLAGS
  | SCRIBE_EVENT_NOP
  deriving DecidableEq, Repr

/-- Events of the stream.  `syscall_extra` carries the byte length `size` of
its argument payload (the header field `h.size`) and the argument words. -/
inductive scribe_event where
  | syscall (ret : Int)
  | syscall_extra (size : Nat) (ret : Int) (nr : Int) (args : List Nat)
  | syscall_end
  | regs (snapshot : List Nat)
  | diverge_regs (snapshot : List Nat)
  | diverge_syscall (nr : Int) (num_args : Nat) (args : List Nat)
  | diverge_syscall_ret (ret : Int)
  | set_flags (flags : Nat) (duration : Int)
  | nop
  deriving DecidableEq, Repr

/-- The header field `type` of an event. -/
def scribe_event.type : scribe_event → event_type
  | .syscall _ => .SCRIBE_EVENT_SYSCALL
  | .syscall_extra _ _ _ _ => .SCRIBE_EVENT_SYSCALL_EXTRA
  | .syscall_end => .SCRIBE_EVENT_SYSCALL_END
  | .regs _ => .SCRIBE_EVENT_REGS
  | .diverge_regs _ => .SCRIBE_EVENT_DIVERGE_REGS
  | .diverge_syscall _ _ _ => .SCRIBE_EVENT_DIVERGE_SYSCALL
  | .diverge_syscall_ret _ => .SCRIBE_EVENT_DIVERGE_SYSCALL_RET
  | .set_flags _ _ => .SCRIBE_EVENT_SET_FLAGS
  | .nop => .SCRIBE_EVENT_NOP

/-! ## Traced-unit state -/

/-- The cached call `scribe->syscall`: identity, argument count and the six
argument words. -/
structure syscall_cache where
  nr : Int
  num_args : Nat
  args : List Nat
  deriving DecidableEq, Repr

/-- Word `args[i]` of an argument array. -/
def arg_at (args : List Nat) (i : Nat) : Nat := args.getD i 0

/-- The per-unit state `struct scribe_ps`, together with the parts of its
surroundings that `syscalls.c` reads or writes.

* `queue` is the unit's event stream `scribe->queue->stream`: the events
  still to be consumed when replaying, the events produced so far when
  recording.
* `syscall_ip` is the insert point `scribe->syscall_ip`: `some p` while a
  reservation at position `p` of the stream is outstanding.
* `sys_enable_bitmap` is the bit-addressed memory at the bitmap: offsets in
  `[0, NR_scribe_syscalls)` are the bits of the bitmap itself.
* `diverged` collects the events handed to `scribe_mutation` and
  `scribe_diverge`.
* `killed` is the error the session was killed with by `scribe_kill`.
* `alloc_budget` is the allocator: `none` when every event allocation
  succeeds, `some n` when only the next `n` succeed.
* `sigpending` is the thread flag `TIF_SIGPENDING`, `signal_waiting` whether
  a signal is waiting to be delivered, `mem_reloads` the number of
  `scribe_mem_reload` notifications issued.
* `syscall_extra`, `ret_check` are the session modes read by
  `should_scribe_syscall_extra` and `should_ret_check`; `detaching` is read
  by `scribe_maybe_detach`, `exiting` is `p->flags & PF_EXITING`. -/
structure scribe_ps where
  flags : Nat
  commit_sys_reset_flags : Nat
  can_uaccess : Bool
  sys_enable_bitmap : Int → Bool
  syscall : syscall_cache
  need_syscall_ret : Bool
  in_syscall : Bool
  orig_ret : Int
  syscall_ip : Option Nat
  queue : List scribe_event
  diverged : List scribe_event
  killed : Option Int
  alloc_budget : Option Nat
  sigpending : Bool
  signal_waiting : Bool
  mem_reloads : Nat
  syscall_extra : Bool
  ret_check : Bool
  detaching : Bool
  exiting : Bool

/-! ## Flag predicates (absent header `linux/scribe.h`) -/

/-- Modelled from the spec: `is_recording` of `linux/scribe.h`; the unit's
flags carry the record bit. -/
def is_recording (K : Consts) (s : scribe_ps) : Bool :=
  s.flags &&& K.SCRIBE_PS_RECORD != 0

/-- Modelled from the spec: `is_replaying` of `linux/scribe.h`; the unit's
flags carry the replay bit. -/
def is_replaying (K : Consts) (s : scribe_ps) : Bool :=
  s.flags &&& K.SCRIBE_PS_REPLAY != 0

/-- Modelled from the spec: `is_scribed` of `linux/scribe.h`; the unit is
under scribing when it is recorded or replayed. -/
def is_scribed (K : Consts) (s : scribe_ps) : Bool :=
  s.flags &&& (K.SCRIBE_PS_RECORD ||| K.SCRIBE_PS_REPLAY) != 0

/-- Modelled from the spec: `is_mutating` of `linux/scribe.h`; the
mutation-active mode bit of the flags. -/
def is_mutating (K : Consts) (s : scribe_ps) : Bool :=
  s.flags &&& K.SCRIBE_PS_MUTATING != 0

/-- Modelled from the spec: `should_strict_replay` of `linux/scribe.h`; the
strict-replay mode bit of the flags (the bit `scribe_need_syscall_ret_replay`
sets to force it). -/
def should_strict_replay (K : Consts) (s : scribe_ps) : Bool :=
  s.flags &&& K.SCRIBE_PS_STRICT_REPLAY != 0

/-- Modelled from the spec: `should_scribe_syscalls` of `linux/scribe.h`;
syscall scribing is enabled in the flags. -/
def should_scribe_syscalls (K : Consts) (s : scribe_ps) : Bool :=
  s.flags &&& K.SCRIBE_PS_ENABLE_SYSCALL != 0

/-- Modelled from the spec: `should_scribe_syscall_extra` of
`linux/scribe.h`; the session uses the extra event variant. -/
def should_scribe_syscall_extra (s : scribe_ps) : Bool := s.syscall_extra

/-- Modelled from the spec: `should_ret_check` of `linux/scribe.h`;
return-value checking is enabled. -/
def should_ret_check (s : scribe_ps) : Bool := s.ret_check

/-! ## Mode/flag controller -/

/-- Modelled from the spec: `__scribe_forbid_uaccess` of the memory
subsystem; relinquishes the user-memory access capability. -/
def __scribe_forbid_uaccess (s : scribe_ps) : scribe_ps :=
  { s with can_uaccess := false }

/-- Modelled from the spec: `__scribe_allow_uaccess` of the memory subsystem;
acquires the user-memory access capability. -/
def __scribe_allow_uaccess (s : scribe_ps) : scribe_ps :=
  { s with can_uaccess := true }

/-- Modelled from the spec: `scribe_mem_reload` of the memory subsystem; the
notification is counted. -/
def scribe_mem_reload (s : scribe_ps) : scribe_ps :=
  { s with mem_reloads := s.mem_reloads + 1 }

/-- The function `scribe_syscall_set_flags(scribe, new_flags, duration)`. -/
def scribe_syscall_set_flags (K : Consts) (s : scribe_ps) (new_flags : Nat)
    (duration : Int) : scribe_ps :=
  let old_flags := s.flags
  let old_mm : Bool := old_flags &&& K.SCRIBE_PS_ENABLE_MM != 0
  let new_mm : Bool := new_flags &&& K.SCRIBE_PS_ENABLE_MM != 0
  let s1 : scribe_ps :=
    if duration = K.SCRIBE_UNTIL_NEXT_SYSCALL then
      { s with commit_sys_reset_flags := old_flags, sigpending := false }
    else
      { s with commit_sys_reset_flags := 0 }
  let s2 : scribe_ps :=
    if old_mm && !new_mm then
      (if s1.can_uaccess then __scribe_forbid_uaccess s1 else s1)
    else s1
  let s3 : scribe_ps :=
    { s2 with flags := s2.flags &&& not_ulong K.SCRIBE_PS_ENABLE_ALL }
  let s4 : scribe_ps :=
    { s3 with flags := s3.flags ||| (new_flags &&& K.SCRIBE_PS_ENABLE_ALL) }
  if old_mm != new_mm then scribe_mem_reload s4 else s4

/-! ## Event queue, insert points, reports (absent file `scribe/event.c`) -/

/-- Modelled from the spec: `scribe_alloc_event` and
`scribe_alloc_event_sized`; the allocation fails (returns `NULL`, here
`false`) once the allocator's budget is used up. -/
def scribe_alloc_event (s : scribe_ps) : Bool × scribe_ps :=
  match s.alloc_budget with
  | none => (true, s)
  | some 0 => (false, s)
  | some (n + 1) => (true, { s with alloc_budget := some n })

/-- Modelled from the spec: `scribe_kill(ctx, err)` of the session
lifecycle; the session is fatally terminated with `err`. -/
def scribe_kill (s : scribe_ps) (err : Int) : scribe_ps :=
  { s with killed := some err }

/-- Modelled from the spec: `scribe_queue_event`, `enqueue(event)`; the
event is appended to the stream. -/
def scribe_queue_event (s : scribe_ps) (ev : scribe_event) : scribe_ps :=
  { s with queue := s.queue ++ [ev] }

/-- Modelled from the spec: `scribe_queue_new_event`; allocates the event and
appends it, or returns `-ENOMEM` when the allocation fails. -/
def scribe_queue_new_event (K : Consts) (s : scribe_ps) (ev : scribe_event) :
    Int × scribe_ps :=
  let r := scribe_alloc_event s
  if r.1 then (0, scribe_queue_event r.2 ev) else (-K.ENOMEM, r.2)

/-- Modelled from the spec: `scribe_create_insert_point`, `reserve_slot()`;
reserves a slot at the current end of the stream, before any event queued
later. -/
def scribe_create_insert_point (s : scribe_ps) : scribe_ps :=
  { s with syscall_ip := some s.queue.length }

/-- Modelled from the spec: `scribe_queue_event_at`, `fill_slot(handle,
event)`; writes the event at the reserved position.  Without an outstanding
reservation (which the protocol never reaches) the event goes to the end. -/
def scribe_queue_event_at (s : scribe_ps) (ev : scribe_event) : scribe_ps :=
  match s.syscall_ip with
  | some p =>
    { s with queue := s.queue.take p ++ ev :: s.queue.drop p,
             syscall_ip := some (p + 1) }
  | none => { s with queue := s.queue ++ [ev] }

/-- Modelled from the spec: `scribe_commit_insert_point`,
`commit_slot(handle)`; resolves the reservation. -/
def scribe_commit_insert_point (s : scribe_ps) : scribe_ps :=
  { s with syscall_ip := none }

/-- Modelled from the spec: `scribe_peek_event(queue, SCRIBE_WAIT)`,
`peek(blocking_mode)`; the next event of the stream, `none` for the error
pointer returned when no event is left. -/
def scribe_peek_event (s : scribe_ps) : Option scribe_event := s.queue.head?

/-- Modelled from the spec: `scribe_dequeue_event`, `dequeue(blocking_mode)`;
removes and returns the next event of the stream. -/
def scribe_dequeue_event (s : scribe_ps) : Option scribe_event × scribe_ps :=
  match s.queue with
  | [] => (none, s)
  | ev :: rest => (some ev, { s with queue := rest })

/-- Modelled from the spec: the macros `scribe_mutation` and `scribe_diverge`;
the divergence event is emitted to the report channel. -/
def scribe_mutation (s : scribe_ps) (ev : scribe_event) : scribe_ps :=
  { s with diverged := s.diverged ++ [ev] }

/-- Modelled from the spec: `scribe_dequeue_event_specific(scribe, type)`,
`dequeue_expecting(variant) -> Event | NotFound`; the next event, removed from
the stream, when it has the expected type, otherwise an error and the stream
as it is: `-ENODATA` when no event is left, `-EDIVERGE` when the next event
has another type. -/
def scribe_dequeue_event_specific (K : Consts) (s : scribe_ps)
    (type : event_type) : Except Int scribe_event × scribe_ps :=
  match scribe_peek_event s with
  | none => (.error (-K.ENODATA), s)
  | some ev =>
    if ev.type = type then (.ok ev, (scribe_dequeue_event s).2)
    else (.error (-K.EDIVERGE), s)

/-- Modelled from the spec: `scribe_start_mutations`; the unit enters
mutation mode (the mutation-active bit of the flags is set). -/
def scribe_start_mutations (K : Consts) (s : scribe_ps) : scribe_ps :=
  { s with flags := s.flags ||| K.SCRIBE_PS_MUTATING }

/-- Modelled from the spec: `scribe_stop_mutations`; the unit leaves mutation
mode (the mutation-active bit of the flags is cleared). -/
def scribe_stop_mutations (K : Consts) (s : scribe_ps) : scribe_ps :=
  { s with flags := s.flags &&& not_ulong K.SCRIBE_PS_MUTATING }

/-! ## Return-value reservation and the divergence detector -/

/-- The function `scribe_need_syscall_ret_record(scribe)`. -/
def scribe_need_syscall_ret_record (s : scribe_ps) : Int × scribe_ps :=
  (0, scribe_create_insert_point s)

/-- The function `looks_like_address(value)`. -/
def looks_like_address (value : Nat) : Bool := value &&& 0xff800000 != 0

/-- The argument loop of `scribe_need_syscall_ret_replay`: `true` when the
loop runs to its end, `false` when it leaves through `goto diverge`. -/
def syscall_args_accepted (ev_args live_args : List Nat) (num_args : Nat) :
    Bool :=
  (List.range num_args).all fun i =>
    arg_at ev_args i == arg_at live_args i ||
      (looks_like_address (arg_at ev_args i) &&
        looks_like_address (arg_at live_args i))

/-- The checks of `scribe_need_syscall_ret_replay` on the peeked event in
extra mode: `false` when one of them takes `goto diverge`. -/
def syscall_event_accepted (s : scribe_ps) (ev : scribe_event) : Bool :=
  match ev with
  | .syscall_extra size _ nr args =>
    nr == s.syscall.nr &&
    size == s.syscall.num_args * sizeof_ulong &&
    syscall_args_accepted args s.syscall.args s.syscall.num_args
  | _ => false

/-- The part of `scribe_need_syscall_ret_replay` from the label `diverge:` to
the final `return ret`. -/
def syscall_diverge (K : Consts) (s : scribe_ps) : Int × scribe_ps :=
  let is_fork : Bool :=
    s.syscall.nr == K.__NR_clone || s.syscall.nr == K.__NR_fork ||
      s.syscall.nr == K.__NR_vfork
  let old_flags : Nat := if is_fork then s.flags else 0
  let s1 : scribe_ps :=
    if is_fork then { s with flags := s.flags ||| K.SCRIBE_PS_STRICT_REPLAY }
    else s
  let s2 : scribe_ps :=
    if should_strict_replay K s1 then (scribe_dequeue_event s1).2
    else if s1.syscall.nr != K.__NR_exit && s1.syscall.nr != K.__NR_exit_group
      then scribe_start_mutations K s1
    else s1
  let s3 : scribe_ps :=
    scribe_mutation s2
      (.diverge_syscall s2.syscall.nr s2.syscall.num_args
        ((List.range 6).map (arg_at s2.syscall.args)))
  let out : Int × scribe_ps :=
    if should_strict_replay K s3 then (-K.EDIVERGE, s3)
    else
      let s4 := scribe_syscall_set_flags K s3 K.SCRIBE_PS_ENABLE_DATA
        K.SCRIBE_UNTIL_NEXT_SYSCALL
      let s5 : scribe_ps := { s4 with orig_ret := 0 }
      (0, (scribe_need_syscall_ret_record s5).2)
  (out.1, if old_flags != 0 then { out.2 with flags := old_flags } else out.2)

/-- The function `scribe_need_syscall_ret_replay(scribe)`. -/
def scribe_need_syscall_ret_replay (K : Consts) (s : scribe_ps) :
    Int × scribe_ps :=
  if !should_scribe_syscall_extra s then
    match scribe_dequeue_event_specific K s .SCRIBE_EVENT_SYSCALL with
    | (.error e, s1) => (e, s1)
    | (.ok (.syscall ret), s1) => (0, { s1 with orig_ret := ret })
    | (.ok _, s1) => (0, s1)
  else
    match scribe_peek_event s with
    | none => (-K.ENODATA, s)
    | some ev =>
      if syscall_event_accepted s ev then
        match ev with
        | .syscall_extra _ ret _ _ =>
          (0, { (scribe_dequeue_event s).2 with orig_ret := ret })
        | _ => (0, (scribe_dequeue_event s).2)
      else syscall_diverge K s

/-! ## Committing the return value -/

/-- The function `scribe_commit_syscall_record(scribe, ret_value)`. -/
def scribe_commit_syscall_record (K : Consts) (s : scribe_ps)
    (ret_value : Int) : scribe_ps :=
  let syscall_extra := should_scribe_syscall_extra s
  let a := scribe_alloc_event s
  if !a.1 then scribe_kill a.2 (-K.ENOMEM)
  else
    let event : scribe_event :=
      if syscall_extra then
        .syscall_extra (a.2.syscall.num_args * sizeof_ulong) ret_value
          a.2.syscall.nr
          ((List.range a.2.syscall.num_args).map (arg_at a.2.syscall.args))
      else .syscall ret_value
    let s1 := scribe_queue_event_at a.2 event
    let s2 := scribe_commit_insert_point s1
    if syscall_extra then
      let q := scribe_queue_new_event K s2 .syscall_end
      if q.1 != 0 then scribe_kill q.2 (-K.ENOMEM) else q.2
    else s2

/-- The function `scribe_commit_syscall_replay(scribe, ret_value)`. -/
def scribe_commit_syscall_replay (K : Consts) (s : scribe_ps)
    (ret_value : Int) : scribe_ps :=
  let s1 : scribe_ps :=
    if should_scribe_syscall_extra s then
      (scribe_dequeue_event_specific K s .SCRIBE_EVENT_SYSCALL_END).2
    else s
  if should_ret_check s1 then
    if s1.orig_ret != ret_value then
      scribe_mutation s1 (.diverge_syscall_ret ret_value)
    else s1
  else s1

/-- The function `scribe_commit_syscall(scribe, ret_value)`. -/
def scribe_commit_syscall (K : Consts) (s : scribe_ps) (ret_value : Int) :
    scribe_ps :=
  if !s.need_syscall_ret then s
  else
    let s1 : scribe_ps := { s with need_syscall_ret := false }
    if is_recording K s1 then scribe_commit_syscall_record K s1 ret_value
    else scribe_commit_syscall_replay K s1 ret_value

/-! ## Syscall identity resolver -/

/-- The registers `struct pt_regs` of a 32-bit x86 call frame, as far as the
resolver reads them: the raw syscall number `orig_ax`, the return value `ax`
and the six argument registers. -/
structure pt_regs where
  orig_ax : Int
  ax : Int
  bx : Nat
  cx : Nat
  dx : Nat
  si : Nat
  di : Nat
  bp : Nat
  deriving DecidableEq, Repr

/-- Modelled from the spec: `syscall_get_nr` of `asm/syscall.h`; the raw
syscall number of the call frame. -/
def syscall_get_nr (regs : pt_regs) : Int := regs.orig_ax

/-- Modelled from the spec: `syscall_get_return_value` of `asm/syscall.h`;
the live return value of the call frame. -/
def syscall_get_return_value (regs : pt_regs) : Int := regs.ax

/-- Modelled from the spec: `syscall_get_arguments(task, regs, i, n, args)`
of `asm/syscall.h`; the `n` raw argument words of the call frame from
argument `i` on. -/
def syscall_get_arguments (regs : pt_regs) (i n : Nat) : List Nat :=
  (([regs.bx, regs.cx, regs.dx, regs.si, regs.di, regs.bp].drop i).take n)

/-- Writing the words `ws` to the start of the argument array `args`; the
words behind them keep their value. -/
def store_args (args ws : List Nat) : List Nat := ws ++ args.drop ws.length

/-- The function `get_nr_syscall(regs)`. -/
def get_nr_syscall (K : Consts) (regs : pt_regs) : Int :=
  let nr := syscall_get_nr regs
  if nr = K.__NR_socketcall then
    let call := arg_at (syscall_get_arguments regs 0 1) 0
    if call > to_ulong K.SYS_RECVMMSG then nr
    else to_int (to_ulong K.SCRIBE_SOCKETCALL_FIRST + call)
  else if nr = K.__NR_futex then
    let call := arg_at (syscall_get_arguments regs 1 1) 0
    let call := call &&& to_ulong K.FUTEX_CMD_MASK
    if call > to_ulong K.SCRIBE_FUTEX_LAST then nr
    else to_int (to_ulong K.SCRIBE_FUTEX_FIRST + call)
  else nr

/-- The table `socket_nargs`. -/
def socket_nargs : List Nat :=
  [0, 3, 3, 3, 2, 3, 3, 3, 4, 4, 4, 6, 6, 2, 5, 5, 3, 3, 4, 5]

/-- The function `get_num_args(nr)`. -/
def get_num_args (K : Consts) (nr : Int) : Nat :=
  if K.SCRIBE_SOCKETCALL_FIRST ≤ nr ∧ nr ≤ K.SCRIBE_SOCKETCALL_LAST then
    socket_nargs.getD (nr - K.SCRIBE_SOCKETCALL_FIRST).toNat 0
  else if K.SCRIBE_FUTEX_FIRST ≤ nr ∧ nr ≤ K.SCRIBE_FUTEX_LAST then 6
  else
    match K.syscall_nr_to_meta nr with
    | none => 0
    | some nb_args => nb_args

/-- The function `cache_syscall_info(scribe, regs)`.  The traced unit's
memory is `copy_from_user`: the words read at an address, `none` when the
copy faults. -/
def cache_syscall_info (K : Consts)
    (copy_from_user : Nat → Nat → Option (List Nat)) (s : scribe_ps)
    (regs : pt_regs) : scribe_ps :=
  let nr := get_nr_syscall K regs
  let num_args := get_num_args K nr
  if K.SCRIBE_SOCKETCALL_FIRST ≤ nr ∧ nr ≤ K.SCRIBE_SOCKETCALL_LAST then
    let base := arg_at (syscall_get_arguments regs 1 1) 0
    let ws : List Nat :=
      match copy_from_user base num_args with
      | some ws => ws.take num_args
      | none => List.replicate num_args (ULONG_SIZE - 1)
    { s with syscall :=
        { nr := nr, num_args := num_args, args := store_args s.syscall.args ws } }
  else
    let args := store_args s.syscall.args (syscall_get_arguments regs 0 num_args)
    if nr = K.__NR_open then
      if arg_at args 1 &&& K.O_CREAT = 0 then
        { s with syscall := { nr := nr, num_args := 2, args := args } }
      else { s with syscall := { nr := nr, num_args := num_args, args := args } }
    else { s with syscall := { nr := nr, num_args := num_args, args := args } }

/-- The function `is_scribe_syscall(scribe)`. -/
def is_scribe_syscall (K : Consts) (s : scribe_ps) : Bool :=
  s.syscall.nr == K.__NR_get_scribe_flags ||
  s.syscall.nr == K.__NR_set_scribe_flags ||
  s.syscall.nr == K.__NR_scribe_send_event ||
  s.syscall.nr == K.__NR_scribe_recv_event ||
  s.syscall.nr == K.__NR_scribe_filter_syscall

/-! ## Enable bitmap -/

/-- Modelled from the spec: `test_bit(nr, addr)` of the kernel bit
operations. -/
def test_bit (nr : Int) (addr : Int → Bool) : Bool := addr nr

/-- Modelled from the spec: `set_bit(nr, addr)` of the kernel bit
operations. -/
def set_bit (nr : Int) (addr : Int → Bool) : Int → Bool :=
  fun i => if i = nr then true else addr i

/-- Modelled from the spec: `clear_bit(nr, addr)` of the kernel bit
operations. -/
def clear_bit (nr : Int) (addr : Int → Bool) : Int → Bool :=
  fun i => if i = nr then false else addr i

/-- The function `should_bypass_syscall(scribe)`. -/
def should_bypass_syscall (s : scribe_ps) : Bool :=
  !test_bit s.syscall.nr s.sys_enable_bitmap

/-- The system call `scribe_filter_syscall(nr, enable)`. -/
def scribe_filter_syscall (K : Consts) (s : scribe_ps) (nr enable : Int) :
    Int × scribe_ps :=
  if !is_scribed K s then (-K.EPERM, s)
  else if nr ≥ K.NR_scribe_syscalls then (-K.EINVAL, s)
  else if enable ≠ 0 then
    (0, { s with sys_enable_bitmap := set_bit nr s.sys_enable_bitmap })
  else (0, { s with sys_enable_bitmap := clear_bit nr s.sys_enable_bitmap })

/-! ## Syscall exit -/

/-- Modelled from the spec: `scribe_maybe_detach`, `is_detaching()`; whether
the unit leaves the protocol at this checkpoint. -/
def scribe_maybe_detach (s : scribe_ps) : Bool := s.detaching

/-- Modelled from the spec: `recalc_sigpending_and_wake`,
`recompute_pending()`; the pending flag follows the waiting signals. -/
def recalc_sigpending_and_wake (s : scribe_ps) : scribe_ps :=
  { s with sigpending := s.signal_waiting }

/-- The function `scribe_finalize_syscall(scribe)`.  The bookmark point, the
signal sync point and the final `WARN_ON` have no effect on the state. -/
def scribe_finalize_syscall (s : scribe_ps) : scribe_ps :=
  if scribe_maybe_detach s then s
  else if s.exiting then s
  else recalc_sigpending_and_wake (__scribe_allow_uaccess s)

/-- The function `scribe_exit_syscall(regs)`. -/
def scribe_exit_syscall (K : Consts) (s : scribe_ps) (regs : pt_regs) :
    scribe_ps :=
  if !is_scribed K s then s
  else if is_scribe_syscall K s then s
  else
    let s1 : scribe_ps :=
      if s.commit_sys_reset_flags != 0 then
        scribe_syscall_set_flags K s s.commit_sys_reset_flags K.SCRIBE_PERMANANT
      else s
    if !s1.in_syscall then s1
    else
      let s2 : scribe_ps := { s1 with in_syscall := false }
      let s3 := scribe_commit_syscall K s2 (syscall_get_return_value regs)
      let s4 := if is_mutating K s3 then scribe_stop_mutations K s3 else s3
      scribe_finalize_syscall s4

/-! ## In-band control actions -/

/-- The loop at the end of `scribe_handle_custom_actions`, on the stream:
each round peeks the next event, stops when there is none or when it is not a
`Nop`, and otherwise dequeues it. -/
def drain_nops : List scribe_event → List scribe_event
  | .nop :: rest => drain_nops rest
  | queue => queue

/-- The function `scribe_handle_custom_actions(scribe)`. -/
def scribe_handle_custom_actions (K : Consts) (s : scribe_ps) : scribe_ps :=
  if !is_replaying K s then s
  else
    match scribe_peek_event s with
    | none => s
    | some (.set_flags flags duration) =>
      let s1 := scribe_syscall_set_flags K s flags duration
      let s2 := (scribe_dequeue_event s1).2
      { s2 with queue := drain_nops s2.queue }
    | some _ => s

/-! ## Register-consistency check -/

/-- The registers of `struct pt_regs` that the resolver does not read: the
segment registers, the instruction pointer, the flags and the stack. -/
structure pt_regs_rest where
  ds : Nat
  es : Nat
  fs : Nat
  gs : Nat
  ip : Nat
  cs : Nat
  flags : Nat
  sp : Nat
  ss : Nat
  deriving DecidableEq, Repr

/-- The copy `regs_tmp` of the call frame that `scribe_regs` normalizes by
masking `gs`, `fs`, `es`, `ds`, `flags`, `cs` and `ss` with `0xFFFF`, as the
words of the structure in their order. -/
def regs_snapshot (regs : pt_regs) (rest : pt_regs_rest) : List Nat :=
  [regs.bx, regs.cx, regs.dx, regs.si, regs.di, regs.bp, to_ulong regs.ax,
    rest.ds &&& 0xFFFF, rest.es &&& 0xFFFF, rest.fs &&& 0xFFFF,
    rest.gs &&& 0xFFFF, to_ulong regs.orig_ax, rest.ip, rest.cs &&& 0xFFFF,
    rest.flags &&& 0xFFFF, rest.sp, rest.ss &&& 0xFFFF]

/-- Modelled from the spec: `should_scribe_regs` of `linux/scribe.h`;
register checking is one of the enabled subsystems of the flags. -/
def should_scribe_regs (K : Consts) (s : scribe_ps) : Bool :=
  s.flags &&& K.SCRIBE_PS_ENABLE_REGS != 0

/-- The function `scribe_regs(scribe, regs)`. -/
def scribe_regs (K : Consts) (s : scribe_ps) (regs : pt_regs)
    (rest : pt_regs_rest) : Int × scribe_ps :=
  if is_recording K s then
    let q := scribe_queue_new_event K s (.regs (regs_snapshot regs rest))
    if q.1 != 0 then (-K.ENOMEM, scribe_kill q.2 (-K.ENOMEM)) else (0, q.2)
  else
    match scribe_dequeue_event_specific K s .SCRIBE_EVENT_REGS with
    | (.error e, s1) => (e, s1)
    | (.ok ev, s1) =>
      if ev = .regs (regs_snapshot regs rest) then (0, s1)
      else
        (-K.EDIVERGE,
          scribe_mutation s1 (.diverge_regs (regs_snapshot regs rest)))

/-! ## Initial enable set -/

/-- Modelled from the spec: `bitmap_fill(dst, nbits)` of the kernel bitmap
operations; sets the bits `[0, nbits)`. -/
def bitmap_fill (dst : Int → Bool) (nbits : Int) : Int → Bool :=
  fun i => if 0 ≤ i ∧ i < nbits then true else dst i

/-- Modelled from the spec: `bitmap_copy(dst, src, nbits)` of the kernel
bitmap operations; copies the bits `[0, nbits)`. -/
def bitmap_copy (dst src : Int → Bool) (nbits : Int) : Int → Bool :=
  fun i => if 0 ≤ i ∧ i < nbits then src i else dst i

/-- The function `scribe_init_syscalls(scribe, parent)`; `parent` is `none`
for the `NULL` pointer.  The result is the initialised unit and the parent. -/
def scribe_init_syscalls (K : Consts) (scribe : scribe_ps)
    (parent : Option scribe_ps) : scribe_ps × Option scribe_ps :=
  match parent with
  | some p =>
    ({ scribe with
        sys_enable_bitmap :=
          bitmap_copy scribe.sys_enable_bitmap p.sys_enable_bitmap
            K.NR_scribe_syscalls },
      some p)
  | none =>
    ({ scribe with
        sys_enable_bitmap :=
          clear_bit K.__NR_prctl
            (bitmap_fill scribe.sys_enable_bitmap K.NR_scribe_syscalls) },
      none)

/-! ## Syscall entry -/

/-- The function `__scribe_need_syscall_ret(scribe)`. -/
def __scribe_need_syscall_ret (K : Consts) (s : scribe_ps) : Int × scribe_ps :=
  let s1 : scribe_ps := { s with need_syscall_ret := true }
  if is_recording K s1 then scribe_need_syscall_ret_record s1
  else scribe_need_syscall_ret_replay K s1

/-- The function `scribe_need_syscall_ret(scribe)`. -/
def scribe_need_syscall_ret (K : Consts) (s : scribe_ps) : Int × scribe_ps :=
  if !is_scribed K s then (0, s)
  else if !s.in_syscall then (0, s)
  else if s.need_syscall_ret then (0, s)
  else __scribe_need_syscall_ret K s

/-- Modelled from the spec: `recalc_sigpending`, `recompute_pending()`; the
pending flag follows the waiting signals. -/
def recalc_sigpending (s : scribe_ps) : scribe_ps :=
  { s with sigpending := s.signal_waiting }

/-- The function `scribe_enter_syscall(regs)`.  The fence numbering, the
data-capture mode, the signal sync point and the bookmark point have no
effect on the state. -/
def scribe_enter_syscall (K : Consts)
    (copy_from_user : Nat → Nat → Option (List Nat)) (s : scribe_ps)
    (regs : pt_regs) (rest : pt_regs_rest) : scribe_ps :=
  if !is_scribed K s then s
  else
    let s1 := cache_syscall_info K copy_from_user s regs
    if is_scribe_syscall K s1 then s1
    else if !should_scribe_syscalls K s1 || should_bypass_syscall s1 then
      scribe_syscall_set_flags K s1 (s1.flags &&& K.SCRIBE_PS_ENABLE_SIGNAL)
        K.SCRIBE_UNTIL_NEXT_SYSCALL
    else
      let s2 : scribe_ps := { s1 with need_syscall_ret := false }
      let s3 := __scribe_forbid_uaccess s2
      let s4 := scribe_handle_custom_actions K s3
      if scribe_maybe_detach s4 then s4
      else
        let s5 : scribe_ps := { s4 with in_syscall := true }
        let s6 := (__scribe_need_syscall_ret K s5).2
        if should_scribe_regs K s6 && !is_mutating K s6 then
          let r := scribe_regs K s6 regs rest
          if r.1 != 0 then r.2 else recalc_sigpending r.2
        else recalc_sigpending s6

/-! ## Flag boundary operations -/

/-- What `do_scribe_flags` leaves behind: its return value, the current unit
after the call, and the word stored through `out_flags`, if one was stored. -/
structure scribe_flags_result where
  ret : Int
  current : scribe_ps
  out_flags : Option Nat

/-- The end of `do_scribe_flags` from the label `out:`; `out_flags` is `none`
for a `NULL` pointer and `some ok` for a pointer through which `put_user`
succeeds exactly when `ok`. -/
def do_scribe_flags_out (K : Consts) (out_flags : Option Bool) (err : Int)
    (current : scribe_ps) (old_flags : Nat) : scribe_flags_result :=
  match out_flags with
  | none => ⟨err, current, none⟩
  | some ok =>
    if err = 0 then
      if ok then ⟨err, current, some old_flags⟩
      else ⟨-K.EFAULT, current, none⟩
    else ⟨err, current, none⟩

/-- The function `do_scribe_flags(pid, in_flags, duration, out_flags)`, called
by the unit `current`; `find_task_by_vpid` gives the unit of another process,
`none` when there is no such process; `in_flags` is `none` for a `NULL`
pointer.  A process without scribe state is a unit whose flags carry neither
the record nor the replay bit. -/
def do_scribe_flags (K : Consts) (current : scribe_ps)
    (find_task_by_vpid : Int → Option scribe_ps) (pid : Int)
    (in_flags : Option Nat) (duration : Int) (out_flags : Option Bool) :
    scribe_flags_result :=
  match in_flags with
  | some new_flags =>
    if pid ≠ 0 then ⟨-K.EINVAL, current, none⟩
    else if !is_scribed K current then
      do_scribe_flags_out K out_flags (-K.EINVAL) current 0
    else
      do_scribe_flags_out K out_flags 0
        (scribe_syscall_set_flags K current new_flags duration) current.flags
  | none =>
    match (if pid ≠ 0 then find_task_by_vpid pid else some current) with
    | none => do_scribe_flags_out K out_flags (-K.ESRCH) current 0
    | some t =>
      if !is_scribed K t then
        do_scribe_flags_out K out_flags (-K.EINVAL) current 0
      else do_scribe_flags_out K out_flags 0 current t.flags

/-! ## Sequences of protocol steps -/

/-- One step of the syscall protocol on a unit, with its inputs. -/
inductive protocol_op where
  | enter (copy_from_user : Nat → Nat → Option (List Nat)) (regs : pt_regs)
      (rest : pt_regs_rest)
  | need_syscall_ret
  | commit (ret_value : Int)
  | exit (regs : pt_regs)

/-- Running one protocol step. -/
def run_op (K : Consts) (s : scribe_ps) : protocol_op → scribe_ps
  | .enter copy_from_user regs rest =>
    scribe_enter_syscall K copy_from_user s regs rest
  | .need_syscall_ret => (scribe_need_syscall_ret K s).2
  | .commit ret_value => scribe_commit_syscall K s ret_value
  | .exit regs => scribe_exit_syscall K s regs

/-- Running a sequence of protocol steps, one after the other. -/
def run_ops (K : Consts) (s : scribe_ps) (ops : List protocol_op) : scribe_ps :=
  ops.foldl (run_op K) s

/-! ## A concrete constant table and concrete units -/

/-- A concrete constant table: the 32-bit x86 values of the kernel ABI for
the standard syscall numbers, `SYS_RECVMMSG`, `FUTEX_CMD_MASK`, `O_CREAT` and
the error numbers, and representative values for the scribe-specific
constants, laid out as consecutive ranges behind the raw syscall numbers. -/
def Consts.x86_32 : Consts where
  SCRIBE_PS_RECORD := 0x1
  SCRIBE_PS_REPLAY := 0x2
  SCRIBE_PS_MUTATING := 0x10
  SCRIBE_PS_STRICT_REPLAY := 0x20
  SCRIBE_PS_ENABLE_SYSCALL := 0x100
  SCRIBE_PS_ENABLE_DATA := 0x200
  SCRIBE_PS_ENABLE_SIGNAL := 0x800
  SCRIBE_PS_ENABLE_MM := 0x2000
  SCRIBE_PS_ENABLE_REGS := 0x4000
  SCRIBE_PS_ENABLE_ALL := 0xff00
  SCRIBE_UNTIL_NEXT_SYSCALL := 1
  SCRIBE_PERMANANT := 0
  __NR_exit := 1
  __NR_fork := 2
  __NR_open := 5
  __NR_socketcall := 102
  __NR_clone := 120
  __NR_prctl := 172
  __NR_vfork := 190
  __NR_futex := 240
  __NR_exit_group := 252
  __NR_get_scribe_flags := 338
  __NR_set_scribe_flags := 339
  __NR_scribe_send_event := 340
  __NR_scribe_recv_event := 341
  __NR_scribe_filter_syscall := 342
  NR_syscalls := 343
  NR_scribe_syscalls := 376
  SCRIBE_SOCKETCALL_FIRST := 343
  SCRIBE_SOCKETCALL_LAST := 362
  SCRIBE_FUTEX_FIRST := 363
  SCRIBE_FUTEX_LAST := 375
  SYS_RECVMMSG := 19
  FUTEX_CMD_MASK := -385
  O_CREAT := 0x40
  EDIVERGE := 200
  EPERM := 1
  EINVAL := 22
  ESRCH := 3
  EFAULT := 14
  ENOMEM := 12
  ENODATA := 61
  syscall_nr_to_meta := fun nr =>
    if nr = 5 then some 3 else if nr = 120 then some 5 else
    if nr = 3 then some 3 else if nr = 2 then some 0 else none

/-- A unit with the given flags, cached call and event stream, every other
field at rest: no pending reset, no reservation, nothing reported, an
allocator that never fails. -/
def unit_with (flags : Nat) (call : syscall_cache) (queue : List scribe_event)
    (extra : Bool) : scribe_ps where
  flags := flags
  commit_sys_reset_flags := 0
  can_uaccess := true
  sys_enable_bitmap := fun _ => true
  syscall := call
  need_syscall_ret := false
  in_syscall := false
  orig_ret := 0
  syscall_ip := none
  queue := queue
  diverged := []
  killed := none
  alloc_budget := none
  sigpending := false
  signal_waiting := false
  mem_reloads := 0
  syscall_extra := extra
  ret_check := true
  detaching := false
  exiting := false

/-- A replaying unit in extra mode with syscall, data and signal scribing
enabled (flags `0xb02`), inside no call, caching a three-argument call of
identity 3, with an empty stream. -/
def replay_unit : scribe_ps :=
  unit_with 0xb02 ⟨3, 3, [0, 0, 0, 0, 0, 0]⟩ [] true

/-- A call frame with every register zero. -/
def zero_regs : pt_regs := ⟨0, 0, 0, 0, 0, 0, 0, 0⟩

/-- The unit `s` inside a call of identity `nr` (the cached identity is the
only field that differs). -/
def with_identity (s : scribe_ps) (nr : Int) : scribe_ps :=
  { s with syscall := { s.syscall with nr := nr } }

/-- A replaying unit in extra mode (flags `0xb02`, strict-replay bit clear)
inside a `clone` call with five arguments, whose stream starts with the
recording of a three-argument call of identity 3. -/
def clone_unit : scribe_ps :=
  unit_with 0xb02 ⟨120, 5, [0x11, 0, 0, 0, 0, 0]⟩
    [.syscall_extra 12 7 3 [1, 2, 3], .syscall_end] true

/-- The return value an event carries, if it carries one. -/
def scribe_event.ret : scribe_event → Option Int
  | .syscall ret => some ret
  | .syscall_extra _ ret _ _ => some ret
  | .diverge_syscall_ret ret => some ret
  | _ => none

/-! ## Recording and replaying a sequence of calls -/

/-- A live call of a sequence: the resolved and cached call, and the return
value the call produces. -/
structure live_call where
  call : syscall_cache
  ret : Int
  deriving DecidableEq, Repr

/-- Recording one call: the call is cached, the slot for the return value is
reserved at entry (`scribe_need_syscall_ret_record`) and filled at exit
(`scribe_commit_syscall_record`). -/
def record_call (K : Consts) (s : scribe_ps) (c : live_call) : scribe_ps :=
  scribe_commit_syscall_record K
    (scribe_need_syscall_ret_record { s with syscall := c.call }).2 c.ret

/-- Recording a sequence of calls, one after the other. -/
def record_calls (K : Consts) (s : scribe_ps) (cs : List live_call) :
    scribe_ps :=
  cs.foldl (record_call K) s

/-- Replaying one call: the call is cached, the expected return value is
fetched at entry (`scribe_need_syscall_ret_replay`) and the live one is
committed at exit (`scribe_commit_syscall_replay`).  The result is the value
returned at entry, the `orig_ret` cached at entry, and the state after the
exit. -/
def replay_call (K : Consts) (s : scribe_ps) (c : live_call) :
    (Int × Int) × scribe_ps :=
  let r := scribe_need_syscall_ret_replay K { s with syscall := c.call }
  ((r.1, r.2.orig_ret), scribe_commit_syscall_replay K r.2 c.ret)

/-- Replaying a sequence of calls, one after the other; the results of the
calls are collected in order. -/
def replay_calls (K : Consts) (s : scribe_ps) :
    List live_call → List (Int × Int) × scribe_ps
  | [] => ([], s)
  | c :: cs =>
    ((replay_call K s c).1 :: (replay_calls K (replay_call K s c).2 cs).1,
      (replay_calls K (replay_call K s c).2 cs).2)

/-- The events one call is expected to contribute to the stream: a `Syscall`
in plain mode, a `SyscallExtra` followed by a `SyscallEnd` in extra mode. -/
def recorded_events (extra : Bool) (c : live_call) : List scribe_event :=
  if extra then
    [.syscall_extra (c.call.num_args * sizeof_ulong) c.ret c.call.nr
        ((List.range c.call.num_args).map (arg_at c.call.args)),
      .syscall_end]
  else [.syscall c.ret]

/-- The stream a sequence of calls is expected to produce. -/
def recorded_stream (extra : Bool) : List live_call → List scribe_event
  | [] => []
  | c :: cs => recorded_events extra c ++ recorded_stream extra cs

/-- A replaying unit in extra mode inside a three-argument call of identity 3
whose second argument is a stack address; the head event records the same
call with another stack address. -/
def accept_unit : scribe_ps :=
  unit_with 0xb02 ⟨3, 3, [5, 0xbf800010, 100, 0, 0, 0]⟩
    [.syscall_extra 12 42 3 [5, 0xbf912340, 100], .syscall_end] true

/-- A recording unit in extra mode with an empty stream. -/
def record_unit : scribe_ps :=
  unit_with 0xb01 ⟨0, 0, [0, 0, 0, 0, 0, 0]⟩ [] true

/-- Two live calls: an `open` without creation returning 3 and a
three-argument call of identity 3 returning 100. -/
def sample_calls : List live_call :=
  [⟨⟨5, 2, [0x8048000, 0, 0, 0, 0, 0]⟩, 3⟩,
    ⟨⟨3, 3, [3, 0xbf800010, 100, 0, 0, 0]⟩, 100⟩]

/-- A replaying unit in extra mode whose stream is the recording of
`sample_calls` by `record_unit`. -/
def replay_sample_unit : scribe_ps :=
  unit_with 0xb02 ⟨0, 0, [0, 0, 0, 0, 0, 0]⟩
    (record_calls Consts.x86_32 record_unit sample_calls).queue true

/-- A replaying unit in extra mode (flags `0xb02`, strict-replay bit clear)
inside a three-argument call of identity 3, whose stream starts with the
recording of a call of identity 4. -/
def diverging_unit : scribe_ps :=
  unit_with 0xb02 ⟨3, 3, [5, 0xbf800010, 100, 0, 0, 0]⟩
    [.syscall_extra 12 7 4 [1, 2, 3], .syscall_end] true

/-- A replaying unit in extra mode at the exit of a call: it owes a return
value, the recorded one is 42, and the stream continues with the `SyscallEnd`
of the call. -/
def exiting_unit : scribe_ps :=
  { unit_with 0xb02 ⟨3, 3, [5, 0xbf800010, 100, 0, 0, 0]⟩
      [.syscall_end, .syscall_extra 0 0 20 []] true with
    need_syscall_ret := true, in_syscall := true, orig_ret := 42 }

/-- A replaying unit in extra mode whose stream starts with an in-band
`SetFlags(0x902, until next syscall)` followed by two `Nop` events and the
recording of a call. -/
def custom_action_unit : scribe_ps :=
  unit_with 0xb02 ⟨3, 3, [5, 0xbf800010, 100, 0, 0, 0]⟩
    [.set_flags 0x902 1, .nop, .nop, .syscall_extra 12 42 3 [5, 0xbf912340, 100],
      .syscall_end] true

/-- The registers outside the argument registers, all zero. -/
def zero_rest : pt_regs_rest := ⟨0, 0, 0, 0, 0, 0, 0, 0, 0⟩

/-- A protocol run on `accept_unit`: entry of the recorded call, a second
request for the return value, exit, and a stray commit. -/
def sample_ops : List protocol_op :=
  [.enter (fun _ _ => none) ⟨3, 0, 5, 0xbf800010, 100, 0, 0, 0⟩ zero_rest,
    .need_syscall_ret, .exit ⟨3, 42, 5, 0xbf800010, 100, 0, 0, 0⟩, .commit 42]

/-- A recorded unit (flags `0xb01`) that is outside any call and has filtered
out the identity 5 (`open`). -/
def filtered_unit : scribe_ps :=
  (scribe_filter_syscall Consts.x86_32
    (unit_with 0xb01 ⟨0, 0, [0, 0, 0, 0, 0, 0]⟩ [] true) 5 0).2

theorem testBit_not_ulong (x i : Nat) :
    (not_ulong x).testBit i = (decide (i < 32) && !x.testBit i) := by
  unfold not_ulong ULONG_SIZE
  rw [Nat.testBit_xor, Nat.testBit_two_pow_sub_one, Nat.testBit_mod_two_pow]
  by_cases h : i < 32 <;> simp [h]

theorem testBit_of_lt_ulong {x : Nat} (hx : x < ULONG_SIZE) {i : Nat}
    (hi : 32 ≤ i) : x.testBit i = false := by
  apply Nat.testBit_eq_false_of_lt
  calc x < 2 ^ 32 := hx
    _ ≤ 2 ^ i := Nat.pow_le_pow_right (by decide) hi

theorem set_flags_flags (K : Consts) (s : scribe_ps) (N : Nat) (d : Int) :
    (scribe_syscall_set_flags K s N d).flags =
      (s.flags &&& not_ulong K.SCRIBE_PS_ENABLE_ALL) |||
        (N &&& K.SCRIBE_PS_ENABLE_ALL) := by
  unfold scribe_syscall_set_flags scribe_mem_reload __scribe_forbid_uaccess
  simp only
  split_ifs <;> rfl

/-- C3: `scribe_syscall_set_flags` only modifies bits of the enable subset.
For every unit with flag word `P`, every `new_flags` value `N` and every
duration, the flags after the call are `(P & ~SCRIBE_PS_ENABLE_ALL) |
(N & SCRIBE_PS_ENABLE_ALL)`; every bit outside `SCRIBE_PS_ENABLE_ALL` keeps
its value (so a bit of `N` outside the enable subset is never set), and every
bit inside it takes the value it has in `N`. -/
theorem scribe_syscall_set_flags_only_enable_bits (K : Consts) (s : scribe_ps)
    (N : Nat) (d : Int) (hP : s.flags < ULONG_SIZE) :
    (scribe_syscall_set_flags K s N d).flags =
        (s.flags &&& not_ulong K.SCRIBE_PS_ENABLE_ALL) |||
          (N &&& K.SCRIBE_PS_ENABLE_ALL) ∧
      (∀ i, K.SCRIBE_PS_ENABLE_ALL.testBit i = false →
        (scribe_syscall_set_flags K s N d).flags.testBit i = s.flags.testBit i) ∧
      (∀ i, K.SCRIBE_PS_ENABLE_ALL.testBit i = true →
        (scribe_syscall_set_flags K s N d).flags.testBit i = N.testBit i) := by
  refine ⟨set_flags_flags K s N d, ?_, ?_⟩
  · intro i hi
    rw [set_flags_flags, Nat.testBit_or, Nat.testBit_and, Nat.testBit_and,
      testBit_not_ulong, hi]
    by_cases h32 : i < 32
    · simp [h32]
    · simp [testBit_of_lt_ulong hP (Nat.le_of_not_lt h32)]
  · intro i hi
    rw [set_flags_flags, Nat.testBit_or, Nat.testBit_and, Nat.testBit_and,
      testBit_not_ulong, hi]
    simp

/-- Witness of C3: a replaying unit with flags `0x2b02` asked for all bits. -/
theorem scribe_syscall_set_flags_only_enable_bits_witness :
    (unit_with 0x2b02 ⟨3, 3, [0, 0, 0, 0, 0, 0]⟩ [] true).flags < ULONG_SIZE ∧
    ((scribe_syscall_set_flags Consts.x86_32
        (unit_with 0x2b02 ⟨3, 3, [0, 0, 0, 0, 0, 0]⟩ [] true) 0xffffffff 1).flags =
        ((unit_with 0x2b02 ⟨3, 3, [0, 0, 0, 0, 0, 0]⟩ [] true).flags &&&
            not_ulong Consts.x86_32.SCRIBE_PS_ENABLE_ALL) |||
          (0xffffffff &&& Consts.x86_32.SCRIBE_PS_ENABLE_ALL) ∧
      (∀ i, Consts.x86_32.SCRIBE_PS_ENABLE_ALL.testBit i = false →
        (scribe_syscall_set_flags Consts.x86_32
          (unit_with 0x2b02 ⟨3, 3, [0, 0, 0, 0, 0, 0]⟩ [] true)
          0xffffffff 1).flags.testBit i =
        (unit_with 0x2b02 ⟨3, 3, [0, 0, 0, 0, 0, 0]⟩ [] true).flags.testBit i) ∧
      (∀ i, Consts.x86_32.SCRIBE_PS_ENABLE_ALL.testBit i = true →
        (scribe_syscall_set_flags Consts.x86_32
          (unit_with 0x2b02 ⟨3, 3, [0, 0, 0, 0, 0, 0]⟩ [] true)
          0xffffffff 1).flags.testBit i = (0xffffffff : Nat).testBit i)) :=
  ⟨by decide,
    scribe_syscall_set_flags_only_enable_bits Consts.x86_32
      (unit_with 0x2b02 ⟨3, 3, [0, 0, 0, 0, 0, 0]⟩ [] true) 0xffffffff 1
      (by decide)⟩

/-! ### Frame lemmas: what the exit path does to the flag words -/

theorem set_flags_reset (K : Consts) (s : scribe_ps) (N : Nat) (d : Int) :
    (scribe_syscall_set_flags K s N d).commit_sys_reset_flags =
      if d = K.SCRIBE_UNTIL_NEXT_SYSCALL then s.flags else 0 := by
  unfold scribe_syscall_set_flags scribe_mem_reload __scribe_forbid_uaccess
  simp only
  split_ifs <;> rfl

theorem set_flags_in_syscall (K : Consts) (s : scribe_ps) (N : Nat) (d : Int) :
    (scribe_syscall_set_flags K s N d).in_syscall = s.in_syscall := by
  unfold scribe_syscall_set_flags scribe_mem_reload __scribe_forbid_uaccess
  simp only
  split_ifs <;> rfl

theorem alloc_event_flags (s : scribe_ps) :
    (scribe_alloc_event s).2.flags = s.flags ∧
    (scribe_alloc_event s).2.commit_sys_reset_flags = s.commit_sys_reset_flags := by
  unfold scribe_alloc_event
  split <;> exact ⟨rfl, rfl⟩

theorem commit_syscall_record_flags (K : Consts) (s : scribe_ps) (r : Int) :
    (scribe_commit_syscall_record K s r).flags = s.flags ∧
    (scribe_commit_syscall_record K s r).commit_sys_reset_flags =
      s.commit_sys_reset_flags := by
  have h1 := alloc_event_flags s
  have h2 : ∀ t : scribe_ps, (scribe_alloc_event t).2.flags = t.flags ∧
      (scribe_alloc_event t).2.commit_sys_reset_flags = t.commit_sys_reset_flags :=
    alloc_event_flags
  unfold scribe_commit_syscall_record scribe_queue_new_event scribe_kill
    scribe_commit_insert_point scribe_queue_event_at scribe_queue_event
  simp only
  split_ifs <;> (try split) <;> simp_all

theorem commit_syscall_replay_flags (K : Consts) (s : scribe_ps) (r : Int) :
    (scribe_commit_syscall_replay K s r).flags = s.flags ∧
    (scribe_commit_syscall_replay K s r).commit_sys_reset_flags =
      s.commit_sys_reset_flags := by
  unfold scribe_commit_syscall_replay scribe_dequeue_event_specific
    scribe_mutation scribe_dequeue_event scribe_peek_event
  cases hq : s.queue <;> simp only [List.head?] <;> split_ifs <;> simp_all

theorem commit_syscall_flags (K : Consts) (s : scribe_ps) (r : Int) :
    (scribe_commit_syscall K s r).flags = s.flags ∧
    (scribe_commit_syscall K s r).commit_sys_reset_flags =
      s.commit_sys_reset_flags := by
  unfold scribe_commit_syscall
  simp only
  split_ifs
  · exact ⟨rfl, rfl⟩
  · exact commit_syscall_record_flags K _ r
  · exact commit_syscall_replay_flags K _ r

theorem finalize_syscall_flags (s : scribe_ps) :
    (scribe_finalize_syscall s).flags = s.flags ∧
    (scribe_finalize_syscall s).commit_sys_reset_flags =
      s.commit_sys_reset_flags := by
  unfold scribe_finalize_syscall recalc_sigpending_and_wake
    __scribe_allow_uaccess
  split_ifs <;> exact ⟨rfl, rfl⟩

/-! ### Bitwise facts about the enable mask -/

theorem enable_bits_after_set (P N EA : Nat) :
    ((P &&& not_ulong EA) ||| (N &&& EA)) &&& EA = N &&& EA := by
  apply Nat.eq_of_testBit_eq
  intro i
  simp only [Nat.testBit_and, Nat.testBit_or, testBit_not_ulong]
  cases P.testBit i <;> cases N.testBit i <;> cases EA.testBit i <;> simp

theorem and_not_ulong_disjoint (x M EA : Nat) (hEA : EA < ULONG_SIZE)
    (h : M &&& EA = 0) : (x &&& not_ulong M) &&& EA = x &&& EA := by
  apply Nat.eq_of_testBit_eq
  intro i
  have hi : (M &&& EA).testBit i = false := by rw [h]; exact Nat.zero_testBit i
  rw [Nat.testBit_and] at hi
  simp only [Nat.testBit_and, testBit_not_ulong]
  by_cases h32 : i < 32
  · cases hM : M.testBit i <;> cases hE : EA.testBit i <;> simp_all
  · simp [testBit_of_lt_ulong hEA (Nat.le_of_not_lt h32)]

theorem enable_split (P EA : Nat) (hP : P < ULONG_SIZE) :
    (P &&& not_ulong EA) ||| (P &&& EA) = P := by
  apply Nat.eq_of_testBit_eq
  intro i
  simp only [Nat.testBit_and, Nat.testBit_or, testBit_not_ulong]
  by_cases h32 : i < 32
  · cases P.testBit i <;> cases EA.testBit i <;> simp [h32]
  · simp [testBit_of_lt_ulong hP (Nat.le_of_not_lt h32)]

theorem flags_ne_zero_of_scribed (K : Consts) (s : scribe_ps)
    (h : is_scribed K s = true) : s.flags ≠ 0 := by
  intro h0
  simp [is_scribed, h0] at h

/-- The flag words after `scribe_exit_syscall` of a scribed unit in a call
outside the control surface, with a pending reset `R`. -/
theorem exit_syscall_flags (K : Consts) (s : scribe_ps) (regs : pt_regs)
    (hdur : K.SCRIBE_PERMANANT ≠ K.SCRIBE_UNTIL_NEXT_SYSCALL)
    (hs : is_scribed K s = true) (hcs : is_scribe_syscall K s = false)
    (hR : s.commit_sys_reset_flags ≠ 0) :
    (scribe_exit_syscall K s regs).commit_sys_reset_flags = 0 ∧
    ((scribe_exit_syscall K s regs).flags =
        (s.flags &&& not_ulong K.SCRIBE_PS_ENABLE_ALL) |||
          (s.commit_sys_reset_flags &&& K.SCRIBE_PS_ENABLE_ALL) ∨
      (scribe_exit_syscall K s regs).flags =
        ((s.flags &&& not_ulong K.SCRIBE_PS_ENABLE_ALL) |||
          (s.commit_sys_reset_flags &&& K.SCRIBE_PS_ENABLE_ALL)) &&&
            not_ulong K.SCRIBE_PS_MUTATING ∧
        is_mutating K (scribe_syscall_set_flags K s s.commit_sys_reset_flags
          K.SCRIBE_PERMANANT) = true) := by
  have hf := set_flags_flags K s s.commit_sys_reset_flags K.SCRIBE_PERMANANT
  have hr := set_flags_reset K s s.commit_sys_reset_flags K.SCRIBE_PERMANANT
  rw [if_neg hdur] at hr
  have hi := set_flags_in_syscall K s s.commit_sys_reset_flags K.SCRIBE_PERMANANT
  unfold scribe_exit_syscall
  simp only [hs, hcs, bne_iff_ne, ne_eq, hR, not_false_eq_true, if_true,
    Bool.not_true, Bool.false_eq_true, if_false]
  by_cases hin : s.in_syscall = true
  · simp only [hi, hin, Bool.not_true, Bool.false_eq_true, if_false]
    set t := scribe_commit_syscall K
      { scribe_syscall_set_flags K s s.commit_sys_reset_flags K.SCRIBE_PERMANANT
        with in_syscall := false } (syscall_get_return_value regs) with ht
    have hc := commit_syscall_flags K
      { scribe_syscall_set_flags K s s.commit_sys_reset_flags K.SCRIBE_PERMANANT
        with in_syscall := false } (syscall_get_return_value regs)
    rw [← ht] at hc
    simp only at hc
    by_cases hm : is_mutating K t = true
    · simp only [hm, if_true]
      have hfin := finalize_syscall_flags (scribe_stop_mutations K t)
      refine ⟨by rw [hfin.2]; simp [scribe_stop_mutations, hc.2, hr], Or.inr ⟨?_, ?_⟩⟩
      · rw [hfin.1]; simp [scribe_stop_mutations, hc.1, hf]
      · simpa [is_mutating, hc.1] using hm
    · simp only [hm, Bool.false_eq_true, if_false]
      have hfin := finalize_syscall_flags t
      exact ⟨by rw [hfin.2, hc.2, hr], Or.inl (by rw [hfin.1, hc.1, hf])⟩
  · simp only [hi, hin, Bool.not_false, if_true]
    exact ⟨hr, Or.inl hf⟩

/-- C4 (as stated) fails: a replaying unit with flags `P = 0xb02` gets
`set_flags(0x902, UNTIL_NEXT_SYSCALL)`, which changes the data bit only;
before the exit a nested `set_flags(0x102, PERMANANT)` changes the unrelated
signal bit.  The nested call discards the pending reset, so the next
`scribe_exit_syscall` reverts nothing: the flags stay `0x102`, not `P`. -/
theorem scoped_flag_reset_counterexample :
    is_scribed Consts.x86_32 replay_unit = true ∧
    is_scribe_syscall Consts.x86_32 replay_unit = false ∧
    replay_unit.flags = 0xb02 ∧
    (scribe_syscall_set_flags Consts.x86_32 replay_unit 0x902
      Consts.x86_32.SCRIBE_UNTIL_NEXT_SYSCALL).flags = 0x902 ∧
    (scribe_syscall_set_flags Consts.x86_32
      (scribe_syscall_set_flags Consts.x86_32 replay_unit 0x902
        Consts.x86_32.SCRIBE_UNTIL_NEXT_SYSCALL)
      0x102 Consts.x86_32.SCRIBE_PERMANANT).flags = 0x102 ∧
    (scribe_exit_syscall Consts.x86_32
      (scribe_syscall_set_flags Consts.x86_32
        (scribe_syscall_set_flags Consts.x86_32 replay_unit 0x902
          Consts.x86_32.SCRIBE_UNTIL_NEXT_SYSCALL)
        0x102 Consts.x86_32.SCRIBE_PERMANANT) zero_regs).flags = 0x102 ∧
    (scribe_exit_syscall Consts.x86_32
      (scribe_syscall_set_flags Consts.x86_32
        (scribe_syscall_set_flags Consts.x86_32 replay_unit 0x902
          Consts.x86_32.SCRIBE_UNTIL_NEXT_SYSCALL)
        0x102 Consts.x86_32.SCRIBE_PERMANANT) zero_regs).flags ≠
      replay_unit.flags := by
  decide

/-- C4 (amended): scoped flag reset.  For a unit under scribing with flags
`P`, after `scribe_syscall_set_flags(F, SCRIBE_UNTIL_NEXT_SYSCALL)` the enable
bits of the flags are those of `F` and `P` is the pending reset.  At the next
`scribe_exit_syscall` of a call outside the control surface, in any state
whose pending reset is still the one saved by that call (no further
`scribe_syscall_set_flags` in between), the enable bits of the flags are
reverted to those of `P` and the pending reset is left empty, whatever
happened to the bits outside the enable subset in between; the whole flag
word is `P` again when no bit outside the enable subset was modified in
between and `P` does not carry the mutation bit. -/
theorem scoped_flag_reset (K : Consts) (s s2 : scribe_ps) (F : Nat)
    (regs : pt_regs)
    (hdur : K.SCRIBE_PERMANANT ≠ K.SCRIBE_UNTIL_NEXT_SYSCALL)
    (hEA : K.SCRIBE_PS_ENABLE_ALL < ULONG_SIZE)
    (hmut : K.SCRIBE_PS_MUTATING &&& K.SCRIBE_PS_ENABLE_ALL = 0)
    (hP : s.flags < ULONG_SIZE)
    (hs : is_scribed K s = true)
    (hs2 : is_scribed K s2 = true) (hcs : is_scribe_syscall K s2 = false)
    (hpend : s2.commit_sys_reset_flags =
      (scribe_syscall_set_flags K s F
        K.SCRIBE_UNTIL_NEXT_SYSCALL).commit_sys_reset_flags) :
    (scribe_syscall_set_flags K s F K.SCRIBE_UNTIL_NEXT_SYSCALL).flags &&&
        K.SCRIBE_PS_ENABLE_ALL = F &&& K.SCRIBE_PS_ENABLE_ALL ∧
    (scribe_syscall_set_flags K s F
        K.SCRIBE_UNTIL_NEXT_SYSCALL).commit_sys_reset_flags = s.flags ∧
    (scribe_exit_syscall K s2 regs).flags &&& K.SCRIBE_PS_ENABLE_ALL =
        s.flags &&& K.SCRIBE_PS_ENABLE_ALL ∧
    (scribe_exit_syscall K s2 regs).commit_sys_reset_flags = 0 ∧
    (s2.flags &&& not_ulong K.SCRIBE_PS_ENABLE_ALL =
        s.flags &&& not_ulong K.SCRIBE_PS_ENABLE_ALL →
      is_mutating K s = false →
      (scribe_exit_syscall K s2 regs).flags = s.flags) := by
  have hsave : (scribe_syscall_set_flags K s F
      K.SCRIBE_UNTIL_NEXT_SYSCALL).commit_sys_reset_flags = s.flags := by
    rw [set_flags_reset, if_pos rfl]
  rw [hsave] at hpend
  have hR : s2.commit_sys_reset_flags ≠ 0 := by
    rw [hpend]; exact flags_ne_zero_of_scribed K s hs
  obtain ⟨hx0, hx⟩ := exit_syscall_flags K s2 regs hdur hs2 hcs hR
  rw [hpend] at hx
  refine ⟨?_, hsave, ?_, hx0, ?_⟩
  · rw [set_flags_flags, enable_bits_after_set]
  · rcases hx with h | ⟨h, _⟩
    · rw [h, enable_bits_after_set]
    · rw [h, and_not_ulong_disjoint _ _ _ hEA hmut, enable_bits_after_set]
  · intro hsame hnm
    rcases hx with h | ⟨_, hm⟩
    · rw [h, hsame, enable_split _ _ hP]
    · exfalso
      have hf := set_flags_flags K s2 s2.commit_sys_reset_flags K.SCRIBE_PERMANANT
      rw [hpend, hsame, enable_split _ _ hP] at hf
      simp only [is_mutating, hf] at hm
      simp only [is_mutating] at hnm
      rw [hm] at hnm
      exact Bool.noConfusion hnm

/-- Witness of C4 (amended): the unit `replay_unit`, `F = 0x902`, exit in the
state right after the scoped call. -/
theorem scoped_flag_reset_witness :
    (scribe_syscall_set_flags Consts.x86_32 replay_unit 0x902
        Consts.x86_32.SCRIBE_UNTIL_NEXT_SYSCALL).flags &&&
        Consts.x86_32.SCRIBE_PS_ENABLE_ALL =
      0x902 &&& Consts.x86_32.SCRIBE_PS_ENABLE_ALL ∧
    (scribe_syscall_set_flags Consts.x86_32 replay_unit 0x902
        Consts.x86_32.SCRIBE_UNTIL_NEXT_SYSCALL).commit_sys_reset_flags =
      replay_unit.flags ∧
    (scribe_exit_syscall Consts.x86_32
        (scribe_syscall_set_flags Consts.x86_32 replay_unit 0x902
          Consts.x86_32.SCRIBE_UNTIL_NEXT_SYSCALL) zero_regs).flags &&&
        Consts.x86_32.SCRIBE_PS_ENABLE_ALL =
      replay_unit.flags &&& Consts.x86_32.SCRIBE_PS_ENABLE_ALL ∧
    (scribe_exit_syscall Consts.x86_32
        (scribe_syscall_set_flags Consts.x86_32 replay_unit 0x902
          Consts.x86_32.SCRIBE_UNTIL_NEXT_SYSCALL)
        zero_regs).commit_sys_reset_flags = 0 ∧
    ((scribe_syscall_set_flags Consts.x86_32 replay_unit 0x902
          Consts.x86_32.SCRIBE_UNTIL_NEXT_SYSCALL).flags &&&
        not_ulong Consts.x86_32.SCRIBE_PS_ENABLE_ALL =
        replay_unit.flags &&& not_ulong Consts.x86_32.SCRIBE_PS_ENABLE_ALL →
      is_mutating Consts.x86_32 replay_unit = false →
      (scribe_exit_syscall Consts.x86_32
        (scribe_syscall_set_flags Consts.x86_32 replay_unit 0x902
          Consts.x86_32.SCRIBE_UNTIL_NEXT_SYSCALL) zero_regs).flags =
        replay_unit.flags) :=
  scoped_flag_reset Consts.x86_32 replay_unit
    (scribe_syscall_set_flags Consts.x86_32 replay_unit 0x902
      Consts.x86_32.SCRIBE_UNTIL_NEXT_SYSCALL) 0x902 zero_regs
    (by decide) (by decide) (by decide) (by decide) (by decide) (by decide)
    (by decide) rfl

/-! ### Filtering -/

/-- C5: filtering.  For a scribed unit and an identity `N` in
`[0, NR_scribe_syscalls)`, `scribe_filter_syscall(N, 0)` returns 0, after it
`should_bypass_syscall` is true for a call of identity `N` and unchanged for
every other identity; a following `scribe_filter_syscall(N, 1)` returns 0,
after it `should_bypass_syscall` is false for `N` and again unchanged for
every other identity. -/
theorem scribe_filter_syscall_toggles (K : Consts) (s : scribe_ps) (N : Int)
    (hs : is_scribed K s = true) (_h0 : 0 ≤ N)
    (hN : N < K.NR_scribe_syscalls) :
    (scribe_filter_syscall K s N 0).1 = 0 ∧
    should_bypass_syscall
      (with_identity (scribe_filter_syscall K s N 0).2 N) = true ∧
    (∀ M : Int, M ≠ N →
      should_bypass_syscall (with_identity (scribe_filter_syscall K s N 0).2 M) =
        should_bypass_syscall (with_identity s M)) ∧
    (scribe_filter_syscall K (scribe_filter_syscall K s N 0).2 N 1).1 = 0 ∧
    should_bypass_syscall
      (with_identity
        (scribe_filter_syscall K (scribe_filter_syscall K s N 0).2 N 1).2 N) =
      false ∧
    (∀ M : Int, M ≠ N →
      should_bypass_syscall
        (with_identity
          (scribe_filter_syscall K (scribe_filter_syscall K s N 0).2 N 1).2 M) =
        should_bypass_syscall (with_identity s M)) := by
  have hn : ¬ N ≥ K.NR_scribe_syscalls := not_le.mpr hN
  have e1 : scribe_filter_syscall K s N 0 =
      (0, { s with sys_enable_bitmap := clear_bit N s.sys_enable_bitmap }) := by
    simp [scribe_filter_syscall, hs, hn]
  have hs1 : is_scribed K
      { s with sys_enable_bitmap := clear_bit N s.sys_enable_bitmap } = true := hs
  have e2 : scribe_filter_syscall K
      { s with sys_enable_bitmap := clear_bit N s.sys_enable_bitmap } N 1 =
      (0, { s with sys_enable_bitmap :=
              set_bit N (clear_bit N s.sys_enable_bitmap) }) := by
    simp [scribe_filter_syscall, hs1, hn]
  rw [e1]
  simp only [e2]
  refine ⟨trivial, ?_, ?_, trivial, ?_, ?_⟩
  · simp [should_bypass_syscall, with_identity, test_bit, clear_bit]
  · intro M hM
    simp [should_bypass_syscall, with_identity, test_bit, clear_bit, hM]
  · simp [should_bypass_syscall, with_identity, test_bit, set_bit]
  · intro M hM
    simp [should_bypass_syscall, with_identity, test_bit, set_bit, clear_bit, hM]

/-- Witness of C5: the unit `replay_unit` and the identity 5 (`open`). -/
theorem scribe_filter_syscall_toggles_witness :
    (scribe_filter_syscall Consts.x86_32 replay_unit 5 0).1 = 0 ∧
    should_bypass_syscall
      (with_identity (scribe_filter_syscall Consts.x86_32 replay_unit 5 0).2 5) =
      true ∧
    (∀ M : Int, M ≠ 5 →
      should_bypass_syscall
        (with_identity (scribe_filter_syscall Consts.x86_32 replay_unit 5 0).2 M) =
        should_bypass_syscall (with_identity replay_unit M)) ∧
    (scribe_filter_syscall Consts.x86_32
      (scribe_filter_syscall Consts.x86_32 replay_unit 5 0).2 5 1).1 = 0 ∧
    should_bypass_syscall
      (with_identity
        (scribe_filter_syscall Consts.x86_32
          (scribe_filter_syscall Consts.x86_32 replay_unit 5 0).2 5 1).2 5) =
      false ∧
    (∀ M : Int, M ≠ 5 →
      should_bypass_syscall
        (with_identity
          (scribe_filter_syscall Consts.x86_32
            (scribe_filter_syscall Consts.x86_32 replay_unit 5 0).2 5 1).2 M) =
        should_bypass_syscall (with_identity replay_unit M)) :=
  scribe_filter_syscall_toggles Consts.x86_32 replay_unit 5 (by decide)
    (by decide) (by decide)

/-- The rejections `scribe_filter_syscall` does implement: an identity at or
above `NR_scribe_syscalls` gives `-EINVAL`, a unit that is not scribed gives
`-EPERM`, and in both cases the state is unchanged. -/
theorem scribe_filter_syscall_rejects (K : Consts) (s : scribe_ps)
    (nr enable : Int) :
    (is_scribed K s = false →
      scribe_filter_syscall K s nr enable = (-K.EPERM, s)) ∧
    (is_scribed K s = true → K.NR_scribe_syscalls ≤ nr →
      scribe_filter_syscall K s nr enable = (-K.EINVAL, s)) := by
  constructor
  · intro h
    simp [scribe_filter_syscall, h]
  · intro h hle
    simp [scribe_filter_syscall, h, hle]

/-- Every negative identity passes the only range check of
`scribe_filter_syscall`: the call returns 0 and writes the bit at the
negative offset `nr`, outside the bitmap. -/
theorem scribe_filter_syscall_negative (K : Consts) (s : scribe_ps)
    (nr enable : Int) (hs : is_scribed K s = true) (hneg : nr < 0)
    (hU : 0 ≤ K.NR_scribe_syscalls) :
    (scribe_filter_syscall K s nr enable).1 = 0 ∧
    (scribe_filter_syscall K s nr enable).2.sys_enable_bitmap nr =
      decide (enable ≠ 0) := by
  have hn : ¬ nr ≥ K.NR_scribe_syscalls := by
    intro h
    exact absurd (lt_of_lt_of_le hneg (le_trans hU h)) (lt_irrefl _)
  by_cases he : enable = 0
  · simp [scribe_filter_syscall, hs, hn, he, clear_bit]
  · simp [scribe_filter_syscall, hs, hn, he, set_bit]

/-- C6 (the code at the failing input): for the scribed unit `replay_unit`
and the identity `-1`, outside `[0, NR_scribe_syscalls)`,
`scribe_filter_syscall(-1, 0)` returns 0, not an error, and clears the bit at
offset `-1`, in front of the enable bitmap, which was set before. -/
theorem scribe_filter_syscall_minus_one :
    is_scribed Consts.x86_32 replay_unit = true ∧
    ¬ ((0 : Int) ≤ -1 ∧ (-1 : Int) < Consts.x86_32.NR_scribe_syscalls) ∧
    (scribe_filter_syscall Consts.x86_32 replay_unit (-1) 0).1 = 0 ∧
    replay_unit.sys_enable_bitmap (-1) = true ∧
    (scribe_filter_syscall Consts.x86_32 replay_unit
      (-1) 0).2.sys_enable_bitmap (-1) = false := by
  decide

/-! ### Syscall identity resolver -/

theorem to_ulong_of_nonneg {i : Int} (h0 : 0 ≤ i) (h1 : i < 2 ^ 32) :
    to_ulong i = i.toNat := by
  unfold to_ulong ULONG_SIZE
  have : i % ((2 ^ 32 : Nat) : Int) = i := Int.emod_eq_of_lt h0 (by simpa using h1)
  rw [this]

theorem to_int_of_small {w : Nat} (h : w < 2 ^ 31) : to_int w = (w : Int) := by
  unfold to_int ULONG_SIZE
  have hw : w % 2 ^ 32 = w := Nat.mod_eq_of_lt (by omega)
  rw [hw, if_pos h]

/-- The identity `get_nr_syscall` computes as `FIRST + call` in `unsigned
long` and returns as `int`, when the sum fits an `int`. -/
theorem to_int_base_add (base : Int) (call : Nat) (h0 : 0 ≤ base)
    (h1 : base + call < 2 ^ 31) : to_int (to_ulong base + call) = base + call := by
  have hb : base < 2 ^ 32 := by omega
  rw [to_ulong_of_nonneg h0 hb, to_int_of_small (by omega)]
  push_cast
  rw [Int.toNat_of_nonneg h0]

/-- C7: `open` argument truncation.  For every call whose resolved identity is
`__NR_open`, with static metadata argument count 3, `cache_syscall_info`
caches the identity `__NR_open`, sets `num_args` to 2 when the flags argument
`args[1]` lacks the `O_CREAT` bit and to 3 when it has it, and in both cases
`args[0]` and `args[1]` hold the live first and second argument words. -/
theorem cache_syscall_info_open (K : Consts)
    (copy_from_user : Nat → Nat → Option (List Nat)) (s : scribe_ps)
    (regs : pt_regs)
    (hnr : get_nr_syscall K regs = K.__NR_open)
    (hmeta : K.syscall_nr_to_meta K.__NR_open = some 3)
    (hsock : ¬ (K.SCRIBE_SOCKETCALL_FIRST ≤ K.__NR_open ∧
      K.__NR_open ≤ K.SCRIBE_SOCKETCALL_LAST))
    (hfutex : ¬ (K.SCRIBE_FUTEX_FIRST ≤ K.__NR_open ∧
      K.__NR_open ≤ K.SCRIBE_FUTEX_LAST)) :
    (cache_syscall_info K copy_from_user s regs).syscall.nr = K.__NR_open ∧
    arg_at (cache_syscall_info K copy_from_user s regs).syscall.args 0 = regs.bx ∧
    arg_at (cache_syscall_info K copy_from_user s regs).syscall.args 1 = regs.cx ∧
    (arg_at (cache_syscall_info K copy_from_user s regs).syscall.args 1 &&&
        K.O_CREAT = 0 →
      (cache_syscall_info K copy_from_user s regs).syscall.num_args = 2) ∧
    (arg_at (cache_syscall_info K copy_from_user s regs).syscall.args 1 &&&
        K.O_CREAT ≠ 0 →
      (cache_syscall_info K copy_from_user s regs).syscall.num_args = 3) := by
  have hn : get_num_args K K.__NR_open = 3 := by
    simp [get_num_args, hsock, hfutex, hmeta]
  have ha : store_args s.syscall.args (syscall_get_arguments regs 0 3) =
      regs.bx :: regs.cx :: regs.dx :: s.syscall.args.drop 3 := by
    simp [store_args, syscall_get_arguments]
  by_cases hc : regs.cx &&& K.O_CREAT = 0
  · have e : cache_syscall_info K copy_from_user s regs =
        { s with syscall := ⟨K.__NR_open, 2,
            regs.bx :: regs.cx :: regs.dx :: s.syscall.args.drop 3⟩ } := by
      simp [cache_syscall_info, hnr, hsock, hn, ha, arg_at, hc]
    rw [e]
    simp [arg_at, hc]
  · have e : cache_syscall_info K copy_from_user s regs =
        { s with syscall := ⟨K.__NR_open, 3,
            regs.bx :: regs.cx :: regs.dx :: s.syscall.args.drop 3⟩ } := by
      simp [cache_syscall_info, hnr, hsock, hn, ha, arg_at, hc]
    rw [e]
    simp [arg_at, hc]

/-- Witness of C7: an `open` call frame with flags argument `0x40`
(`O_CREAT`) under the concrete constant table. -/
theorem cache_syscall_info_open_witness :
    (cache_syscall_info Consts.x86_32 (fun _ _ => none) replay_unit
      ⟨5, 0, 0x8048000, 0x40, 0x1a4, 0, 0, 0⟩).syscall.nr =
      Consts.x86_32.__NR_open ∧
    arg_at (cache_syscall_info Consts.x86_32 (fun _ _ => none) replay_unit
      ⟨5, 0, 0x8048000, 0x40, 0x1a4, 0, 0, 0⟩).syscall.args 0 =
      (⟨5, 0, 0x8048000, 0x40, 0x1a4, 0, 0, 0⟩ : pt_regs).bx ∧
    arg_at (cache_syscall_info Consts.x86_32 (fun _ _ => none) replay_unit
      ⟨5, 0, 0x8048000, 0x40, 0x1a4, 0, 0, 0⟩).syscall.args 1 =
      (⟨5, 0, 0x8048000, 0x40, 0x1a4, 0, 0, 0⟩ : pt_regs).cx ∧
    (arg_at (cache_syscall_info Consts.x86_32 (fun _ _ => none) replay_unit
        ⟨5, 0, 0x8048000, 0x40, 0x1a4, 0, 0, 0⟩).syscall.args 1 &&&
        Consts.x86_32.O_CREAT = 0 →
      (cache_syscall_info Consts.x86_32 (fun _ _ => none) replay_unit
        ⟨5, 0, 0x8048000, 0x40, 0x1a4, 0, 0, 0⟩).syscall.num_args = 2) ∧
    (arg_at (cache_syscall_info Consts.x86_32 (fun _ _ => none) replay_unit
        ⟨5, 0, 0x8048000, 0x40, 0x1a4, 0, 0, 0⟩).syscall.args 1 &&&
        Consts.x86_32.O_CREAT ≠ 0 →
      (cache_syscall_info Consts.x86_32 (fun _ _ => none) replay_unit
        ⟨5, 0, 0x8048000, 0x40, 0x1a4, 0, 0, 0⟩).syscall.num_args = 3) :=
  cache_syscall_info_open Consts.x86_32 (fun _ _ => none) replay_unit
    ⟨5, 0, 0x8048000, 0x40, 0x1a4, 0, 0, 0⟩ (by decide) (by decide) (by decide)
    (by decide)

/-- The selector read by `get_nr_syscall` for a `socketcall` is the first
argument register. -/
theorem get_nr_syscall_socketcall (K : Consts) (regs : pt_regs)
    (hraw : regs.orig_ax = K.__NR_socketcall) :
    get_nr_syscall K regs =
      if regs.bx > to_ulong K.SYS_RECVMMSG then K.__NR_socketcall
      else to_int (to_ulong K.SCRIBE_SOCKETCALL_FIRST + regs.bx) := by
  simp [get_nr_syscall, syscall_get_nr, syscall_get_arguments, arg_at, hraw]

/-- C8: socket multiplexer expansion.  For every `socketcall` whose selector
`S` (first argument) satisfies `S <= SYS_RECVMMSG`, `get_nr_syscall` returns
`SCRIBE_SOCKETCALL_FIRST + S` and `get_num_args` of that identity returns
`socket_nargs[S]`, the fixed table 0,3,3,3,2,3,3,3,4,4,4,6,6,2,5,5,3,3,4,5;
for every `S > SYS_RECVMMSG` it returns the raw `__NR_socketcall`; and two
`socketcall` frames with in-range selectors that resolve to the same identity
have the same selector. -/
theorem socketcall_expansion (K : Consts) (regs regs2 : pt_regs)
    (hsel : K.SYS_RECVMMSG = 19)
    (hfirst : 0 ≤ K.SCRIBE_SOCKETCALL_FIRST)
    (hlast : K.SCRIBE_SOCKETCALL_FIRST + K.SYS_RECVMMSG ≤ K.SCRIBE_SOCKETCALL_LAST)
    (hint : K.SCRIBE_SOCKETCALL_LAST < 2 ^ 31)
    (hraw : regs.orig_ax = K.__NR_socketcall)
    (hraw2 : regs2.orig_ax = K.__NR_socketcall) :
    socket_nargs = [0, 3, 3, 3, 2, 3, 3, 3, 4, 4, 4, 6, 6, 2, 5, 5, 3, 3, 4, 5] ∧
    ((regs.bx : Int) ≤ K.SYS_RECVMMSG →
      get_nr_syscall K regs = K.SCRIBE_SOCKETCALL_FIRST + regs.bx ∧
      get_num_args K (get_nr_syscall K regs) = socket_nargs.getD regs.bx 0) ∧
    ((regs.bx : Int) > K.SYS_RECVMMSG →
      get_nr_syscall K regs = K.__NR_socketcall) ∧
    ((regs.bx : Int) ≤ K.SYS_RECVMMSG → (regs2.bx : Int) ≤ K.SYS_RECVMMSG →
      get_nr_syscall K regs = get_nr_syscall K regs2 → regs.bx = regs2.bx) := by
  have h19 : to_ulong K.SYS_RECVMMSG = 19 := by
    rw [hsel]; decide
  have key : ∀ r : pt_regs, r.orig_ax = K.__NR_socketcall →
      (r.bx : Int) ≤ K.SYS_RECVMMSG →
      get_nr_syscall K r = K.SCRIBE_SOCKETCALL_FIRST + r.bx := by
    intro r hr hle
    rw [get_nr_syscall_socketcall K r hr, h19]
    have hb : r.bx ≤ 19 := by rw [hsel] at hle; exact_mod_cast hle
    rw [if_neg (by omega)]
    exact to_int_base_add _ _ hfirst (by omega)
  refine ⟨rfl, ?_, ?_, ?_⟩
  · intro hle
    have e := key regs hraw hle
    refine ⟨e, ?_⟩
    rw [e]
    have hb : regs.bx ≤ 19 := by rw [hsel] at hle; exact_mod_cast hle
    have hr : K.SCRIBE_SOCKETCALL_FIRST ≤ K.SCRIBE_SOCKETCALL_FIRST + regs.bx ∧
        K.SCRIBE_SOCKETCALL_FIRST + regs.bx ≤ K.SCRIBE_SOCKETCALL_LAST := by
      constructor <;> omega
    simp [get_num_args, hr]
  · intro hgt
    rw [get_nr_syscall_socketcall K regs hraw, h19]
    have hb : regs.bx > 19 := by rw [hsel] at hgt; exact_mod_cast hgt
    rw [if_pos hb]
  · intro h1 h2 he
    rw [key regs hraw h1, key regs2 hraw2 h2] at he
    omega

/-- Witness of C8: the `socketcall` frames with selectors 3 (`connect`) and 9
(`send`) under the concrete constant table. -/
theorem socketcall_expansion_witness :
    socket_nargs = [0, 3, 3, 3, 2, 3, 3, 3, 4, 4, 4, 6, 6, 2, 5, 5, 3, 3, 4, 5] ∧
    ((((⟨102, 0, 3, 0, 0, 0, 0, 0⟩ : pt_regs).bx : Nat) : Int) ≤
        Consts.x86_32.SYS_RECVMMSG →
      get_nr_syscall Consts.x86_32 ⟨102, 0, 3, 0, 0, 0, 0, 0⟩ =
        Consts.x86_32.SCRIBE_SOCKETCALL_FIRST +
          (⟨102, 0, 3, 0, 0, 0, 0, 0⟩ : pt_regs).bx ∧
      get_num_args Consts.x86_32
          (get_nr_syscall Consts.x86_32 ⟨102, 0, 3, 0, 0, 0, 0, 0⟩) =
        socket_nargs.getD (⟨102, 0, 3, 0, 0, 0, 0, 0⟩ : pt_regs).bx 0) ∧
    ((((⟨102, 0, 3, 0, 0, 0, 0, 0⟩ : pt_regs).bx : Nat) : Int) >
        Consts.x86_32.SYS_RECVMMSG →
      get_nr_syscall Consts.x86_32 ⟨102, 0, 3, 0, 0, 0, 0, 0⟩ =
        Consts.x86_32.__NR_socketcall) ∧
    ((((⟨102, 0, 3, 0, 0, 0, 0, 0⟩ : pt_regs).bx : Nat) : Int) ≤
        Consts.x86_32.SYS_RECVMMSG →
      (((⟨102, 0, 9, 0, 0, 0, 0, 0⟩ : pt_regs).bx : Nat) : Int) ≤
        Consts.x86_32.SYS_RECVMMSG →
      get_nr_syscall Consts.x86_32 ⟨102, 0, 3, 0, 0, 0, 0, 0⟩ =
        get_nr_syscall Consts.x86_32 ⟨102, 0, 9, 0, 0, 0, 0, 0⟩ →
      (⟨102, 0, 3, 0, 0, 0, 0, 0⟩ : pt_regs).bx =
        (⟨102, 0, 9, 0, 0, 0, 0, 0⟩ : pt_regs).bx) :=
  socketcall_expansion Consts.x86_32 ⟨102, 0, 3, 0, 0, 0, 0, 0⟩
    ⟨102, 0, 9, 0, 0, 0, 0, 0⟩ (by decide) (by decide) (by decide) (by decide)
    (by decide) (by decide)

/-- The command read by `get_nr_syscall` for a `futex` call is the second
argument register masked with `FUTEX_CMD_MASK`, and it is compared with the
identity `SCRIBE_FUTEX_LAST`. -/
theorem get_nr_syscall_futex (K : Consts) (regs : pt_regs)
    (hne : K.__NR_futex ≠ K.__NR_socketcall)
    (hraw : regs.orig_ax = K.__NR_futex) :
    get_nr_syscall K regs =
      if regs.cx &&& to_ulong K.FUTEX_CMD_MASK > to_ulong K.SCRIBE_FUTEX_LAST
      then K.__NR_futex
      else to_int (to_ulong K.SCRIBE_FUTEX_FIRST +
        (regs.cx &&& to_ulong K.FUTEX_CMD_MASK)) := by
  simp [get_nr_syscall, syscall_get_nr, syscall_get_arguments, arg_at, hraw, hne]

/-- The part of the futex expansion that holds: a known command `c` (with
`SCRIBE_FUTEX_FIRST + c <= SCRIBE_FUTEX_LAST`) resolves to
`SCRIBE_FUTEX_FIRST + c`, an identity with argument count 6, and a command
above the identity `SCRIBE_FUTEX_LAST` resolves to the raw `__NR_futex`. -/
theorem futex_expansion_known (K : Consts) (regs : pt_regs)
    (hne : K.__NR_futex ≠ K.__NR_socketcall)
    (hfirst : 0 ≤ K.SCRIBE_FUTEX_FIRST)
    (hrange : K.SCRIBE_FUTEX_FIRST ≤ K.SCRIBE_FUTEX_LAST)
    (hint : K.SCRIBE_FUTEX_LAST < 2 ^ 31)
    (hdisj : K.SCRIBE_SOCKETCALL_LAST < K.SCRIBE_FUTEX_FIRST)
    (hraw : regs.orig_ax = K.__NR_futex) :
    (K.SCRIBE_FUTEX_FIRST + ((regs.cx &&& to_ulong K.FUTEX_CMD_MASK : Nat) : Int) ≤
        K.SCRIBE_FUTEX_LAST →
      get_nr_syscall K regs =
        K.SCRIBE_FUTEX_FIRST + ((regs.cx &&& to_ulong K.FUTEX_CMD_MASK : Nat) : Int) ∧
      get_num_args K (get_nr_syscall K regs) = 6) ∧
    (((regs.cx &&& to_ulong K.FUTEX_CMD_MASK : Nat) : Int) > K.SCRIBE_FUTEX_LAST →
      get_nr_syscall K regs = K.__NR_futex) := by
  rw [get_nr_syscall_futex K regs hne hraw]
  constructor
  · intro hle
    have hl0 : 0 ≤ K.SCRIBE_FUTEX_LAST := by omega
    have hl : to_ulong K.SCRIBE_FUTEX_LAST = K.SCRIBE_FUTEX_LAST.toNat :=
      to_ulong_of_nonneg hl0 (by omega)
    rw [hl, if_neg (by omega), to_int_base_add _ _ hfirst (by omega)]
    refine ⟨rfl, ?_⟩
    have h1 : ¬ (K.SCRIBE_SOCKETCALL_FIRST ≤ K.SCRIBE_FUTEX_FIRST +
        ((regs.cx &&& to_ulong K.FUTEX_CMD_MASK : Nat) : Int) ∧
        K.SCRIBE_FUTEX_FIRST + ((regs.cx &&& to_ulong K.FUTEX_CMD_MASK : Nat) : Int) ≤
          K.SCRIBE_SOCKETCALL_LAST) := by omega
    have h2 : K.SCRIBE_FUTEX_FIRST ≤ K.SCRIBE_FUTEX_FIRST +
        ((regs.cx &&& to_ulong K.FUTEX_CMD_MASK : Nat) : Int) := by omega
    simp [get_num_args, h1, h2, hle]
  · intro hgt
    have hl0 : 0 ≤ K.SCRIBE_FUTEX_LAST := by omega
    have hl : to_ulong K.SCRIBE_FUTEX_LAST = K.SCRIBE_FUTEX_LAST.toNat :=
      to_ulong_of_nonneg hl0 (by omega)
    rw [hl, if_pos (by omega)]

/-- The range check of the futex expansion compares the command `c` with the
identity `SCRIBE_FUTEX_LAST` instead of `SCRIBE_FUTEX_FIRST + c`: every
unknown command `c` with `SCRIBE_FUTEX_LAST - SCRIBE_FUTEX_FIRST < c <=
SCRIBE_FUTEX_LAST` resolves to `SCRIBE_FUTEX_FIRST + c`, an identity above
`SCRIBE_FUTEX_LAST`, not to the raw `__NR_futex`. -/
theorem futex_expansion_gap (K : Consts) (regs : pt_regs)
    (hne : K.__NR_futex ≠ K.__NR_socketcall)
    (hfirst : 0 ≤ K.SCRIBE_FUTEX_FIRST)
    (hraw : regs.orig_ax = K.__NR_futex)
    (hunknown : K.SCRIBE_FUTEX_LAST <
      K.SCRIBE_FUTEX_FIRST + ((regs.cx &&& to_ulong K.FUTEX_CMD_MASK : Nat) : Int))
    (hpass : ((regs.cx &&& to_ulong K.FUTEX_CMD_MASK : Nat) : Int) ≤
      K.SCRIBE_FUTEX_LAST)
    (hint : K.SCRIBE_FUTEX_FIRST +
      ((regs.cx &&& to_ulong K.FUTEX_CMD_MASK : Nat) : Int) < 2 ^ 31) :
    get_nr_syscall K regs =
      K.SCRIBE_FUTEX_FIRST + ((regs.cx &&& to_ulong K.FUTEX_CMD_MASK : Nat) : Int) ∧
    K.SCRIBE_FUTEX_LAST < get_nr_syscall K regs := by
  rw [get_nr_syscall_futex K regs hne hraw]
  have hl0 : 0 ≤ K.SCRIBE_FUTEX_LAST := by omega
  have hl : to_ulong K.SCRIBE_FUTEX_LAST = K.SCRIBE_FUTEX_LAST.toNat :=
    to_ulong_of_nonneg hl0 (by omega)
  rw [hl, if_neg (by omega), to_int_base_add _ _ hfirst hint]
  exact ⟨rfl, hunknown⟩

/-- C9 (the code at the failing input): a `futex` call with operation 13, one
more than the last known command `SCRIBE_FUTEX_LAST - SCRIBE_FUTEX_FIRST = 12`.
The masked command is 13, it is out of range (`SCRIBE_FUTEX_FIRST + 13 >
SCRIBE_FUTEX_LAST`), and `get_nr_syscall` does not return the raw
`__NR_futex` but the identity 376, which is neither `__NR_futex` nor in
`[SCRIBE_FUTEX_FIRST, SCRIBE_FUTEX_LAST]` and is not below
`NR_scribe_syscalls`. -/
theorem futex_expansion_op_13 :
    (⟨240, 0, 0x8049000, 13, 0, 0, 0, 0⟩ : pt_regs).orig_ax =
      Consts.x86_32.__NR_futex ∧
    (13 &&& to_ulong Consts.x86_32.FUTEX_CMD_MASK) = 13 ∧
    Consts.x86_32.SCRIBE_FUTEX_LAST - Consts.x86_32.SCRIBE_FUTEX_FIRST = 12 ∧
    Consts.x86_32.SCRIBE_FUTEX_FIRST + 13 > Consts.x86_32.SCRIBE_FUTEX_LAST ∧
    get_nr_syscall Consts.x86_32 ⟨240, 0, 0x8049000, 13, 0, 0, 0, 0⟩ = 376 ∧
    get_nr_syscall Consts.x86_32 ⟨240, 0, 0x8049000, 13, 0, 0, 0, 0⟩ ≠
      Consts.x86_32.__NR_futex ∧
    ¬ (Consts.x86_32.SCRIBE_FUTEX_FIRST ≤
        get_nr_syscall Consts.x86_32 ⟨240, 0, 0x8049000, 13, 0, 0, 0, 0⟩ ∧
      get_nr_syscall Consts.x86_32 ⟨240, 0, 0x8049000, 13, 0, 0, 0, 0⟩ ≤
        Consts.x86_32.SCRIBE_FUTEX_LAST) ∧
    ¬ (get_nr_syscall Consts.x86_32 ⟨240, 0, 0x8049000, 13, 0, 0, 0, 0⟩ <
      Consts.x86_32.NR_scribe_syscalls) := by
  decide

/-! ### Divergence detector -/

theorem or_and_self_right (a b : Nat) : (a ||| b) &&& b = b := by
  apply Nat.eq_of_testBit_eq
  intro i
  simp only [Nat.testBit_and, Nat.testBit_or]
  cases a.testBit i <;> cases b.testBit i <;> rfl

theorem flags_ne_zero_of_replaying (K : Consts) (s : scribe_ps)
    (h : is_replaying K s = true) : s.flags ≠ 0 := by
  intro h0
  simp [is_replaying, h0] at h

/-- The divergence path of a process-creation call: forced strict replay. -/
theorem syscall_diverge_fork (K : Consts) (s : scribe_ps) (ev : scribe_event)
    (rest : List scribe_event)
    (hnz : s.flags ≠ 0)
    (hfork : s.syscall.nr = K.__NR_clone ∨ s.syscall.nr = K.__NR_fork ∨
      s.syscall.nr = K.__NR_vfork)
    (hstrict : K.SCRIBE_PS_STRICT_REPLAY ≠ 0)
    (hq : s.queue = ev :: rest) :
    syscall_diverge K s =
      (-K.EDIVERGE,
        { s with
          queue := rest,
          diverged := s.diverged ++
            [.diverge_syscall s.syscall.nr s.syscall.num_args
              ((List.range 6).map (arg_at s.syscall.args))] }) := by
  have hf : (s.syscall.nr == K.__NR_clone || s.syscall.nr == K.__NR_fork ||
      s.syscall.nr == K.__NR_vfork) = true := by
    rcases hfork with h | h | h <;> simp [h]
  unfold syscall_diverge
  simp only [hf, if_true, should_strict_replay, scribe_dequeue_event,
    scribe_mutation, hq, or_and_self_right, bne_iff_ne, ne_eq, hstrict,
    not_false_eq_true, hnz]

/-- C10: fork divergence forcing.  For every replaying unit in extra mode
whose cached identity is `__NR_clone`, `__NR_fork` or `__NR_vfork` and whose
head event fails the detector's checks, `scribe_need_syscall_ret_replay`,
whatever the ambient flags, returns `-EDIVERGE`, consumes the mismatched head
event and emits one `DivergeSyscall` report with the live identity, argument
count and six argument words, and nothing else of the unit changes: the flags
after the call are the flags before it (the strict-replay bit is not left
set), mutation mode is not started, no reservation is created and no pending
reset is saved. -/
theorem fork_divergence_forcing (K : Consts) (s : scribe_ps)
    (ev : scribe_event) (rest : List scribe_event)
    (hstrict : K.SCRIBE_PS_STRICT_REPLAY ≠ 0)
    (hrep : is_replaying K s = true)
    (hextra : should_scribe_syscall_extra s = true)
    (hfork : s.syscall.nr = K.__NR_clone ∨ s.syscall.nr = K.__NR_fork ∨
      s.syscall.nr = K.__NR_vfork)
    (hq : s.queue = ev :: rest)
    (hrej : syscall_event_accepted s ev = false) :
    scribe_need_syscall_ret_replay K s =
      (-K.EDIVERGE,
        { s with
          queue := rest,
          diverged := s.diverged ++
            [.diverge_syscall s.syscall.nr s.syscall.num_args
              ((List.range 6).map (arg_at s.syscall.args))] }) ∧
    (scribe_need_syscall_ret_replay K s).2.flags = s.flags ∧
    is_mutating K (scribe_need_syscall_ret_replay K s).2 = is_mutating K s ∧
    should_strict_replay K (scribe_need_syscall_ret_replay K s).2 =
      should_strict_replay K s ∧
    (scribe_need_syscall_ret_replay K s).2.syscall_ip = s.syscall_ip ∧
    (scribe_need_syscall_ret_replay K s).2.commit_sys_reset_flags =
      s.commit_sys_reset_flags := by
  have e : scribe_need_syscall_ret_replay K s = syscall_diverge K s := by
    unfold scribe_need_syscall_ret_replay
    simp [hextra, scribe_peek_event, hq, hrej]
  rw [e, syscall_diverge_fork K s ev rest (flags_ne_zero_of_replaying K s hrep)
    hfork hstrict hq]
  exact ⟨rfl, rfl, rfl, rfl, rfl, rfl⟩

/-- Witness of C10: the unit `clone_unit`, whose head event records another
call. -/
theorem fork_divergence_forcing_witness :
    scribe_need_syscall_ret_replay Consts.x86_32 clone_unit =
      (-Consts.x86_32.EDIVERGE,
        { clone_unit with
          queue := [.syscall_end],
          diverged := clone_unit.diverged ++
            [.diverge_syscall clone_unit.syscall.nr clone_unit.syscall.num_args
              ((List.range 6).map (arg_at clone_unit.syscall.args))] }) ∧
    (scribe_need_syscall_ret_replay Consts.x86_32 clone_unit).2.flags =
      clone_unit.flags ∧
    is_mutating Consts.x86_32
        (scribe_need_syscall_ret_replay Consts.x86_32 clone_unit).2 =
      is_mutating Consts.x86_32 clone_unit ∧
    should_strict_replay Consts.x86_32
        (scribe_need_syscall_ret_replay Consts.x86_32 clone_unit).2 =
      should_strict_replay Consts.x86_32 clone_unit ∧
    (scribe_need_syscall_ret_replay Consts.x86_32 clone_unit).2.syscall_ip =
      clone_unit.syscall_ip ∧
    (scribe_need_syscall_ret_replay Consts.x86_32
        clone_unit).2.commit_sys_reset_flags =
      clone_unit.commit_sys_reset_flags :=
  fork_divergence_forcing Consts.x86_32 clone_unit
    (.syscall_extra 12 7 3 [1, 2, 3]) [.syscall_end] (by decide) (by decide)
    (by decide) (by decide) rfl (by decide)

theorem set_flags_queue (K : Consts) (s : scribe_ps) (N : Nat) (d : Int) :
    (scribe_syscall_set_flags K s N d).queue = s.queue := by
  unfold scribe_syscall_set_flags scribe_mem_reload __scribe_forbid_uaccess
  simp only
  split_ifs <;> rfl

/-- The argument loop accepts exactly when every pair of words is equal or
both words look like addresses. -/
theorem syscall_args_accepted_iff (ev_args live_args : List Nat) (n : Nat) :
    syscall_args_accepted ev_args live_args n = true ↔
      ∀ i, i < n →
        arg_at ev_args i = arg_at live_args i ∨
        (arg_at ev_args i &&& 0xff800000 ≠ 0 ∧
          arg_at live_args i &&& 0xff800000 ≠ 0) := by
  simp [syscall_args_accepted, looks_like_address, List.all_eq_true]

theorem dequeue_event_flags (s : scribe_ps) :
    (scribe_dequeue_event s).2.flags = s.flags := by
  unfold scribe_dequeue_event
  split <;> rfl

/-- A divergence that returns 0 has not consumed any event. -/
theorem syscall_diverge_not_consumed (K : Consts) (s : scribe_ps)
    (hE : K.EDIVERGE ≠ 0) (h0 : (syscall_diverge K s).1 = 0) :
    (syscall_diverge K s).2.queue = s.queue := by
  unfold syscall_diverge at h0 ⊢
  simp only at h0 ⊢
  split_ifs at h0 ⊢ <;>
    simp_all [scribe_need_syscall_ret_record, scribe_create_insert_point,
      set_flags_queue, scribe_mutation, scribe_start_mutations,
      should_strict_replay, dequeue_event_flags]

theorem cons_ne_self_tail {α : Type} (a : α) (l : List α) : l ≠ a :: l := by
  intro h
  have := congrArg List.length h
  simp at this

/-- In extra mode an accepted head event is consumed and its return value
cached; nothing else changes. -/
theorem need_syscall_ret_replay_accepted (K : Consts) (s : scribe_ps)
    (size : Nat) (ret nr : Int) (args : List Nat) (rest : List scribe_event)
    (hextra : should_scribe_syscall_extra s = true)
    (hq : s.queue = .syscall_extra size ret nr args :: rest)
    (hacc : syscall_event_accepted s (.syscall_extra size ret nr args) = true) :
    scribe_need_syscall_ret_replay K s =
      (0, { s with queue := rest, orig_ret := ret }) := by
  unfold scribe_need_syscall_ret_replay
  simp [hextra, scribe_peek_event, hq, hacc, scribe_dequeue_event]

/-- C2: divergence detector acceptance with address tolerance.  In extra mode
`scribe_need_syscall_ret_replay` reports no divergence (it returns 0, dequeues
exactly the head event, sets `orig_ret` to the return value of that event and
leaves the flags unchanged) if and only if the head event is a `SyscallExtra`
whose identity equals the cached identity, whose payload size equals
`num_args * sizeof(unsigned long)`, and for every `i < num_args` the recorded
and the live argument are equal or both have a bit of `0xff800000` set.  So
two arguments that both have such a bit are treated as equal whatever their
values, and when only one of two differing arguments has one the call
diverges. -/
theorem detector_acceptance (K : Consts) (s : scribe_ps)
    (hextra : should_scribe_syscall_extra s = true) (hE : K.EDIVERGE ≠ 0) :
    (∃ ev rest, s.queue = ev :: rest ∧
        (scribe_need_syscall_ret_replay K s).1 = 0 ∧
        (scribe_need_syscall_ret_replay K s).2.queue = rest ∧
        ev.ret = some (scribe_need_syscall_ret_replay K s).2.orig_ret ∧
        (scribe_need_syscall_ret_replay K s).2.flags = s.flags) ↔
      (∃ size ret nr args rest,
        s.queue = .syscall_extra size ret nr args :: rest ∧
        nr = s.syscall.nr ∧
        size = s.syscall.num_args * sizeof_ulong ∧
        ∀ i, i < s.syscall.num_args →
          arg_at args i = arg_at s.syscall.args i ∨
          (arg_at args i &&& 0xff800000 ≠ 0 ∧
            arg_at s.syscall.args i &&& 0xff800000 ≠ 0)) := by
  constructor
  · rintro ⟨ev, rest, hq, h0, hrest, -, -⟩
    by_cases hacc : syscall_event_accepted s ev = true
    · cases ev with
      | syscall_extra size ret nr args =>
        refine ⟨size, ret, nr, args, rest, hq, ?_⟩
        simp only [syscall_event_accepted, Bool.and_eq_true, beq_iff_eq] at hacc
        exact ⟨hacc.1.1, hacc.1.2, (syscall_args_accepted_iff _ _ _).mp hacc.2⟩
      | _ => simp [syscall_event_accepted] at hacc
    · exfalso
      have e : scribe_need_syscall_ret_replay K s = syscall_diverge K s := by
        unfold scribe_need_syscall_ret_replay
        simp [hextra, scribe_peek_event, hq, hacc]
      rw [e] at h0 hrest
      rw [syscall_diverge_not_consumed K s hE h0, hq] at hrest
      exact cons_ne_self_tail ev rest hrest.symm
  · rintro ⟨size, ret, nr, args, rest, hq, hnr, hsize, hargs⟩
    have hacc : syscall_event_accepted s (.syscall_extra size ret nr args) = true := by
      simp only [syscall_event_accepted, Bool.and_eq_true, beq_iff_eq]
      exact ⟨⟨hnr, hsize⟩, (syscall_args_accepted_iff _ _ _).mpr hargs⟩
    refine ⟨_, rest, hq, ?_⟩
    rw [need_syscall_ret_replay_accepted K s size ret nr args rest hextra hq hacc]
    exact ⟨rfl, rfl, rfl, rfl⟩

/-- Witness of C2: the unit `accept_unit`, whose head event differs from the
live call in one argument, both values being stack addresses. -/
theorem detector_acceptance_witness :
    (∃ ev rest, accept_unit.queue = ev :: rest ∧
        (scribe_need_syscall_ret_replay Consts.x86_32 accept_unit).1 = 0 ∧
        (scribe_need_syscall_ret_replay Consts.x86_32 accept_unit).2.queue = rest ∧
        ev.ret =
          some (scribe_need_syscall_ret_replay Consts.x86_32 accept_unit).2.orig_ret ∧
        (scribe_need_syscall_ret_replay Consts.x86_32 accept_unit).2.flags =
          accept_unit.flags) ↔
      (∃ size ret nr args rest,
        accept_unit.queue = .syscall_extra size ret nr args :: rest ∧
        nr = accept_unit.syscall.nr ∧
        size = accept_unit.syscall.num_args * sizeof_ulong ∧
        ∀ i, i < accept_unit.syscall.num_args →
          arg_at args i = arg_at accept_unit.syscall.args i ∨
          (arg_at args i &&& 0xff800000 ≠ 0 ∧
            arg_at accept_unit.syscall.args i &&& 0xff800000 ≠ 0)) :=
  detector_acceptance Consts.x86_32 accept_unit rfl (by decide)

/-! ### Record/replay round trip -/

theorem arg_at_map_range (f : Nat → Nat) (n i : Nat) (hi : i < n) :
    arg_at ((List.range n).map f) i = f i := by
  simp [arg_at, List.getD_eq_getElem?_getD, hi]

theorem syscall_args_accepted_recorded (args : List Nat) (n : Nat) :
    syscall_args_accepted ((List.range n).map (arg_at args)) args n = true := by
  rw [syscall_args_accepted_iff]
  intro i hi
  exact Or.inl (arg_at_map_range _ n i hi)

/-- What recording one call does when allocations succeed. -/
theorem record_call_spec (K : Consts) (s : scribe_ps) (c : live_call)
    (halloc : s.alloc_budget = none) :
    record_call K s c =
      { s with
        syscall := c.call,
        syscall_ip := none,
        queue := s.queue ++ recorded_events s.syscall_extra c } := by
  unfold record_call scribe_need_syscall_ret_record scribe_create_insert_point
    scribe_commit_syscall_record scribe_queue_new_event scribe_alloc_event
    scribe_queue_event_at scribe_commit_insert_point scribe_queue_event
    should_scribe_syscall_extra recorded_events
  cases hx : s.syscall_extra <;> simp [halloc, hx]

theorem record_calls_spec (K : Consts) (cs : List live_call) :
    ∀ s : scribe_ps, s.alloc_budget = none →
      (record_calls K s cs).queue =
          s.queue ++ recorded_stream s.syscall_extra cs ∧
        (record_calls K s cs).killed = s.killed := by
  induction cs with
  | nil => intro s _; simp [record_calls, recorded_stream]
  | cons c cs ih =>
    intro s halloc
    have hstep : record_calls K s (c :: cs) = record_calls K (record_call K s c) cs := rfl
    rw [hstep, record_call_spec K s c halloc]
    have h := ih { s with
        syscall := c.call,
        syscall_ip := none,
        queue := s.queue ++ recorded_events s.syscall_extra c } halloc
    simp only at h
    rw [h.1, h.2]
    simp [recorded_stream, List.append_assoc]

/-- What replaying one call does on a stream that starts with the events
recorded for that call. -/
theorem replay_call_spec (K : Consts) (s : scribe_ps) (c : live_call)
    (rest : List scribe_event)
    (hq : s.queue = recorded_events s.syscall_extra c ++ rest) :
    replay_call K s c =
      ((0, c.ret), { s with syscall := c.call, queue := rest, orig_ret := c.ret }) := by
  cases hx : s.syscall_extra
  · rw [hx] at hq
    simp only [recorded_events, Bool.false_eq_true, if_false, List.singleton_append] at hq
    simp [replay_call, scribe_need_syscall_ret_replay, should_scribe_syscall_extra,
      hx, scribe_dequeue_event_specific, scribe_peek_event, hq, scribe_event.type,
      scribe_dequeue_event, scribe_commit_syscall_replay, should_ret_check]
  · rw [hx] at hq
    simp only [recorded_events, if_true, List.cons_append, List.nil_append] at hq
    have hacc : syscall_event_accepted { s with syscall := c.call }
        (.syscall_extra (c.call.num_args * sizeof_ulong) c.ret c.call.nr
          ((List.range c.call.num_args).map (arg_at c.call.args))) = true := by
      simp [syscall_event_accepted, syscall_args_accepted_recorded]
    have e := need_syscall_ret_replay_accepted K { s with syscall := c.call }
      _ _ _ _ (.syscall_end :: rest) hx hq hacc
    unfold replay_call
    simp only [e]
    simp [scribe_commit_syscall_replay, should_scribe_syscall_extra,
      hx, scribe_dequeue_event_specific, scribe_peek_event, scribe_event.type,
      scribe_dequeue_event, should_ret_check]

theorem replay_calls_spec (K : Consts) (cs : List live_call) :
    ∀ (s : scribe_ps) (rest : List scribe_event),
      s.queue = recorded_stream s.syscall_extra cs ++ rest →
      (replay_calls K s cs).1 = cs.map (fun c => (0, c.ret)) ∧
        (replay_calls K s cs).2.queue = rest ∧
        (replay_calls K s cs).2.diverged = s.diverged ∧
        (replay_calls K s cs).2.flags = s.flags := by
  induction cs with
  | nil =>
    intro s rest hq
    simpa [replay_calls, recorded_stream] using hq
  | cons c cs ih =>
    intro s rest hq
    simp only [recorded_stream, List.append_assoc] at hq
    have e := replay_call_spec K s c _ hq
    have h := ih
      { s with
        syscall := c.call,
        queue := recorded_stream s.syscall_extra cs ++ rest,
        orig_ret := c.ret }
      rest rfl
    simp only [replay_calls, e, List.map_cons]
    simp only at h
    exact ⟨by rw [h.1], h.2.1, h.2.2.1, h.2.2.2⟩

/-- C1: record/replay round trip.  Recording any finite sequence of calls into
an initially empty stream (slot reserved at entry by
`scribe_need_syscall_ret_record`, filled at exit by
`scribe_commit_syscall_record`, allocations succeeding) and replaying that
stream against the same sequence of calls with the same return values
(`scribe_need_syscall_ret_replay` at entry, `scribe_commit_syscall_replay` at
exit), in the same mode, plain or extra, takes no divergence path: every
`scribe_need_syscall_ret_replay` returns 0 with `orig_ret` equal to the
recorded return value, no divergence event is emitted, the flags are
unchanged, the stream is empty at the end, and recording did not kill the
session. -/
theorem record_replay_round_trip (K : Consts) (rec rep : scribe_ps)
    (cs : List live_call)
    (hempty : rec.queue = []) (halloc : rec.alloc_budget = none)
    (hmode : rep.syscall_extra = rec.syscall_extra)
    (hstream : rep.queue = (record_calls K rec cs).queue) :
    (replay_calls K rep cs).1 = cs.map (fun c => (0, c.ret)) ∧
    (replay_calls K rep cs).2.queue = [] ∧
    (replay_calls K rep cs).2.diverged = rep.diverged ∧
    (replay_calls K rep cs).2.flags = rep.flags ∧
    (record_calls K rec cs).killed = rec.killed := by
  have hr := record_calls_spec K cs rec halloc
  rw [hr.1, hempty, List.nil_append, ← hmode] at hstream
  have hp := replay_calls_spec K cs rep [] (by rw [hstream, List.append_nil])
  exact ⟨hp.1, hp.2.1, hp.2.2.1, hp.2.2.2, hr.2⟩

/-- Witness of C1: `sample_calls` recorded by `record_unit` and replayed by
`replay_sample_unit`. -/
theorem record_replay_round_trip_witness :
    (replay_calls Consts.x86_32 replay_sample_unit sample_calls).1 =
      sample_calls.map (fun c => (0, c.ret)) ∧
    (replay_calls Consts.x86_32 replay_sample_unit sample_calls).2.queue = [] ∧
    (replay_calls Consts.x86_32 replay_sample_unit sample_calls).2.diverged =
      replay_sample_unit.diverged ∧
    (replay_calls Consts.x86_32 replay_sample_unit sample_calls).2.flags =
      replay_sample_unit.flags ∧
    (record_calls Consts.x86_32 record_unit sample_calls).killed =
      record_unit.killed :=
  record_replay_round_trip Consts.x86_32 record_unit replay_sample_unit
    sample_calls rfl rfl rfl rfl

/-- The stream `record_unit` produces for `sample_calls`, evaluated. -/
theorem record_sample_calls_stream :
    (record_calls Consts.x86_32 record_unit sample_calls).queue =
      [.syscall_extra 8 3 5 [0x8048000, 0], .syscall_end,
        .syscall_extra 12 100 3 [3, 0xbf800010, 100], .syscall_end] := by
  decide

/-- Address tolerance, evaluated: `accept_unit` accepts a head event whose
second argument is another stack address, and diverges into mutation mode
(the head event is kept, a `DivergeSyscall` is emitted) once the recorded
second argument is the small number `0x10`. -/
theorem address_tolerance_examples :
    (scribe_need_syscall_ret_replay Consts.x86_32 accept_unit).1 = 0 ∧
    (scribe_need_syscall_ret_replay Consts.x86_32 accept_unit).2.queue =
      [.syscall_end] ∧
    (scribe_need_syscall_ret_replay Consts.x86_32 accept_unit).2.orig_ret = 42 ∧
    (scribe_need_syscall_ret_replay Consts.x86_32 accept_unit).2.diverged = [] ∧
    (scribe_need_syscall_ret_replay Consts.x86_32
      { accept_unit with
        queue := [.syscall_extra 12 42 3 [5, 0x10, 100], .syscall_end] }).2.queue =
      [.syscall_extra 12 42 3 [5, 0x10, 100], .syscall_end] ∧
    (scribe_need_syscall_ret_replay Consts.x86_32
      { accept_unit with
        queue := [.syscall_extra 12 42 3 [5, 0x10, 100], .syscall_end] }).2.diverged =
      [.diverge_syscall 3 3 [5, 0xbf800010, 100, 0, 0, 0]] := by
  decide

/-! ### Mutation fallback -/

theorem or_and_eq_zero (a b c : Nat) (ha : a &&& c = 0) (hb : b &&& c = 0) :
    (a ||| b) &&& c = 0 := by
  apply Nat.eq_of_testBit_eq
  intro i
  have h1 : (a &&& c).testBit i = false := by rw [ha]; exact Nat.zero_testBit i
  have h2 : (b &&& c).testBit i = false := by rw [hb]; exact Nat.zero_testBit i
  rw [Nat.testBit_and] at h1 h2
  simp only [Nat.testBit_and, Nat.testBit_or, Nat.zero_testBit]
  cases ha' : a.testBit i <;> cases hb' : b.testBit i <;> cases hc' : c.testBit i <;>
    simp_all

/-- A non-zero word has a bit set among its 32 bits. -/
theorem exists_bit_of_ne_zero {m : Nat} (h0 : m ≠ 0) (hw : m < ULONG_SIZE) :
    ∃ i, i < 32 ∧ m.testBit i = true := by
  obtain ⟨i, hi⟩ := Nat.ne_zero_implies_bit_true h0
  refine ⟨i, ?_, hi⟩
  by_contra hge
  rw [testBit_of_lt_ulong hw (Nat.le_of_not_lt hge)] at hi
  exact Bool.noConfusion hi

/-- A bit outside the enable mask that is set before
`scribe_syscall_set_flags` is set after it. -/
theorem set_flags_keeps_mode_bit (K : Consts) (s : scribe_ps) (N : Nat) (d : Int)
    (m : Nat) (h0 : m ≠ 0) (hw : m < ULONG_SIZE)
    (hE : m &&& K.SCRIBE_PS_ENABLE_ALL = 0) (hs : s.flags &&& m = m) :
    (scribe_syscall_set_flags K s N d).flags &&& m ≠ 0 := by
  obtain ⟨i, hi32, hi⟩ := exists_bit_of_ne_zero h0 hw
  have hEi : (m &&& K.SCRIBE_PS_ENABLE_ALL).testBit i = false := by
    rw [hE]; exact Nat.zero_testBit i
  rw [Nat.testBit_and, hi] at hEi
  have hsi : (s.flags &&& m).testBit i = true := by rw [hs]; exact hi
  rw [Nat.testBit_and, hi] at hsi
  intro hz
  have hb : ((scribe_syscall_set_flags K s N d).flags &&& m).testBit i = false := by
    rw [hz]; exact Nat.zero_testBit i
  rw [set_flags_flags, Nat.testBit_and, Nat.testBit_or, Nat.testBit_and,
    Nat.testBit_and, testBit_not_ulong, hi] at hb
  simp_all

/-- C11: mutation fallback.  For every replaying unit in extra mode, not in
strict replay, whose cached identity is none of clone, fork, vfork, exit and
exit_group and whose head event fails the detector's checks,
`scribe_need_syscall_ret_replay` returns 0, leaves the mismatched head event
in the stream, starts mutation mode, emits one `DivergeSyscall` event with the
live identity, `num_args` and the six cached argument words, sets `orig_ret`
to 0, sets the enable bits of the flags to exactly `SCRIBE_PS_ENABLE_DATA`,
saves the flags in effect before that (the flags of the unit with the
mutation bit, whose enable bits are those before the call) as the pending
reset, and creates the insert point that `scribe_need_syscall_ret_record`
creates. -/
theorem mutation_fallback (K : Consts) (s : scribe_ps) (ev : scribe_event)
    (rest : List scribe_event)
    (hmut0 : K.SCRIBE_PS_MUTATING ≠ 0)
    (hmutw : K.SCRIBE_PS_MUTATING < ULONG_SIZE)
    (hmutE : K.SCRIBE_PS_MUTATING &&& K.SCRIBE_PS_ENABLE_ALL = 0)
    (hmutS : K.SCRIBE_PS_MUTATING &&& K.SCRIBE_PS_STRICT_REPLAY = 0)
    (hdata : K.SCRIBE_PS_ENABLE_DATA &&& K.SCRIBE_PS_ENABLE_ALL =
      K.SCRIBE_PS_ENABLE_DATA)
    (_hrep : is_replaying K s = true)
    (hextra : should_scribe_syscall_extra s = true)
    (hns : should_strict_replay K s = false)
    (hclone : s.syscall.nr ≠ K.__NR_clone) (hfork : s.syscall.nr ≠ K.__NR_fork)
    (hvfork : s.syscall.nr ≠ K.__NR_vfork) (hexit : s.syscall.nr ≠ K.__NR_exit)
    (hgroup : s.syscall.nr ≠ K.__NR_exit_group)
    (hq : s.queue = ev :: rest)
    (hrej : syscall_event_accepted s ev = false) :
    (scribe_need_syscall_ret_replay K s).1 = 0 ∧
    (scribe_need_syscall_ret_replay K s).2.queue = ev :: rest ∧
    is_mutating K (scribe_need_syscall_ret_replay K s).2 = true ∧
    (scribe_need_syscall_ret_replay K s).2.diverged =
      s.diverged ++
        [.diverge_syscall s.syscall.nr s.syscall.num_args
          ((List.range 6).map (arg_at s.syscall.args))] ∧
    (scribe_need_syscall_ret_replay K s).2.orig_ret = 0 ∧
    (scribe_need_syscall_ret_replay K s).2.flags &&& K.SCRIBE_PS_ENABLE_ALL =
      K.SCRIBE_PS_ENABLE_DATA ∧
    (scribe_need_syscall_ret_replay K s).2.commit_sys_reset_flags =
      s.flags ||| K.SCRIBE_PS_MUTATING ∧
    (scribe_need_syscall_ret_replay K s).2.commit_sys_reset_flags &&&
        K.SCRIBE_PS_ENABLE_ALL = s.flags &&& K.SCRIBE_PS_ENABLE_ALL ∧
    (scribe_need_syscall_ret_replay K s).2.syscall_ip = some (ev :: rest).length ∧
    (scribe_need_syscall_ret_replay K s).2.syscall_ip =
      (scribe_need_syscall_ret_record s).2.syscall_ip := by
  have e : scribe_need_syscall_ret_replay K s = syscall_diverge K s := by
    unfold scribe_need_syscall_ret_replay
    simp [hextra, scribe_peek_event, hq, hrej]
  have hns' : s.flags &&& K.SCRIBE_PS_STRICT_REPLAY = 0 := by
    simpa [should_strict_replay] using hns
  have hns2 : (s.flags ||| K.SCRIBE_PS_MUTATING) &&& K.SCRIBE_PS_STRICT_REPLAY = 0 :=
    or_and_eq_zero _ _ _ hns' hmutS
  set t : scribe_ps := scribe_mutation (scribe_start_mutations K s)
    (.diverge_syscall s.syscall.nr s.syscall.num_args
      ((List.range 6).map (arg_at s.syscall.args))) with ht
  have e2 : syscall_diverge K s =
      (0, scribe_create_insert_point
        { scribe_syscall_set_flags K t K.SCRIBE_PS_ENABLE_DATA
            K.SCRIBE_UNTIL_NEXT_SYSCALL with orig_ret := 0 }) := by
    unfold syscall_diverge
    simp [hclone, hfork, hvfork, hexit, hgroup, should_strict_replay, hns',
      scribe_start_mutations, scribe_mutation, hns2,
      scribe_need_syscall_ret_record, ht]
  rw [e, e2]
  have hq' : (scribe_syscall_set_flags K t K.SCRIBE_PS_ENABLE_DATA
      K.SCRIBE_UNTIL_NEXT_SYSCALL).queue = ev :: rest := by
    rw [set_flags_queue]; exact hq
  have htf : t.flags = s.flags ||| K.SCRIBE_PS_MUTATING := rfl
  have hcrf : (scribe_syscall_set_flags K t K.SCRIBE_PS_ENABLE_DATA
      K.SCRIBE_UNTIL_NEXT_SYSCALL).commit_sys_reset_flags =
      s.flags ||| K.SCRIBE_PS_MUTATING := by
    rw [set_flags_reset, if_pos rfl, htf]
  refine ⟨rfl, hq', ?_, ?_, rfl, ?_, hcrf, ?_, ?_, ?_⟩
  · have := set_flags_keeps_mode_bit K t K.SCRIBE_PS_ENABLE_DATA
      K.SCRIBE_UNTIL_NEXT_SYSCALL K.SCRIBE_PS_MUTATING hmut0 hmutw hmutE
      (by rw [htf]; exact or_and_self_right _ _)
    simpa [is_mutating, scribe_create_insert_point] using this
  · show (scribe_syscall_set_flags K t K.SCRIBE_PS_ENABLE_DATA
      K.SCRIBE_UNTIL_NEXT_SYSCALL).diverged = _
    unfold scribe_syscall_set_flags scribe_mem_reload __scribe_forbid_uaccess
    simp only
    split_ifs <;> rfl
  · show (scribe_syscall_set_flags K t K.SCRIBE_PS_ENABLE_DATA
      K.SCRIBE_UNTIL_NEXT_SYSCALL).flags &&& K.SCRIBE_PS_ENABLE_ALL = _
    rw [set_flags_flags, enable_bits_after_set, hdata]
  · show (scribe_syscall_set_flags K t K.SCRIBE_PS_ENABLE_DATA
      K.SCRIBE_UNTIL_NEXT_SYSCALL).commit_sys_reset_flags &&& _ = _
    rw [hcrf]
    apply Nat.eq_of_testBit_eq
    intro i
    have hi : (K.SCRIBE_PS_MUTATING &&& K.SCRIBE_PS_ENABLE_ALL).testBit i = false := by
      rw [hmutE]; exact Nat.zero_testBit i
    rw [Nat.testBit_and] at hi
    simp only [Nat.testBit_and, Nat.testBit_or]
    cases hm : K.SCRIBE_PS_MUTATING.testBit i <;>
      cases hE : K.SCRIBE_PS_ENABLE_ALL.testBit i <;> simp_all
  · show some (scribe_syscall_set_flags K t K.SCRIBE_PS_ENABLE_DATA
      K.SCRIBE_UNTIL_NEXT_SYSCALL).queue.length = _
    rw [hq']
  · show some (scribe_syscall_set_flags K t K.SCRIBE_PS_ENABLE_DATA
      K.SCRIBE_UNTIL_NEXT_SYSCALL).queue.length = some s.queue.length
    rw [hq', hq]

/-- Witness of C11: the unit `diverging_unit`, whose head event records
another identity. -/
theorem mutation_fallback_witness :
    (scribe_need_syscall_ret_replay Consts.x86_32 diverging_unit).1 = 0 ∧
    (scribe_need_syscall_ret_replay Consts.x86_32 diverging_unit).2.queue =
      .syscall_extra 12 7 4 [1, 2, 3] :: [.syscall_end] ∧
    is_mutating Consts.x86_32
      (scribe_need_syscall_ret_replay Consts.x86_32 diverging_unit).2 = true ∧
    (scribe_need_syscall_ret_replay Consts.x86_32 diverging_unit).2.diverged =
      diverging_unit.diverged ++
        [.diverge_syscall diverging_unit.syscall.nr
          diverging_unit.syscall.num_args
          ((List.range 6).map (arg_at diverging_unit.syscall.args))] ∧
    (scribe_need_syscall_ret_replay Consts.x86_32 diverging_unit).2.orig_ret = 0 ∧
    (scribe_need_syscall_ret_replay Consts.x86_32 diverging_unit).2.flags &&&
        Consts.x86_32.SCRIBE_PS_ENABLE_ALL =
      Consts.x86_32.SCRIBE_PS_ENABLE_DATA ∧
    (scribe_need_syscall_ret_replay Consts.x86_32
        diverging_unit).2.commit_sys_reset_flags =
      diverging_unit.flags ||| Consts.x86_32.SCRIBE_PS_MUTATING ∧
    (scribe_need_syscall_ret_replay Consts.x86_32
        diverging_unit).2.commit_sys_reset_flags &&&
        Consts.x86_32.SCRIBE_PS_ENABLE_ALL =
      diverging_unit.flags &&& Consts.x86_32.SCRIBE_PS_ENABLE_ALL ∧
    (scribe_need_syscall_ret_replay Consts.x86_32 diverging_unit).2.syscall_ip =
      some (scribe_event.syscall_extra 12 7 4 [1, 2, 3] ::
        [scribe_event.syscall_end]).length ∧
    (scribe_need_syscall_ret_replay Consts.x86_32 diverging_unit).2.syscall_ip =
      (scribe_need_syscall_ret_record diverging_unit).2.syscall_ip :=
  mutation_fallback Consts.x86_32 diverging_unit
    (.syscall_extra 12 7 4 [1, 2, 3]) [.syscall_end] (by decide) (by decide)
    (by decide) (by decide) (by decide) (by decide) rfl (by decide) (by decide)
    (by decide) (by decide) (by decide) (by decide) rfl (by decide)

/-! ### Memory-scribing handshake -/

/-- A mask inside the enable mask reads, after `scribe_syscall_set_flags`,
what it reads in the requested flags. -/
theorem set_flags_enable_submask (K : Consts) (s : scribe_ps) (N : Nat) (d : Int)
    (m : Nat) (hm : m &&& K.SCRIBE_PS_ENABLE_ALL = m) :
    (scribe_syscall_set_flags K s N d).flags &&& m = N &&& m := by
  rw [set_flags_flags]
  apply Nat.eq_of_testBit_eq
  intro i
  have hi : (m &&& K.SCRIBE_PS_ENABLE_ALL).testBit i = m.testBit i := by rw [hm]
  rw [Nat.testBit_and] at hi
  simp only [Nat.testBit_and, Nat.testBit_or, testBit_not_ulong]
  cases h1 : m.testBit i <;> cases h2 : K.SCRIBE_PS_ENABLE_ALL.testBit i <;>
    cases h3 : N.testBit i <;> cases h4 : s.flags.testBit i <;> simp_all

theorem set_flags_can_uaccess (K : Consts) (s : scribe_ps) (N : Nat) (d : Int) :
    (scribe_syscall_set_flags K s N d).can_uaccess =
      if (s.flags &&& K.SCRIBE_PS_ENABLE_MM != 0 &&
          !(N &&& K.SCRIBE_PS_ENABLE_MM != 0)) = true
      then false else s.can_uaccess := by
  unfold scribe_syscall_set_flags scribe_mem_reload __scribe_forbid_uaccess
  simp only
  split_ifs <;> simp_all

theorem set_flags_mem_reloads (K : Consts) (s : scribe_ps) (N : Nat) (d : Int) :
    (scribe_syscall_set_flags K s N d).mem_reloads =
      if (s.flags &&& K.SCRIBE_PS_ENABLE_MM != 0) !=
          (N &&& K.SCRIBE_PS_ENABLE_MM != 0)
      then s.mem_reloads + 1 else s.mem_reloads := by
  unfold scribe_syscall_set_flags scribe_mem_reload __scribe_forbid_uaccess
  simp only
  split_ifs <;> rfl

theorem bne_zero_true {x : Nat} (h : x ≠ 0) : (x != 0) = true := by
  simpa using h

theorem bne_zero_false {x : Nat} (h : x = 0) : (x != 0) = false := by
  simp [h]

/-- C12: memory-scribing handshake in `scribe_syscall_set_flags`.  With
`SCRIBE_PS_ENABLE_MM` one of the enable bits: if the bit is set before the
call and clear in `new_flags`, the user-memory access capability
`can_uaccess` is not held after the call, and the call does what it does on
the unit that has relinquished the capability beforehand; in every other case
the capability is as before.  The reload notification `scribe_mem_reload` is
issued once when the `ENABLE_MM` bit of the flags differs before and after
the call, and not at all otherwise. -/
theorem mm_handshake (K : Consts) (s : scribe_ps) (N : Nat) (d : Int)
    (hmm : K.SCRIBE_PS_ENABLE_MM &&& K.SCRIBE_PS_ENABLE_ALL =
      K.SCRIBE_PS_ENABLE_MM) :
    (s.flags &&& K.SCRIBE_PS_ENABLE_MM ≠ 0 → N &&& K.SCRIBE_PS_ENABLE_MM = 0 →
      (scribe_syscall_set_flags K s N d).can_uaccess = false ∧
      scribe_syscall_set_flags K s N d =
        scribe_syscall_set_flags K (__scribe_forbid_uaccess s) N d) ∧
    (¬ (s.flags &&& K.SCRIBE_PS_ENABLE_MM ≠ 0 ∧ N &&& K.SCRIBE_PS_ENABLE_MM = 0) →
      (scribe_syscall_set_flags K s N d).can_uaccess = s.can_uaccess) ∧
    ((s.flags &&& K.SCRIBE_PS_ENABLE_MM ≠ 0 ↔
        (scribe_syscall_set_flags K s N d).flags &&& K.SCRIBE_PS_ENABLE_MM ≠ 0) →
      (scribe_syscall_set_flags K s N d).mem_reloads = s.mem_reloads) ∧
    (¬ (s.flags &&& K.SCRIBE_PS_ENABLE_MM ≠ 0 ↔
        (scribe_syscall_set_flags K s N d).flags &&& K.SCRIBE_PS_ENABLE_MM ≠ 0) →
      (scribe_syscall_set_flags K s N d).mem_reloads = s.mem_reloads + 1) := by
  have hafter := set_flags_enable_submask K s N d K.SCRIBE_PS_ENABLE_MM hmm
  rw [hafter]
  refine ⟨?_, ?_, ?_, ?_⟩
  · intro hold hnew
    constructor
    · rw [set_flags_can_uaccess]
      simp [hold, hnew]
    · unfold scribe_syscall_set_flags scribe_mem_reload __scribe_forbid_uaccess
      simp only [hnew]
      split_ifs <;> simp_all
  · intro h
    rw [set_flags_can_uaccess]
    by_cases hold : s.flags &&& K.SCRIBE_PS_ENABLE_MM = 0
    · simp [hold]
    · have hnew : N &&& K.SCRIBE_PS_ENABLE_MM ≠ 0 := fun hz => h ⟨hold, hz⟩
      simp [hold, hnew]
  · intro h
    rw [set_flags_mem_reloads]
    have hb : ((s.flags &&& K.SCRIBE_PS_ENABLE_MM != 0) !=
        (N &&& K.SCRIBE_PS_ENABLE_MM != 0)) = false := by
      by_cases hold : s.flags &&& K.SCRIBE_PS_ENABLE_MM = 0 <;>
        by_cases hnew : N &&& K.SCRIBE_PS_ENABLE_MM = 0
      · rw [bne_zero_false hold, bne_zero_false hnew]
        rfl
      · exfalso
        simp [hold, hnew] at h
      · exfalso
        simp [hold, hnew] at h
      · rw [bne_zero_true hold, bne_zero_true hnew]
        rfl
    simp [hb]
  · intro h
    rw [set_flags_mem_reloads]
    have hb : ((s.flags &&& K.SCRIBE_PS_ENABLE_MM != 0) !=
        (N &&& K.SCRIBE_PS_ENABLE_MM != 0)) = true := by
      by_cases hold : s.flags &&& K.SCRIBE_PS_ENABLE_MM = 0 <;>
        by_cases hnew : N &&& K.SCRIBE_PS_ENABLE_MM = 0
      · exfalso
        simp [hold, hnew] at h
      · rw [bne_zero_false hold, bne_zero_true hnew]
        rfl
      · rw [bne_zero_true hold, bne_zero_false hnew]
        rfl
      · exfalso
        simp [hold, hnew] at h
    simp [hb]

/-- Witness of C12: `replay_unit` with memory scribing enabled (flags
`0x2b02`) asked to clear every enable bit. -/
theorem mm_handshake_witness :
    ((unit_with 0x2b02 ⟨3, 3, [0, 0, 0, 0, 0, 0]⟩ [] true).flags &&&
        Consts.x86_32.SCRIBE_PS_ENABLE_MM ≠ 0 →
      0x2 &&& Consts.x86_32.SCRIBE_PS_ENABLE_MM = 0 →
      (scribe_syscall_set_flags Consts.x86_32
        (unit_with 0x2b02 ⟨3, 3, [0, 0, 0, 0, 0, 0]⟩ [] true) 0x2 0).can_uaccess =
        false ∧
      scribe_syscall_set_flags Consts.x86_32
          (unit_with 0x2b02 ⟨3, 3, [0, 0, 0, 0, 0, 0]⟩ [] true) 0x2 0 =
        scribe_syscall_set_flags Consts.x86_32
          (__scribe_forbid_uaccess
            (unit_with 0x2b02 ⟨3, 3, [0, 0, 0, 0, 0, 0]⟩ [] true)) 0x2 0) ∧
    (¬ ((unit_with 0x2b02 ⟨3, 3, [0, 0, 0, 0, 0, 0]⟩ [] true).flags &&&
          Consts.x86_32.SCRIBE_PS_ENABLE_MM ≠ 0 ∧
        0x2 &&& Consts.x86_32.SCRIBE_PS_ENABLE_MM = 0) →
      (scribe_syscall_set_flags Consts.x86_32
        (unit_with 0x2b02 ⟨3, 3, [0, 0, 0, 0, 0, 0]⟩ [] true) 0x2 0).can_uaccess =
        (unit_with 0x2b02 ⟨3, 3, [0, 0, 0, 0, 0, 0]⟩ [] true).can_uaccess) ∧
    (((unit_with 0x2b02 ⟨3, 3, [0, 0, 0, 0, 0, 0]⟩ [] true).flags &&&
          Consts.x86_32.SCRIBE_PS_ENABLE_MM ≠ 0 ↔
        (scribe_syscall_set_flags Consts.x86_32
          (unit_with 0x2b02 ⟨3, 3, [0, 0, 0, 0, 0, 0]⟩ [] true) 0x2 0).flags &&&
          Consts.x86_32.SCRIBE_PS_ENABLE_MM ≠ 0) →
      (scribe_syscall_set_flags Consts.x86_32
        (unit_with 0x2b02 ⟨3, 3, [0, 0, 0, 0, 0, 0]⟩ [] true) 0x2 0).mem_reloads =
        (unit_with 0x2b02 ⟨3, 3, [0, 0, 0, 0, 0, 0]⟩ [] true).mem_reloads) ∧
    (¬ ((unit_with 0x2b02 ⟨3, 3, [0, 0, 0, 0, 0, 0]⟩ [] true).flags &&&
          Consts.x86_32.SCRIBE_PS_ENABLE_MM ≠ 0 ↔
        (scribe_syscall_set_flags Consts.x86_32
          (unit_with 0x2b02 ⟨3, 3, [0, 0, 0, 0, 0, 0]⟩ [] true) 0x2 0).flags &&&
          Consts.x86_32.SCRIBE_PS_ENABLE_MM ≠ 0) →
      (scribe_syscall_set_flags Consts.x86_32
        (unit_with 0x2b02 ⟨3, 3, [0, 0, 0, 0, 0, 0]⟩ [] true) 0x2 0).mem_reloads =
        (unit_with 0x2b02 ⟨3, 3, [0, 0, 0, 0, 0, 0]⟩ [] true).mem_reloads + 1) :=
  mm_handshake Consts.x86_32
    (unit_with 0x2b02 ⟨3, 3, [0, 0, 0, 0, 0, 0]⟩ [] true) 0x2 0 (by decide)

/-- The handshake, evaluated: a unit with memory scribing enabled and the
capability held loses the capability and gets one reload notification when
the bit is cleared, and nothing of the two when the bit is kept. -/
theorem mm_handshake_examples :
    (scribe_syscall_set_flags Consts.x86_32
      (unit_with 0x2b02 ⟨3, 3, [0, 0, 0, 0, 0, 0]⟩ [] true) 0x2 0).can_uaccess =
      false ∧
    (scribe_syscall_set_flags Consts.x86_32
      (unit_with 0x2b02 ⟨3, 3, [0, 0, 0, 0, 0, 0]⟩ [] true) 0x2 0).mem_reloads = 1 ∧
    (scribe_syscall_set_flags Consts.x86_32
      (unit_with 0x2b02 ⟨3, 3, [0, 0, 0, 0, 0, 0]⟩ [] true) 0x2002 0).can_uaccess =
      true ∧
    (scribe_syscall_set_flags Consts.x86_32
      (unit_with 0x2b02 ⟨3, 3, [0, 0, 0, 0, 0, 0]⟩ [] true) 0x2002 0).mem_reloads =
      0 := by
  decide

/-! ### Initial enable set -/

/-- C13: initial enable set.  After `scribe_init_syscalls` without a parent,
for every identity `nr` in `[0, NR_scribe_syscalls)` the bit `nr` of
`sys_enable_bitmap` is set if and only if `nr` is not `__NR_prctl`; after
`scribe_init_syscalls` with a parent the bitmap of the child agrees with the
bitmap of the parent on every identity in `[0, NR_scribe_syscalls)` and the
parent is unchanged. -/
theorem scribe_init_syscalls_enable_set (K : Consts) (scribe parent : scribe_ps)
    (nr : Int) (h0 : 0 ≤ nr) (h1 : nr < K.NR_scribe_syscalls) :
    (test_bit nr (scribe_init_syscalls K scribe none).1.sys_enable_bitmap = true ↔
      nr ≠ K.__NR_prctl) ∧
    test_bit nr (scribe_init_syscalls K scribe (some parent)).1.sys_enable_bitmap =
      test_bit nr parent.sys_enable_bitmap ∧
    (scribe_init_syscalls K scribe (some parent)).2 = some parent := by
  refine ⟨?_, ?_, rfl⟩
  · by_cases hp : nr = K.__NR_prctl
    · simp [scribe_init_syscalls, test_bit, clear_bit, hp]
    · simp [scribe_init_syscalls, test_bit, clear_bit, bitmap_fill, hp, h0, h1]
  · simp [scribe_init_syscalls, test_bit, bitmap_copy, h0, h1]

/-- Witness of C13: the identity 5 for a fresh unit and for a child of a
parent that has filtered it out. -/
theorem scribe_init_syscalls_enable_set_witness :
    (test_bit 5
        (scribe_init_syscalls Consts.x86_32 replay_unit none).1.sys_enable_bitmap =
        true ↔ (5 : Int) ≠ Consts.x86_32.__NR_prctl) ∧
    test_bit 5
        (scribe_init_syscalls Consts.x86_32 replay_unit
          (some (scribe_filter_syscall Consts.x86_32 replay_unit 5
            0).2)).1.sys_enable_bitmap =
      test_bit 5
        (scribe_filter_syscall Consts.x86_32 replay_unit 5 0).2.sys_enable_bitmap ∧
    (scribe_init_syscalls Consts.x86_32 replay_unit
        (some (scribe_filter_syscall Consts.x86_32 replay_unit 5 0).2)).2 =
      some (scribe_filter_syscall Consts.x86_32 replay_unit 5 0).2 :=
  scribe_init_syscalls_enable_set Consts.x86_32 replay_unit
    (scribe_filter_syscall Consts.x86_32 replay_unit 5 0).2 5 (by decide)
    (by decide)

/-- The default enable set, evaluated: `prctl` is bypassed, `open` is not,
and a child inherits a filtered identity. -/
theorem scribe_init_syscalls_examples :
    should_bypass_syscall
      (with_identity (scribe_init_syscalls Consts.x86_32 replay_unit none).1 172) =
      true ∧
    should_bypass_syscall
      (with_identity (scribe_init_syscalls Consts.x86_32 replay_unit none).1 5) =
      false ∧
    should_bypass_syscall
      (with_identity
        (scribe_init_syscalls Consts.x86_32 replay_unit
          (some (scribe_filter_syscall Consts.x86_32 replay_unit 5 0).2)).1 5) =
      true := by
  decide

/-! ### Flag boundary operations -/

/-- C14: flag boundary operations reject misuse without side effect.
`do_scribe_flags` called to set flags with a non-zero target pid returns
`-EINVAL`, stores nothing and leaves the current unit as it is; called to set
or to query on a target that is not scribed it returns `-EINVAL`, stores
nothing and leaves the current unit as it is; called to query a target that
does not exist it returns `-ESRCH`; and a successful query returns 0, stores
the flag word of the target and leaves the current unit as it is (the target
is only read). -/
theorem do_scribe_flags_rejects (K : Consts) (current : scribe_ps)
    (find_task_by_vpid : Int → Option scribe_ps) (pid : Int) (new_flags : Nat)
    (duration : Int) (out_flags : Option Bool) (target : scribe_ps)
    (hE : K.EINVAL ≠ 0) (hS : K.ESRCH ≠ 0) :
    (pid ≠ 0 →
      do_scribe_flags K current find_task_by_vpid pid (some new_flags) duration
        out_flags = ⟨-K.EINVAL, current, none⟩) ∧
    (is_scribed K current = false →
      do_scribe_flags K current find_task_by_vpid 0 (some new_flags) duration
        out_flags = ⟨-K.EINVAL, current, none⟩) ∧
    (is_scribed K current = false →
      do_scribe_flags K current find_task_by_vpid 0 none duration out_flags =
        ⟨-K.EINVAL, current, none⟩) ∧
    (pid ≠ 0 → find_task_by_vpid pid = some target →
      is_scribed K target = false →
      do_scribe_flags K current find_task_by_vpid pid none duration out_flags =
        ⟨-K.EINVAL, current, none⟩) ∧
    (pid ≠ 0 → find_task_by_vpid pid = none →
      do_scribe_flags K current find_task_by_vpid pid none duration out_flags =
        ⟨-K.ESRCH, current, none⟩) ∧
    (pid ≠ 0 → find_task_by_vpid pid = some target →
      is_scribed K target = true →
      do_scribe_flags K current find_task_by_vpid pid none duration (some true) =
        ⟨0, current, some target.flags⟩) ∧
    (is_scribed K current = true →
      do_scribe_flags K current find_task_by_vpid 0 none duration (some true) =
        ⟨0, current, some current.flags⟩) := by
  refine ⟨?_, ?_, ?_, ?_, ?_, ?_, ?_⟩
  · intro hp
    simp [do_scribe_flags, hp]
  · intro hs
    cases out_flags <;> simp [do_scribe_flags, do_scribe_flags_out, hs, hE]
  · intro hs
    cases out_flags <;> simp [do_scribe_flags, do_scribe_flags_out, hs, hE]
  · intro hp ht hs
    cases out_flags <;> simp [do_scribe_flags, do_scribe_flags_out, hp, ht, hs, hE]
  · intro hp ht
    cases out_flags <;> simp [do_scribe_flags, do_scribe_flags_out, hp, ht, hS]
  · intro hp ht hs
    simp [do_scribe_flags, do_scribe_flags_out, hp, ht, hs]
  · intro hs
    simp [do_scribe_flags, do_scribe_flags_out, hs]

/-- Witness of C14: the unit `replay_unit` and a process table with no other
process, under the concrete constant table. -/
theorem do_scribe_flags_rejects_witness :
    do_scribe_flags Consts.x86_32 replay_unit (fun _ => none) 7 (some 0x902) 0
      none = ⟨-Consts.x86_32.EINVAL, replay_unit, none⟩ :=
  (do_scribe_flags_rejects Consts.x86_32 replay_unit (fun _ => none) 7 0x902 0
    none replay_unit (by decide) (by decide)).1 (by decide)

/-! ### Return-value check at replay exit -/

/-- C15: the return-value check at replay exit is not fatal.  For every unit
that is replayed (not recorded) and owes a return value, `scribe_commit_syscall`
with the live return value `r` emits exactly one `DivergeSyscallReturn` event
carrying `r` when return-value checking is enabled and `r` differs from
`orig_ret`, and emits no event when `r` equals `orig_ret` or checking is
disabled; in every case it clears `need_syscall_ret` and leaves the flags
unchanged; in extra mode it consumes the `SyscallEnd` at the head of the
stream, and leaves the stream as it is when there is no `SyscallEnd` there;
in plain mode it leaves the stream as it is. -/
theorem commit_syscall_replay_ret_check (K : Consts) (s : scribe_ps) (r : Int)
    (hrec : is_recording K s = false) (hneed : s.need_syscall_ret = true) :
    (scribe_commit_syscall K s r).need_syscall_ret = false ∧
    (scribe_commit_syscall K s r).flags = s.flags ∧
    (should_ret_check s = true → s.orig_ret ≠ r →
      (scribe_commit_syscall K s r).diverged =
        s.diverged ++ [.diverge_syscall_ret r]) ∧
    (should_ret_check s = false ∨ s.orig_ret = r →
      (scribe_commit_syscall K s r).diverged = s.diverged) ∧
    (should_scribe_syscall_extra s = true →
      ∀ rest, s.queue = .syscall_end :: rest →
        (scribe_commit_syscall K s r).queue = rest) ∧
    (should_scribe_syscall_extra s = true →
      (∀ rest, s.queue ≠ .syscall_end :: rest) →
        (scribe_commit_syscall K s r).queue = s.queue) ∧
    (should_scribe_syscall_extra s = false →
      (scribe_commit_syscall K s r).queue = s.queue) := by
  have hrec' : is_recording K { s with need_syscall_ret := false } = false := hrec
  have e : scribe_commit_syscall K s r =
      scribe_commit_syscall_replay K { s with need_syscall_ret := false } r := by
    unfold scribe_commit_syscall
    simp [hneed, hrec']
  rw [e]
  -- the state after the `SyscallEnd` step differs from `s` in the queue only
  have hstep : ∀ q : List scribe_event,
      (if should_scribe_syscall_extra { s with need_syscall_ret := false } = true then
          (scribe_dequeue_event_specific K { s with need_syscall_ret := false }
            .SCRIBE_EVENT_SYSCALL_END).2
        else { s with need_syscall_ret := false }).queue = q →
      (if should_scribe_syscall_extra { s with need_syscall_ret := false } = true then
          (scribe_dequeue_event_specific K { s with need_syscall_ret := false }
            .SCRIBE_EVENT_SYSCALL_END).2
        else { s with need_syscall_ret := false }) =
        { s with need_syscall_ret := false, queue := q } := by
    intro q hq
    unfold scribe_dequeue_event_specific scribe_peek_event scribe_dequeue_event at hq ⊢
    cases hqq : s.queue <;> simp only [hqq, List.head?] at hq ⊢ <;>
      split_ifs at hq ⊢ <;> simp_all
  obtain ⟨q, hq⟩ : ∃ q, (if should_scribe_syscall_extra
        { s with need_syscall_ret := false } = true then
          (scribe_dequeue_event_specific K { s with need_syscall_ret := false }
            .SCRIBE_EVENT_SYSCALL_END).2
        else { s with need_syscall_ret := false }).queue = q := ⟨_, rfl⟩
  have hs1 := hstep q hq
  have hres : scribe_commit_syscall_replay K { s with need_syscall_ret := false } r =
      if should_ret_check s = true then
        if s.orig_ret ≠ r then
          scribe_mutation { s with need_syscall_ret := false, queue := q }
            (.diverge_syscall_ret r)
        else { s with need_syscall_ret := false, queue := q }
      else { s with need_syscall_ret := false, queue := q } := by
    unfold scribe_commit_syscall_replay
    simp only [hs1]
    simp [should_ret_check]
  refine ⟨?_, ?_, ?_, ?_, ?_, ?_, ?_⟩
  · rw [hres]; unfold scribe_mutation; split_ifs <;> rfl
  · rw [hres]; unfold scribe_mutation; split_ifs <;> rfl
  · intro hc hne
    rw [hres, if_pos hc, if_pos hne]
    rfl
  · intro h
    rw [hres]
    rcases h with h | h
    · rw [if_neg (by simp [h])]
    · rw [if_neg (not_not.mpr h)]
      split_ifs <;> rfl
  · intro hx rest hrest
    have : q = rest := by
      rw [← hq]
      simp [should_scribe_syscall_extra, scribe_dequeue_event_specific,
        scribe_peek_event, scribe_dequeue_event, hrest, scribe_event.type,
        show s.syscall_extra = true from hx]
    rw [hres, this]; unfold scribe_mutation; split_ifs <;> rfl
  · intro hx hno
    have : q = s.queue := by
      rw [← hq]
      have hxx : s.syscall_extra = true := hx
      unfold scribe_dequeue_event_specific scribe_peek_event scribe_dequeue_event
      cases hqq : s.queue with
      | nil => simp [should_scribe_syscall_extra, hxx, hqq]
      | cons ev rest =>
        have hev : ev ≠ .syscall_end := by
          intro h
          exact hno rest (by rw [hqq, h])
        have hty : ev.type ≠ .SCRIBE_EVENT_SYSCALL_END := by
          cases ev <;> simp [scribe_event.type] at hev ⊢
        simp [should_scribe_syscall_extra, hxx, hqq, hty]
    rw [hres, this]; unfold scribe_mutation; split_ifs <;> rfl
  · intro hx
    have : q = s.queue := by
      rw [← hq]
      simp [should_scribe_syscall_extra, show s.syscall_extra = false from hx]
    rw [hres, this]; unfold scribe_mutation; split_ifs <;> rfl

/-- Witness of C15: the unit `exiting_unit` and the live return value 41. -/
theorem commit_syscall_replay_ret_check_witness :
    (scribe_commit_syscall Consts.x86_32 exiting_unit 41).need_syscall_ret = false ∧
    (scribe_commit_syscall Consts.x86_32 exiting_unit 41).flags =
      exiting_unit.flags ∧
    (should_ret_check exiting_unit = true → exiting_unit.orig_ret ≠ 41 →
      (scribe_commit_syscall Consts.x86_32 exiting_unit 41).diverged =
        exiting_unit.diverged ++ [.diverge_syscall_ret 41]) ∧
    (should_ret_check exiting_unit = false ∨ exiting_unit.orig_ret = 41 →
      (scribe_commit_syscall Consts.x86_32 exiting_unit 41).diverged =
        exiting_unit.diverged) ∧
    (should_scribe_syscall_extra exiting_unit = true →
      ∀ rest, exiting_unit.queue = .syscall_end :: rest →
        (scribe_commit_syscall Consts.x86_32 exiting_unit 41).queue = rest) ∧
    (should_scribe_syscall_extra exiting_unit = true →
      (∀ rest, exiting_unit.queue ≠ .syscall_end :: rest) →
        (scribe_commit_syscall Consts.x86_32 exiting_unit 41).queue =
          exiting_unit.queue) ∧
    (should_scribe_syscall_extra exiting_unit = false →
      (scribe_commit_syscall Consts.x86_32 exiting_unit 41).queue =
        exiting_unit.queue) :=
  commit_syscall_replay_ret_check Consts.x86_32 exiting_unit 41 (by decide) rfl

/-- The return-value check, evaluated on `exiting_unit`: a differing live
value is reported once and the `SyscallEnd` consumed; the recorded value is
not reported. -/
theorem commit_syscall_replay_examples :
    (scribe_commit_syscall Consts.x86_32 exiting_unit 41).diverged =
      [.diverge_syscall_ret 41] ∧
    (scribe_commit_syscall Consts.x86_32 exiting_unit 41).queue =
      [.syscall_extra 0 0 20 []] ∧
    (scribe_commit_syscall Consts.x86_32 exiting_unit 42).diverged = [] ∧
    (scribe_commit_syscall Consts.x86_32 exiting_unit 42).killed = none := by
  decide

/-! ### In-band control actions -/

theorem drain_nops_replicate (k : Nat) (rest : List scribe_event)
    (hrest : rest.head? ≠ some .nop) :
    drain_nops (List.replicate k .nop ++ rest) = rest := by
  induction k with
  | zero =>
    cases rest with
    | nil => rfl
    | cons ev tl =>
      cases ev <;> first | rfl | (exfalso; exact hrest rfl)
  | succ k ih =>
    rw [List.replicate_succ, List.cons_append]
    simpa [drain_nops] using ih

/-- The loop removes a run of `Nop` events from the front of any stream and
stops in front of an event that is not a `Nop`. -/
theorem drain_nops_spec (queue : List scribe_event) :
    ∃ k, queue = List.replicate k .nop ++ drain_nops queue ∧
      (drain_nops queue).head? ≠ some .nop := by
  induction queue with
  | nil => exact ⟨0, rfl, by simp [drain_nops]⟩
  | cons ev tl ih =>
    by_cases hev : ev = .nop
    · obtain ⟨k, hk, hh⟩ := ih
      refine ⟨k + 1, ?_, ?_⟩
      · rw [hev, List.replicate_succ, List.cons_append]
        simp only [drain_nops]
        rw [← hk]
      · rw [hev]
        simpa [drain_nops] using hh
    · have e : drain_nops (ev :: tl) = ev :: tl := by
        cases ev <;> first | rfl | exact absurd rfl hev
      refine ⟨0, by rw [e]; rfl, ?_⟩
      rw [e]
      simpa using hev

/-- C17: in-band control actions.  For every replaying unit whose stream is
`SetFlags(f, d)` followed by `k >= 0` `Nop` events followed by a rest that
does not start with a `Nop`, `scribe_handle_custom_actions` gives the unit
that `scribe_syscall_set_flags(f, d)` gives, with the stream equal to the
rest; when the head event is not a `SetFlags` (a `Nop` included, or no event
at all) or the unit is not replaying, the unit and its stream are unchanged.
The `Nop` loop is a total function of the stream: on every finite stream it
stops, having removed the leading `Nop` events. -/
theorem handle_custom_actions_spec (K : Consts) (s : scribe_ps) (f : Nat)
    (d : Int) (k : Nat) (rest : List scribe_event) :
    (is_replaying K s = true →
      s.queue = .set_flags f d :: (List.replicate k .nop ++ rest) →
      rest.head? ≠ some .nop →
      scribe_handle_custom_actions K s =
        { scribe_syscall_set_flags K s f d with queue := rest }) ∧
    (is_replaying K s = true →
      (∀ f' d' rest', s.queue ≠ .set_flags f' d' :: rest') →
      scribe_handle_custom_actions K s = s) ∧
    (is_replaying K s = false → scribe_handle_custom_actions K s = s) ∧
    (∃ n, s.queue = List.replicate n .nop ++ drain_nops s.queue ∧
      (drain_nops s.queue).head? ≠ some .nop) := by
  refine ⟨?_, ?_, ?_, drain_nops_spec s.queue⟩
  · intro hrep hq hrest
    have hq1 : (scribe_syscall_set_flags K s f d).queue =
        .set_flags f d :: (List.replicate k .nop ++ rest) := by
      rw [set_flags_queue, hq]
    unfold scribe_handle_custom_actions
    simp [hrep, scribe_peek_event, hq, scribe_dequeue_event, hq1,
      drain_nops_replicate k rest hrest]
  · intro hrep hno
    unfold scribe_handle_custom_actions
    cases hq : s.queue with
    | nil => simp [hrep, scribe_peek_event, hq]
    | cons ev tl =>
      cases ev with
      | set_flags f' d' => exact absurd hq (hno f' d' tl)
      | _ => simp [hrep, scribe_peek_event, hq]
  · intro hrep
    simp [scribe_handle_custom_actions, hrep]

/-- The in-band actions of `custom_action_unit`, evaluated: the flags and the
pending reset are those of the `SetFlags`, and the stream starts with the
recorded call. -/
theorem handle_custom_actions_examples :
    (scribe_handle_custom_actions Consts.x86_32 custom_action_unit).flags = 0x902 ∧
    (scribe_handle_custom_actions Consts.x86_32
      custom_action_unit).commit_sys_reset_flags = 0xb02 ∧
    (scribe_handle_custom_actions Consts.x86_32 custom_action_unit).queue =
      [.syscall_extra 12 42 3 [5, 0xbf912340, 100], .syscall_end] ∧
    (scribe_handle_custom_actions Consts.x86_32 accept_unit).queue =
      accept_unit.queue := by
  decide

/-- Witness of C17: the unit `custom_action_unit`, whose stream is a
`SetFlags`, two `Nop` events and the recording of a call. -/
theorem handle_custom_actions_spec_witness :
    scribe_handle_custom_actions Consts.x86_32 custom_action_unit =
      { scribe_syscall_set_flags Consts.x86_32 custom_action_unit 0x902 1 with
        queue := [.syscall_extra 12 42 3 [5, 0xbf912340, 100], .syscall_end] } :=
  (handle_custom_actions_spec Consts.x86_32 custom_action_unit 0x902 1 2
    [.syscall_extra 12 42 3 [5, 0xbf912340, 100], .syscall_end]).1
    (by decide) rfl (by decide)

/-! ### Frame lemmas: the protocol booleans -/

theorem set_flags_frame (K : Consts) (s : scribe_ps) (N : Nat) (d : Int) :
    (scribe_syscall_set_flags K s N d).syscall = s.syscall ∧
    (scribe_syscall_set_flags K s N d).need_syscall_ret = s.need_syscall_ret ∧
    (scribe_syscall_set_flags K s N d).diverged = s.diverged ∧
    (scribe_syscall_set_flags K s N d).syscall_ip = s.syscall_ip ∧
    (scribe_syscall_set_flags K s N d).sys_enable_bitmap = s.sys_enable_bitmap := by
  unfold scribe_syscall_set_flags scribe_mem_reload __scribe_forbid_uaccess
  simp only
  split_ifs <;> exact ⟨rfl, rfl, rfl, rfl, rfl⟩

/-- Caching a call writes the cached call only. -/
theorem cache_syscall_info_frame (K : Consts)
    (copy_from_user : Nat → Nat → Option (List Nat)) (s : scribe_ps)
    (regs : pt_regs) :
    cache_syscall_info K copy_from_user s regs =
      { s with syscall := (cache_syscall_info K copy_from_user s regs).syscall } := by
  unfold cache_syscall_info
  simp only
  split_ifs <;> rfl

/-- The run `sample_ops` on `accept_unit`, evaluated step by step: after the
entry the unit is inside the call and owes the return value, the head event
is consumed and the recorded return value cached; the second request changes
nothing; after the exit the unit is idle and the stream is empty. -/
theorem sample_ops_examples :
    (run_ops Consts.x86_32 accept_unit (sample_ops.take 1)).in_syscall = true ∧
    (run_ops Consts.x86_32 accept_unit (sample_ops.take 1)).need_syscall_ret =
      true ∧
    (run_ops Consts.x86_32 accept_unit (sample_ops.take 1)).orig_ret = 42 ∧
    (run_ops Consts.x86_32 accept_unit (sample_ops.take 1)).queue =
      [.syscall_end] ∧
    (run_ops Consts.x86_32 accept_unit (sample_ops.take 2)).queue =
      [.syscall_end] ∧
    (run_ops Consts.x86_32 accept_unit (sample_ops.take 3)).in_syscall = false ∧
    (run_ops Consts.x86_32 accept_unit (sample_ops.take 3)).need_syscall_ret =
      false ∧
    (run_ops Consts.x86_32 accept_unit (sample_ops.take 3)).queue = [] ∧
    (run_ops Consts.x86_32 accept_unit sample_ops).diverged = [] := by
  decide

/-! ### Bypass path -/

theorem outside_enable_after_set (P N EA m : Nat) (hP : P < ULONG_SIZE)
    (hm : m &&& EA = 0) :
    ((P &&& not_ulong EA) ||| (N &&& EA)) &&& m = P &&& m := by
  apply Nat.eq_of_testBit_eq
  intro i
  have hi : (m &&& EA).testBit i = false := by rw [hm]; exact Nat.zero_testBit i
  rw [Nat.testBit_and] at hi
  simp only [Nat.testBit_and, Nat.testBit_or, testBit_not_ulong]
  by_cases h32 : i < 32
  · cases h1 : m.testBit i <;> cases h2 : EA.testBit i <;> simp_all
  · have hPi := testBit_of_lt_ulong hP (Nat.le_of_not_lt h32)
    cases h1 : m.testBit i <;> cases h2 : EA.testBit i <;> simp_all

theorem not_enable_after_set (P N EA : Nat) :
    ((P &&& not_ulong EA) ||| (N &&& EA)) &&& not_ulong EA =
      P &&& not_ulong EA := by
  apply Nat.eq_of_testBit_eq
  intro i
  simp only [Nat.testBit_and, Nat.testBit_or, testBit_not_ulong]
  cases P.testBit i <;> cases N.testBit i <;> cases EA.testBit i <;> simp

/-- With the record and replay bits outside the enable mask,
`scribe_syscall_set_flags` keeps a unit scribed or not scribed. -/
theorem set_flags_is_scribed (K : Consts) (s : scribe_ps) (N : Nat) (d : Int)
    (hP : s.flags < ULONG_SIZE)
    (hRR : (K.SCRIBE_PS_RECORD ||| K.SCRIBE_PS_REPLAY) &&&
      K.SCRIBE_PS_ENABLE_ALL = 0) :
    is_scribed K (scribe_syscall_set_flags K s N d) = is_scribed K s := by
  unfold is_scribed
  rw [set_flags_flags, outside_enable_after_set _ _ _ _ hP hRR]

/-- C16: bypass path.  For every scribed, idle unit whose resolved call is not
a control-surface call and for which syscall scribing is disabled in the
flags or the bit of the identity is clear in the enable bitmap,
`scribe_enter_syscall` sets the enable bits of the flags to exactly
`flags & SCRIBE_PS_ENABLE_SIGNAL`, saves the previous flags as the pending
reset, leaves `in_syscall` and `need_syscall_ret` false and produces or
consumes no event; the matching `scribe_exit_syscall` then restores the flags
to their value before the entry, clears the pending reset and commits no
return value (no event produced or consumed, both booleans still false). -/
theorem bypass_path (K : Consts)
    (copy_from_user : Nat → Nat → Option (List Nat)) (s : scribe_ps)
    (regs regs2 : pt_regs) (rest : pt_regs_rest)
    (hdur : K.SCRIBE_PERMANANT ≠ K.SCRIBE_UNTIL_NEXT_SYSCALL)
    (hsig : K.SCRIBE_PS_ENABLE_SIGNAL &&& K.SCRIBE_PS_ENABLE_ALL =
      K.SCRIBE_PS_ENABLE_SIGNAL)
    (hRR : (K.SCRIBE_PS_RECORD ||| K.SCRIBE_PS_REPLAY) &&&
      K.SCRIBE_PS_ENABLE_ALL = 0)
    (hP : s.flags < ULONG_SIZE)
    (hs : is_scribed K s = true)
    (hcs : is_scribe_syscall K (cache_syscall_info K copy_from_user s regs) = false)
    (hby : should_scribe_syscalls K s = false ∨
      should_bypass_syscall (cache_syscall_info K copy_from_user s regs) = true)
    (hin : s.in_syscall = false) (hneed : s.need_syscall_ret = false) :
    (scribe_enter_syscall K copy_from_user s regs rest).flags &&&
        K.SCRIBE_PS_ENABLE_ALL = s.flags &&& K.SCRIBE_PS_ENABLE_SIGNAL ∧
    (scribe_enter_syscall K copy_from_user s regs rest).commit_sys_reset_flags =
      s.flags ∧
    (scribe_enter_syscall K copy_from_user s regs rest).in_syscall = false ∧
    (scribe_enter_syscall K copy_from_user s regs rest).need_syscall_ret = false ∧
    (scribe_enter_syscall K copy_from_user s regs rest).queue = s.queue ∧
    (scribe_enter_syscall K copy_from_user s regs rest).diverged = s.diverged ∧
    (scribe_exit_syscall K
      (scribe_enter_syscall K copy_from_user s regs rest) regs2).flags = s.flags ∧
    (scribe_exit_syscall K
      (scribe_enter_syscall K copy_from_user s regs rest)
      regs2).commit_sys_reset_flags = 0 ∧
    (scribe_exit_syscall K
      (scribe_enter_syscall K copy_from_user s regs rest) regs2).queue = s.queue ∧
    (scribe_exit_syscall K
      (scribe_enter_syscall K copy_from_user s regs rest) regs2).diverged =
      s.diverged ∧
    (scribe_exit_syscall K
      (scribe_enter_syscall K copy_from_user s regs rest) regs2).in_syscall =
      false ∧
    (scribe_exit_syscall K
      (scribe_enter_syscall K copy_from_user s regs rest)
      regs2).need_syscall_ret = false := by
  set s1 := cache_syscall_info K copy_from_user s regs with hs1
  have hframe := cache_syscall_info_frame K copy_from_user s regs
  rw [← hs1] at hframe
  have hf1 : s1.flags = s.flags := by rw [hframe]
  have hq1 : s1.queue = s.queue := by rw [hframe]
  have hd1 : s1.diverged = s.diverged := by rw [hframe]
  have hi1 : s1.in_syscall = s.in_syscall := by rw [hframe]
  have hn1 : s1.need_syscall_ret = s.need_syscall_ret := by rw [hframe]
  have hscr1 : is_scribed K s1 = true := by
    unfold is_scribed; rw [hf1]; exact hs
  have hby1 : (!should_scribe_syscalls K s1 || should_bypass_syscall s1) = true := by
    rcases hby with h | h
    · have : should_scribe_syscalls K s1 = false := by
        unfold should_scribe_syscalls at h ⊢; rw [hf1]; exact h
      simp [this]
    · simp [h]
  set e := scribe_syscall_set_flags K s1 (s1.flags &&& K.SCRIBE_PS_ENABLE_SIGNAL)
    K.SCRIBE_UNTIL_NEXT_SYSCALL with he
  have hent : scribe_enter_syscall K copy_from_user s regs rest = e := by
    unfold scribe_enter_syscall
    simp only [hs, Bool.not_true, Bool.false_eq_true, if_false, ← hs1, hcs, hby1,
      if_true, he]
  have hP1 : s1.flags < ULONG_SIZE := by rw [hf1]; exact hP
  have hef : e.flags = (s.flags &&& not_ulong K.SCRIBE_PS_ENABLE_ALL) |||
      ((s.flags &&& K.SCRIBE_PS_ENABLE_SIGNAL) &&& K.SCRIBE_PS_ENABLE_ALL) := by
    rw [he, set_flags_flags, hf1]
  have her : e.commit_sys_reset_flags = s.flags := by
    rw [he, set_flags_reset, if_pos rfl, hf1]
  have hei : e.in_syscall = false := by
    rw [he, set_flags_in_syscall, hi1, hin]
  have hen : e.need_syscall_ret = false := by
    rw [he, (set_flags_frame K s1 _ _).2.1, hn1, hneed]
  have heq : e.queue = s.queue := by rw [he, set_flags_queue, hq1]
  have hed : e.diverged = s.diverged := by
    rw [he, (set_flags_frame K s1 _ _).2.2.1, hd1]
  have hes : is_scribed K e = true := by
    rw [he, set_flags_is_scribed K s1 _ _ hP1 hRR]; exact hscr1
  have hecs : is_scribe_syscall K e = false := by
    have : e.syscall = s1.syscall := (set_flags_frame K s1 _ _).1
    unfold is_scribe_syscall at hcs ⊢
    rw [this]; exact hcs
  have hnz : e.commit_sys_reset_flags ≠ 0 := by
    rw [her]; exact flags_ne_zero_of_scribed K s hs
  set x := scribe_syscall_set_flags K e e.commit_sys_reset_flags
    K.SCRIBE_PERMANANT with hx
  have hexit : scribe_exit_syscall K e regs2 = x := by
    have hxi : x.in_syscall = false := by rw [hx, set_flags_in_syscall, hei]
    unfold scribe_exit_syscall
    simp only [hes, hecs, Bool.not_true, Bool.false_eq_true, if_false,
      bne_iff_ne, ne_eq, hnz, not_false_eq_true, if_true, ← hx, hxi, Bool.not_false]
  rw [hent, hexit]
  refine ⟨?_, her, hei, hen, heq, hed, ?_, ?_, ?_, ?_, ?_, ?_⟩
  · rw [hef, enable_bits_after_set, Nat.and_assoc, hsig]
  · rw [hx, set_flags_flags, her, hef, not_enable_after_set, enable_split _ _ hP]
  · rw [hx, set_flags_reset, if_neg hdur]
  · rw [hx, set_flags_queue, heq]
  · rw [hx, (set_flags_frame K e _ _).2.2.1, hed]
  · rw [hx, set_flags_in_syscall, hei]
  · rw [hx, (set_flags_frame K e _ _).2.1, hen]

/-- Witness of C16: the recorded unit `filtered_unit` entering an `open`
call, the identity it has filtered out. -/
theorem bypass_path_witness :
    (scribe_enter_syscall Consts.x86_32 (fun _ _ => none) filtered_unit
        ⟨5, 0, 0x8048000, 0, 0, 0, 0, 0⟩ zero_rest).flags &&&
        Consts.x86_32.SCRIBE_PS_ENABLE_ALL =
      filtered_unit.flags &&& Consts.x86_32.SCRIBE_PS_ENABLE_SIGNAL ∧
    (scribe_enter_syscall Consts.x86_32 (fun _ _ => none) filtered_unit
        ⟨5, 0, 0x8048000, 0, 0, 0, 0, 0⟩ zero_rest).commit_sys_reset_flags =
      filtered_unit.flags ∧
    (scribe_enter_syscall Consts.x86_32 (fun _ _ => none) filtered_unit
        ⟨5, 0, 0x8048000, 0, 0, 0, 0, 0⟩ zero_rest).in_syscall = false ∧
    (scribe_enter_syscall Consts.x86_32 (fun _ _ => none) filtered_unit
        ⟨5, 0, 0x8048000, 0, 0, 0, 0, 0⟩ zero_rest).need_syscall_ret = false ∧
    (scribe_enter_syscall Consts.x86_32 (fun _ _ => none) filtered_unit
        ⟨5, 0, 0x8048000, 0, 0, 0, 0, 0⟩ zero_rest).queue = filtered_unit.queue ∧
    (scribe_enter_syscall Consts.x86_32 (fun _ _ => none) filtered_unit
        ⟨5, 0, 0x8048000, 0, 0, 0, 0, 0⟩ zero_rest).diverged =
      filtered_unit.diverged ∧
    (scribe_exit_syscall Consts.x86_32
      (scribe_enter_syscall Consts.x86_32 (fun _ _ => none) filtered_unit
        ⟨5, 0, 0x8048000, 0, 0, 0, 0, 0⟩ zero_rest) zero_regs).flags =
      filtered_unit.flags ∧
    (scribe_exit_syscall Consts.x86_32
      (scribe_enter_syscall Consts.x86_32 (fun _ _ => none) filtered_unit
        ⟨5, 0, 0x8048000, 0, 0, 0, 0, 0⟩ zero_rest)
      zero_regs).commit_sys_reset_flags = 0 ∧
    (scribe_exit_syscall Consts.x86_32
      (scribe_enter_syscall Consts.x86_32 (fun _ _ => none) filtered_unit
        ⟨5, 0, 0x8048000, 0, 0, 0, 0, 0⟩ zero_rest) zero_regs).queue =
      filtered_unit.queue ∧
    (scribe_exit_syscall Consts.x86_32
      (scribe_enter_syscall Consts.x86_32 (fun _ _ => none) filtered_unit
        ⟨5, 0, 0x8048000, 0, 0, 0, 0, 0⟩ zero_rest) zero_regs).diverged =
      filtered_unit.diverged ∧
    (scribe_exit_syscall Consts.x86_32
      (scribe_enter_syscall Consts.x86_32 (fun _ _ => none) filtered_unit
        ⟨5, 0, 0x8048000, 0, 0, 0, 0, 0⟩ zero_rest) zero_regs).in_syscall =
      false ∧
    (scribe_exit_syscall Consts.x86_32
      (scribe_enter_syscall Consts.x86_32 (fun _ _ => none) filtered_unit
        ⟨5, 0, 0x8048000, 0, 0, 0, 0, 0⟩ zero_rest)
      zero_regs).need_syscall_ret = false :=
  bypass_path Consts.x86_32 (fun _ _ => none) filtered_unit
    ⟨5, 0, 0x8048000, 0, 0, 0, 0, 0⟩ zero_regs zero_rest (by decide) (by decide)
    (by decide) (by decide) (by decide) (by decide) (Or.inr (by decide)) rfl rfl

/-- The bypass of `filtered_unit`, evaluated: during the call only the signal
bit of the enable bits is left (flags `0x801`), afterwards the flags are
`0xb01` again. -/
theorem bypass_path_examples :
    (scribe_enter_syscall Consts.x86_32 (fun _ _ => none) filtered_unit
      ⟨5, 0, 0x8048000, 0, 0, 0, 0, 0⟩ zero_rest).flags = 0x801 ∧
    (scribe_exit_syscall Consts.x86_32
      (scribe_enter_syscall Consts.x86_32 (fun _ _ => none) filtered_unit
        ⟨5, 0, 0x8048000, 0, 0, 0, 0, 0⟩ zero_rest) zero_regs).flags = 0xb01 := by
  decide

/-! ### Pending-reset overwrite -/

theorem set_flags_lt_ulong (K : Consts) (s : scribe_ps) (N : Nat) (d : Int)
    (hP : s.flags < ULONG_SIZE) (hEA : K.SCRIBE_PS_ENABLE_ALL < ULONG_SIZE) :
    (scribe_syscall_set_flags K s N d).flags < ULONG_SIZE := by
  rw [set_flags_flags]
  unfold ULONG_SIZE at hP hEA ⊢
  apply Nat.or_lt_two_pow
  · exact lt_of_le_of_lt Nat.and_le_left hP
  · exact lt_of_le_of_lt Nat.and_le_right hEA

/-- Without a pending reset, `scribe_exit_syscall` of a unit outside any call
changes nothing. -/
theorem exit_syscall_no_reset (K : Consts) (t : scribe_ps) (regs : pt_regs)
    (hR : t.commit_sys_reset_flags = 0) (hin : t.in_syscall = false) :
    scribe_exit_syscall K t regs = t := by
  unfold scribe_exit_syscall
  simp only [hR, hin]
  split_ifs <;> first | rfl | simp_all

/-- Without a pending reset, `scribe_exit_syscall` leaves the flags as they
are, up to the mutation bit that the end of a call clears. -/
theorem exit_syscall_no_reset_flags (K : Consts) (t : scribe_ps) (regs : pt_regs)
    (hR : t.commit_sys_reset_flags = 0) :
    (scribe_exit_syscall K t regs).flags = t.flags ∨
      (scribe_exit_syscall K t regs).flags =
        t.flags &&& not_ulong K.SCRIBE_PS_MUTATING := by
  have hb : (t.commit_sys_reset_flags != 0) = false := by rw [hR]; rfl
  unfold scribe_exit_syscall
  simp only [hb, Bool.false_eq_true, if_false]
  by_cases h1 : (!is_scribed K t) = true
  · rw [if_pos h1]; exact Or.inl rfl
  · rw [if_neg h1]
    by_cases h2 : is_scribe_syscall K t = true
    · rw [if_pos h2]; exact Or.inl rfl
    · rw [if_neg h2]
      by_cases h3 : (!t.in_syscall) = true
      · rw [if_pos h3]; exact Or.inl rfl
      · rw [if_neg h3]
        have hc := (commit_syscall_flags K { t with in_syscall := false }
          (syscall_get_return_value regs)).1
        split_ifs
        · right
          rw [(finalize_syscall_flags _).1]
          simp only [scribe_stop_mutations]
          rw [hc]
        · left
          rw [(finalize_syscall_flags _).1, hc]

/-- C20: pending-reset overwrite.  Every call of `scribe_syscall_set_flags`
replaces the pending reset: with duration `SCRIBE_PERMANANT` it sets
`commit_sys_reset_flags` to 0, whatever was saved before, and with duration
`SCRIBE_UNTIL_NEXT_SYSCALL` it sets it to the flags in effect right before
this call.  Hence after two scoped calls `set_flags(F1)`, `set_flags(F2)` on
a scribed unit with flags `P`, the pending reset is the intermediate flag
word and the next `scribe_exit_syscall` restores the enable bits of `F1`, not
those of `P` when the two differ; and `scribe_exit_syscall` of a unit whose
saved snapshot is zero applies no reset: it leaves the flags as they are (up
to the mutation bit that the end of a call clears), and changes nothing at
all when the unit is outside any call. -/
theorem pending_reset_overwrite (K : Consts) (s : scribe_ps) (N F1 F2 : Nat)
    (regs : pt_regs)
    (hdur : K.SCRIBE_PERMANANT ≠ K.SCRIBE_UNTIL_NEXT_SYSCALL)
    (hEA : K.SCRIBE_PS_ENABLE_ALL < ULONG_SIZE)
    (hmut : K.SCRIBE_PS_MUTATING &&& K.SCRIBE_PS_ENABLE_ALL = 0)
    (hRR : (K.SCRIBE_PS_RECORD ||| K.SCRIBE_PS_REPLAY) &&&
      K.SCRIBE_PS_ENABLE_ALL = 0)
    (hP : s.flags < ULONG_SIZE)
    (hs : is_scribed K s = true) (hcs : is_scribe_syscall K s = false) :
    (scribe_syscall_set_flags K s N K.SCRIBE_PERMANANT).commit_sys_reset_flags =
      0 ∧
    (scribe_syscall_set_flags K s N
      K.SCRIBE_UNTIL_NEXT_SYSCALL).commit_sys_reset_flags = s.flags ∧
    (scribe_syscall_set_flags K
      (scribe_syscall_set_flags K s F1 K.SCRIBE_UNTIL_NEXT_SYSCALL) F2
      K.SCRIBE_UNTIL_NEXT_SYSCALL).commit_sys_reset_flags =
      (scribe_syscall_set_flags K s F1 K.SCRIBE_UNTIL_NEXT_SYSCALL).flags ∧
    (scribe_exit_syscall K
      (scribe_syscall_set_flags K
        (scribe_syscall_set_flags K s F1 K.SCRIBE_UNTIL_NEXT_SYSCALL) F2
        K.SCRIBE_UNTIL_NEXT_SYSCALL) regs).flags &&& K.SCRIBE_PS_ENABLE_ALL =
      F1 &&& K.SCRIBE_PS_ENABLE_ALL ∧
    (F1 &&& K.SCRIBE_PS_ENABLE_ALL ≠ s.flags &&& K.SCRIBE_PS_ENABLE_ALL →
      (scribe_exit_syscall K
        (scribe_syscall_set_flags K
          (scribe_syscall_set_flags K s F1 K.SCRIBE_UNTIL_NEXT_SYSCALL) F2
          K.SCRIBE_UNTIL_NEXT_SYSCALL) regs).flags &&& K.SCRIBE_PS_ENABLE_ALL ≠
        s.flags &&& K.SCRIBE_PS_ENABLE_ALL) ∧
    (∀ t : scribe_ps, t.commit_sys_reset_flags = 0 →
      ((scribe_exit_syscall K t regs).flags = t.flags ∨
        (scribe_exit_syscall K t regs).flags =
          t.flags &&& not_ulong K.SCRIBE_PS_MUTATING) ∧
      (t.in_syscall = false → scribe_exit_syscall K t regs = t)) := by
  set s1 := scribe_syscall_set_flags K s F1 K.SCRIBE_UNTIL_NEXT_SYSCALL with hs1
  set s2 := scribe_syscall_set_flags K s1 F2 K.SCRIBE_UNTIL_NEXT_SYSCALL with hs2
  have hP1 : s1.flags < ULONG_SIZE := set_flags_lt_ulong K s _ _ hP hEA
  have hscr1 : is_scribed K s1 = true := by
    rw [hs1, set_flags_is_scribed K s _ _ hP hRR]; exact hs
  have hscr2 : is_scribed K s2 = true := by
    rw [hs2, set_flags_is_scribed K s1 _ _ hP1 hRR]; exact hscr1
  have hcs2 : is_scribe_syscall K s2 = false := by
    have h1 : s1.syscall = s.syscall := (set_flags_frame K s _ _).1
    have h2 : s2.syscall = s1.syscall := (set_flags_frame K s1 _ _).1
    unfold is_scribe_syscall at hcs ⊢
    rw [h2, h1]; exact hcs
  have hcrf : s2.commit_sys_reset_flags = s1.flags := by
    rw [hs2, set_flags_reset, if_pos rfl]
  have hnz : s2.commit_sys_reset_flags ≠ 0 := by
    rw [hcrf]; exact flags_ne_zero_of_scribed K s1 hscr1
  have hx : (scribe_exit_syscall K s2 regs).flags &&& K.SCRIBE_PS_ENABLE_ALL =
      F1 &&& K.SCRIBE_PS_ENABLE_ALL := by
    obtain ⟨-, h⟩ := exit_syscall_flags K s2 regs hdur hscr2 hcs2 hnz
    rw [hcrf] at h
    have h1 : s1.flags &&& K.SCRIBE_PS_ENABLE_ALL = F1 &&& K.SCRIBE_PS_ENABLE_ALL := by
      rw [hs1, set_flags_flags, enable_bits_after_set]
    rcases h with h | ⟨h, -⟩
    · rw [h, enable_bits_after_set, h1]
    · rw [h, and_not_ulong_disjoint _ _ _ hEA hmut, enable_bits_after_set, h1]
  refine ⟨?_, ?_, hcrf, hx, ?_, ?_⟩
  · rw [set_flags_reset, if_neg hdur]
  · rw [set_flags_reset, if_pos rfl]
  · intro hne
    rw [hx]; exact hne
  · intro t hR
    exact ⟨exit_syscall_no_reset_flags K t regs hR,
      fun hin => exit_syscall_no_reset K t regs hR hin⟩

/-- Witness of C20: `replay_unit` (flags `0xb02`), `F1 = 0x902` and
`F2 = 0x102`. -/
theorem pending_reset_overwrite_witness :
    (scribe_syscall_set_flags Consts.x86_32 replay_unit 0x102
      Consts.x86_32.SCRIBE_PERMANANT).commit_sys_reset_flags = 0 ∧
    (scribe_syscall_set_flags Consts.x86_32 replay_unit 0x102
      Consts.x86_32.SCRIBE_UNTIL_NEXT_SYSCALL).commit_sys_reset_flags =
      replay_unit.flags ∧
    (scribe_syscall_set_flags Consts.x86_32
      (scribe_syscall_set_flags Consts.x86_32 replay_unit 0x902
        Consts.x86_32.SCRIBE_UNTIL_NEXT_SYSCALL) 0x102
      Consts.x86_32.SCRIBE_UNTIL_NEXT_SYSCALL).commit_sys_reset_flags =
      (scribe_syscall_set_flags Consts.x86_32 replay_unit 0x902
        Consts.x86_32.SCRIBE_UNTIL_NEXT_SYSCALL).flags ∧
    (scribe_exit_syscall Consts.x86_32
      (scribe_syscall_set_flags Consts.x86_32
        (scribe_syscall_set_flags Consts.x86_32 replay_unit 0x902
          Consts.x86_32.SCRIBE_UNTIL_NEXT_SYSCALL) 0x102
        Consts.x86_32.SCRIBE_UNTIL_NEXT_SYSCALL) zero_regs).flags &&&
        Consts.x86_32.SCRIBE_PS_ENABLE_ALL =
      0x902 &&& Consts.x86_32.SCRIBE_PS_ENABLE_ALL ∧
    (0x902 &&& Consts.x86_32.SCRIBE_PS_ENABLE_ALL ≠
        replay_unit.flags &&& Consts.x86_32.SCRIBE_PS_ENABLE_ALL →
      (scribe_exit_syscall Consts.x86_32
        (scribe_syscall_set_flags Consts.x86_32
          (scribe_syscall_set_flags Consts.x86_32 replay_unit 0x902
            Consts.x86_32.SCRIBE_UNTIL_NEXT_SYSCALL) 0x102
          Consts.x86_32.SCRIBE_UNTIL_NEXT_SYSCALL) zero_regs).flags &&&
          Consts.x86_32.SCRIBE_PS_ENABLE_ALL ≠
        replay_unit.flags &&& Consts.x86_32.SCRIBE_PS_ENABLE_ALL) ∧
    (∀ t : scribe_ps, t.commit_sys_reset_flags = 0 →
      ((scribe_exit_syscall Consts.x86_32 t zero_regs).flags = t.flags ∨
        (scribe_exit_syscall Consts.x86_32 t zero_regs).flags =
          t.flags &&& not_ulong Consts.x86_32.SCRIBE_PS_MUTATING) ∧
      (t.in_syscall = false →
        scribe_exit_syscall Consts.x86_32 t zero_regs = t)) :=
  pending_reset_overwrite Consts.x86_32 replay_unit 0x102 0x902 0x102 zero_regs
    (by decide) (by decide) (by decide) (by decide) (by decide) (by decide)
    (by decide)

/-- Two scoped calls on `replay_unit`, evaluated: the exit leaves the flags
`0x902` of the first call, not the flags `0xb02` from before both. -/
theorem pending_reset_overwrite_examples :
    (scribe_exit_syscall Consts.x86_32
      (scribe_syscall_set_flags Consts.x86_32
        (scribe_syscall_set_flags Consts.x86_32 replay_unit 0x902
          Consts.x86_32.SCRIBE_UNTIL_NEXT_SYSCALL) 0x102
        Consts.x86_32.SCRIBE_UNTIL_NEXT_SYSCALL) zero_regs).flags = 0x902 ∧
    (scribe_exit_syscall Consts.x86_32
      (scribe_syscall_set_flags Consts.x86_32
        (scribe_syscall_set_flags Consts.x86_32 replay_unit 0x902
          Consts.x86_32.SCRIBE_UNTIL_NEXT_SYSCALL) 0x102
        Consts.x86_32.SCRIBE_UNTIL_NEXT_SYSCALL)
      zero_regs).commit_sys_reset_flags = 0 := by
  decide

/-! ### Resolver bounds -/

theorem socket_nargs_le_six (i : Nat) : socket_nargs.getD i 0 ≤ 6 := by
  by_cases h : i < 20
  · interval_cases i <;> decide
  · have hlen : socket_nargs.length ≤ i := by
      simp only [socket_nargs, List.length_cons, List.length_nil]
      omega
    simp [List.getD_eq_getElem?_getD, List.getElem?_eq_none hlen]

/-- The bounds of the resolver that hold.  An identity in the socket range
indexes `socket_nargs` below its length 20 when the range has at most 20
identities; the argument count cached for an identity in the socket or the
futex range is at most 6; and a raw syscall number other than
`__NR_futex` resolves to an identity in `[0, NR_scribe_syscalls)` when the
socket range lies between the raw numbers and `NR_scribe_syscalls`. -/
theorem resolver_bounds_valid_parts (K : Consts)
    (copy_from_user : Nat → Nat → Option (List Nat)) (s : scribe_ps)
    (regs : pt_regs) (nr : Int) :
    (K.SCRIBE_SOCKETCALL_LAST ≤ K.SCRIBE_SOCKETCALL_FIRST + 19 →
      K.SCRIBE_SOCKETCALL_FIRST ≤ nr → nr ≤ K.SCRIBE_SOCKETCALL_LAST →
      (nr - K.SCRIBE_SOCKETCALL_FIRST).toNat < socket_nargs.length) ∧
    ((K.SCRIBE_SOCKETCALL_FIRST ≤ get_nr_syscall K regs ∧
        get_nr_syscall K regs ≤ K.SCRIBE_SOCKETCALL_LAST) ∨
      (K.SCRIBE_FUTEX_FIRST ≤ get_nr_syscall K regs ∧
        get_nr_syscall K regs ≤ K.SCRIBE_FUTEX_LAST) →
      (cache_syscall_info K copy_from_user s regs).syscall.num_args ≤ 6) ∧
    (K.SYS_RECVMMSG = 19 → 0 ≤ K.NR_syscalls →
      K.NR_syscalls ≤ K.SCRIBE_SOCKETCALL_FIRST →
      K.SCRIBE_SOCKETCALL_FIRST + 19 ≤ K.SCRIBE_SOCKETCALL_LAST →
      K.SCRIBE_SOCKETCALL_LAST < K.NR_scribe_syscalls →
      K.SCRIBE_SOCKETCALL_LAST < 2 ^ 31 →
      0 ≤ regs.orig_ax → regs.orig_ax < K.NR_syscalls →
      regs.orig_ax ≠ K.__NR_futex →
      0 ≤ get_nr_syscall K regs ∧ get_nr_syscall K regs < K.NR_scribe_syscalls) := by
  refine ⟨?_, ?_, ?_⟩
  · intro h1 h2 h3
    simp only [socket_nargs, List.length_cons, List.length_nil]
    omega
  · intro h
    have hn : get_num_args K (get_nr_syscall K regs) ≤ 6 := by
      unfold get_num_args
      split_ifs
      · exact socket_nargs_le_six _
      · exact le_refl 6
      · rcases h with h | h <;> contradiction
    unfold cache_syscall_info
    simp only
    split_ifs <;> first | exact hn | exact (by decide : (2 : Nat) ≤ 6)
  · intro hsel h0 hle hrange hlast hint hr0 hr1 hfut
    by_cases hsock : regs.orig_ax = K.__NR_socketcall
    · have h19 : to_ulong K.SYS_RECVMMSG = 19 := by rw [hsel]; decide
      rw [get_nr_syscall_socketcall K regs hsock, h19]
      split_ifs with hb
      · rw [← hsock]; omega
      · rw [to_int_base_add _ _ (by omega) (by omega)]
        omega
    · have e : get_nr_syscall K regs = regs.orig_ax := by
        simp [get_nr_syscall, syscall_get_nr, hsock, hfut]
      rw [e]; omega

/-- C19 (the code at the failing input): a `futex` call, whose raw number 240
is in `[0, NR_syscalls)`, with operation 13.  `get_nr_syscall` returns the
identity 376, which is not in `[0, NR_scribe_syscalls)`: `cache_syscall_info`
caches it, and the bitmap test of `should_bypass_syscall` reads the bit at
offset 376, behind the 376 bits of the enable bitmap. -/
theorem resolver_bounds_futex_op_13 :
    (0 : Int) ≤ (⟨240, 0, 0x8049000, 13, 0, 0, 0, 0⟩ : pt_regs).orig_ax ∧
    (⟨240, 0, 0x8049000, 13, 0, 0, 0, 0⟩ : pt_regs).orig_ax <
      Consts.x86_32.NR_syscalls ∧
    Consts.x86_32.NR_scribe_syscalls = 376 ∧
    get_nr_syscall Consts.x86_32 ⟨240, 0, 0x8049000, 13, 0, 0, 0, 0⟩ = 376 ∧
    ¬ (0 ≤ get_nr_syscall Consts.x86_32 ⟨240, 0, 0x8049000, 13, 0, 0, 0, 0⟩ ∧
      get_nr_syscall Consts.x86_32 ⟨240, 0, 0x8049000, 13, 0, 0, 0, 0⟩ <
        Consts.x86_32.NR_scribe_syscalls) ∧
    (cache_syscall_info Consts.x86_32 (fun _ _ => none) replay_unit
      ⟨240, 0, 0x8049000, 13, 0, 0, 0, 0⟩).syscall.nr = 376 ∧
    should_bypass_syscall
        (cache_syscall_info Consts.x86_32 (fun _ _ => none) replay_unit
          ⟨240, 0, 0x8049000, 13, 0, 0, 0, 0⟩) =
      !replay_unit.sys_enable_bitmap 376 := by
  decide

/-- The escape of the futex expansion from the universe, for every constant
table in which the universe ends right behind the futex range: the first
unknown command `c = SCRIBE_FUTEX_LAST - SCRIBE_FUTEX_FIRST + 1`, when the
mask lets it through, resolves to an identity that is not below
`NR_scribe_syscalls`. -/
theorem resolver_bounds_futex_escape (K : Consts) (regs : pt_regs)
    (hne : K.__NR_futex ≠ K.__NR_socketcall)
    (hfirst : 0 < K.SCRIBE_FUTEX_FIRST)
    (hint : K.SCRIBE_FUTEX_LAST + 1 < 2 ^ 31)
    (huniv : K.NR_scribe_syscalls ≤ K.SCRIBE_FUTEX_LAST + 1)
    (hraw : regs.orig_ax = K.__NR_futex)
    (hcmd : ((regs.cx &&& to_ulong K.FUTEX_CMD_MASK : Nat) : Int) =
      K.SCRIBE_FUTEX_LAST - K.SCRIBE_FUTEX_FIRST + 1) :
    ¬ (get_nr_syscall K regs < K.NR_scribe_syscalls) := by
  have h := futex_expansion_gap K regs hne (le_of_lt hfirst) hraw (by omega)
    (by omega) (by omega)
  rw [h.1]
  omega

end Scribe
